import Mathlib

/-!
Verification development for the phpIPAM → NetBox migration engine
(src/migrate_phpipam_to_netbox.py and src/create_netbox_sites.py).

The Python source is shallowly embedded: pure helpers become Lean
functions on strings (represented as lists of characters where that
makes definitions simpler), the stateful migration loops become
explicit state passing over a model of the NetBox store, and remote
calls are recorded in an event trace.  The NetBox/pynetbox target
store itself is not part of the repository; it is modelled from the
spec's TargetStore description (natural-key filtered list, create)
together with the documented client conventions (a None-valued filter
parameter is omitted from the query; created objects receive fresh
numeric ids).  phpIPAM reads are modelled as returning a fixed
snapshot, since the source system is read-only for the engine.

Python string operations are modelled on code-point lists: slicing
s[:n] is take n, str.lower is per-character lowercasing (the source
only ever keeps ASCII afterwards), str.strip trims ASCII whitespace,
and the substring test "a in b" is contiguous-sublist search.
-/

/-- Characters treated as whitespace by the model of str.strip. -/
def pyWhitespace (c : Char) : Bool :=
  c == ' ' || c == '\t' || c == '\n' || c == '\r'

/-- Model of Python s[:n] : first n code points. -/
def strTake (s : String) (n : Nat) : String :=
  String.mk (s.toList.take n)

/-- Model of Python str.lower restricted to ASCII case mapping. -/
def strLower (s : String) : String :=
  String.mk (s.toList.map Char.toLower)

/-- Model of Python str.strip() with no arguments. -/
def strStrip (s : String) : String :=
  String.mk (((s.toList.dropWhile pyWhitespace).reverse.dropWhile pyWhitespace).reverse)

/-- Does the list ys start with xs? -/
def listStartsWith : List Char → List Char → Bool
  | [], _ => true
  | _ :: _, [] => false
  | a :: as, b :: bs => a == b && listStartsWith as bs

/-- Contiguous sublist search, modelling Python "needle in hay" on strings. -/
def listContainsSub (needle : List Char) : List Char → Bool
  | [] => needle.isEmpty
  | h :: hs => listStartsWith needle (h :: hs) || listContainsSub needle hs

/-- Model of Python "needle in hay" for strings. -/
def strContains (hay needle : String) : Bool :=
  listContainsSub needle.toList hay.toList

/-- Python truthiness of an optional string (None and "" are falsy). -/
def pyTruthy (o : Option String) : Bool :=
  match o with
  | none => false
  | some s => !(s.isEmpty)

/-- Model of (value or "") for an optional string field. -/
def pyOrEmpty (o : Option String) : String := o.getD ""

/-- Model of safe_str: convert to string, default if None. -/
def safe_str (value : Option String) (default : String := "") : String :=
  match value with
  | none => default
  | some s => s

/-- Model of (s or None) used when building payload fields. -/
def strOrNone (s : String) : Option String :=
  if s.isEmpty then none else some s

/-- Decimal digit test. -/
def isDigitChar (c : Char) : Bool := '0' ≤ c && c ≤ '9'

/-- Numeric value of a list of decimal digits. -/
def decimalVal (l : List Char) : Nat :=
  l.foldl (fun acc c => acc * 10 + (c.toNat - '0'.toNat)) 0

/-- Model of Python int(s) for the strings the engine feeds it:
optional surrounding whitespace, optional sign, then decimal digits. -/
def pyInt? (s : String) : Option Int :=
  let t := (s.toList.dropWhile pyWhitespace).reverse.dropWhile pyWhitespace |>.reverse
  match t with
  | '-' :: ds => if ds ≠ [] && ds.all isDigitChar then some (-(decimalVal ds : Int)) else none
  | '+' :: ds => if ds ≠ [] && ds.all isDigitChar then some ((decimalVal ds : Int)) else none
  | ds => if ds ≠ [] && ds.all isDigitChar then some ((decimalVal ds : Int)) else none

-- ───────────────────────── Slug generation ─────────────────────────

/-- Characters a NetBox slug may contain. -/
def isSlugChar (c : Char) : Bool :=
  ('a' ≤ c && c ≤ 'z') || ('0' ≤ c && c ≤ '9') || c == '-'

/-- Collapse runs of hyphens to a single hyphen, modelling re.sub('-+', '-', s). -/
def collapseHyphens : List Char → List Char
  | [] => []
  | [c] => [c]
  | a :: b :: rest =>
      if a == '-' && b == '-' then collapseHyphens (b :: rest)
      else a :: collapseHyphens (b :: rest)

/-- Model of Python s.strip('-'). -/
def stripHyphens (l : List Char) : List Char :=
  ((l.dropWhile (· == '-')).reverse.dropWhile (· == '-')).reverse

/-- Shared normalization core of both make_slug variants: lowercase, map
space and underscore to hyphen, drop non-slug characters, collapse hyphen
runs, strip outer hyphens. -/
def slugCore (name : String) : List Char :=
  let s := name.toList.map Char.toLower
  let s := s.map (fun c => if c == ' ' || c == '_' then '-' else c)
  let s := s.filter isSlugChar
  stripHyphens (collapseHyphens s)

/-- Model of make_slug from migrate_phpipam_to_netbox.py (fallback "default"). -/
def make_slug (name : String) : String :=
  if name.isEmpty then "default"
  else
    let core := slugCore name
    if core.isEmpty then "default" else String.mk (core.take 50)

/-- Model of make_slug from create_netbox_sites.py (fallback "site",
truncation applied after the emptiness fallback). -/
def make_slug_sites (name : String) : String :=
  let core := slugCore name
  let slug := if core.isEmpty then "site".toList else core
  String.mk (slug.take 50)

-- ───────────────────────── Sanitizers ─────────────────────────

/-- Model of sanitize_dns_name: keep only characters NetBox allows in a
DNS name, truncate to 255. -/
def sanitize_dns_name (hostname : String) : String :=
  if hostname.isEmpty then ""
  else
    let allowed := fun c =>
      ('a' ≤ c && c ≤ 'z') || ('A' ≤ c && c ≤ 'Z') || isDigitChar c ||
      c == '*' || c == '-' || c == '.' || c == '_'
    String.mk ((hostname.toList.filter allowed).take 255)

/-- Model of sanitize_description: strip and truncate to max_length. -/
def sanitize_description (desc : String) (maxLength : Nat := 200) : String :=
  if desc.isEmpty then ""
  else strTake (strStrip desc) maxLength

-- ───────────────────────── Error classification ─────────────────────────

/-- Keywords whose presence classifies an error as a connection error. -/
def connectionIndicators : List String :=
  ["connection", "timeout", "timed out", "reset", "refused",
   "disconnected", "broken pipe", "network", "unreachable",
   "502", "503", "504", "429", "remotedisconnected"]

/-- Model of is_connection_error: any connection indicator occurs in the
lowercased error text. -/
def is_connection_error (error : String) : Bool :=
  connectionIndicators.any (fun ind => strContains (strLower error) ind)

/-- Keywords whose presence classifies an error as a validation error. -/
def validationIndicators : List String :=
  ["400", "already exists", "duplicate", "unique constraint",
   "invalid", "required", "must be", "cannot be", "not allowed"]

/-- Model of is_validation_error: any validation indicator occurs in the
lowercased error text. -/
def is_validation_error (error : String) : Bool :=
  validationIndicators.any (fun ind => strContains (strLower error) ind)

-- ───────────────────────── IP network parsing ─────────────────────────

/-- Model of ipaddress octet parsing: 1-3 ASCII digits, value at most 255,
no leading zero. -/
def validIPv4Part (l : List Char) : Bool :=
  !l.isEmpty && l.all isDigitChar && l.length ≤ 3 &&
  (l.head? != some '0' || l.length == 1) && decimalVal l ≤ 255

/-- Model of IPv4 address validity as checked by Python ipaddress. -/
def isValidIPv4 (s : String) : Bool :=
  let parts := s.toList.splitOn '.'
  parts.length == 4 && parts.all validIPv4Part

/-- Hexadecimal digit test. -/
def isHexChar (c : Char) : Bool :=
  isDigitChar c || ('a' ≤ c && c ≤ 'f') || ('A' ≤ c && c ≤ 'F')

/-- Model of ipaddress hextet parsing: 1-4 hex digits. -/
def validHextet (l : List Char) : Bool :=
  !l.isEmpty && l.length ≤ 4 && l.all isHexChar

/-- Replace a dotted-quad final part of a split IPv6 address by two hextet
placeholders (an invalid dotted tail yields a deliberately invalid list). -/
def ipv6Normalize (parts0 : List (List Char)) : List (List Char) :=
  let last := parts0.getLast?.getD []
  if last.contains '.' then
    if isValidIPv4 (String.mk last) then parts0.dropLast ++ [['0'], ['0']]
    else List.replicate 10 ['x']
  else parts0

/-- Validity of the colon-separated part list of an IPv6 address: at most
one '::' (an empty inner part), a leading or trailing ':' only as part of
'::', and every real part a hextet. -/
def ipv6Body (parts : List (List Char)) : Bool :=
  if 9 < parts.length then false
  else
    let inner : List (List Char) := (parts.drop 1).dropLast
    let emptyInner : Nat := inner.countP (fun p => p.isEmpty)
    if 1 < emptyInner then false
    else if emptyInner == 1 then
      let headOk := !(parts.head?.getD ['x']).isEmpty ||
        ((parts.drop 1).head?.getD ['x']).isEmpty
      let lastOk := !(parts.getLast?.getD ['x']).isEmpty ||
        ((parts.dropLast.getLast?).getD ['x']).isEmpty
      let nonEmptyParts := parts.filter (fun p => !p.isEmpty)
      headOk && lastOk && nonEmptyParts.length ≤ 7 &&
        nonEmptyParts.all validHextet
    else
      parts.length == 8 && parts.all validHextet

/-- Model of IPv6 address validity as checked by Python ipaddress
(an embedded IPv4 tail counts as two hextets). -/
def isValidIPv6 (s : String) : Bool :=
  let parts0 := s.toList.splitOn ':'
  if parts0.length < 3 then false
  else ipv6Body (ipv6Normalize parts0)

/-- Model of a numeric mask string as accepted by ipaddress for the /len
form: ASCII digits only, value within the address family's maximum.
(The dotted-netmask and hostmask forms accepted for IPv4 are not used by
phpIPAM exports and are not modelled.) -/
def validMaskLen (maxLen : Nat) (l : List Char) : Option Nat :=
  if !l.isEmpty && l.all isDigitChar && decimalVal l ≤ maxLen then
    some (decimalVal l)
  else none

/-- Model of ip_network(subnet ++ "/" ++ mask, strict=False).prefixlen:
returns none where Python raises.  A '/' inside either component makes
the combined string split into more than two parts, which Python rejects. -/
def ipNetworkLen? (subnet mask : String) : Option Nat :=
  let parts := (subnet ++ "/" ++ mask).toList.splitOn '/'
  match parts with
  | [addr, m] =>
      if isValidIPv4 (String.mk addr) then validMaskLen 32 m
      else if isValidIPv6 (String.mk addr) then validMaskLen 128 m
      else none
  | _ => none

-- ───────────────────────── Configuration constants ─────────────────────────

/-- Time unit of the model: centiseconds.  REQUEST_DELAY = 0.05 s. -/
def REQUEST_DELAY : Nat := 5

/-- RETRY_DELAY = 5 s, in centiseconds. -/
def RETRY_DELAY : Nat := 500

/-- Retries for connection errors only. -/
def RETRY_ATTEMPTS : Nat := 3

/-- Scope type discriminator used for Section-derived scopes. -/
def SCOPE_TYPE : String := "dcim.site"

-- ───────────────────────── Target store model ─────────────────────────

/-- NetBox VRF record (modelled from the spec's TargetStore: natural key
is the name). -/
structure NBVrf where
  id : Nat
  name : String
  rd : Option String
deriving DecidableEq

/-- NetBox VLAN group record. -/
structure NBVlanGroup where
  id : Nat
  name : String
  slug : String
  description : String
deriving DecidableEq

/-- NetBox VLAN record. -/
structure NBVlan where
  id : Nat
  vid : Int
  name : String
  group : Option Nat
  description : String
deriving DecidableEq

/-- NetBox prefix record (fields the migrator's payload sets). -/
structure NBPfxRec where
  id : Nat
  pfx : String
  vrf : Option Nat
  description : String
  isPool : Bool
  markUtilized : Bool
  scopeType : Option String
  scopeId : Option Nat
  vlan : Option Nat
deriving DecidableEq

/-- NetBox IP address record. -/
structure NBAddrRec where
  id : Nat
  address : String
  vrf : Option Nat
  description : String
  dnsName : String
deriving DecidableEq

/-- NetBox site record (read-only for the engine). -/
structure NBSite where
  id : Nat
  name : String
deriving DecidableEq

/-- State of the target store.  Created objects receive ids from the
nextId counter. -/
structure NBState where
  vrfs : List NBVrf
  vlanGroups : List NBVlanGroup
  vlans : List NBVlan
  pfxs : List NBPfxRec
  addrs : List NBAddrRec
  sites : List NBSite
  nextId : Nat
deriving DecidableEq

/-- Remote interaction events, in issue order.  Sleeps carry their
duration in centiseconds; filter events carry the collection and the
main key of the query. -/
inductive Event where
  | sleep (centis : Nat)
  | nbFilter (coll : String) (query : String)
  | nbCreate (coll : String) (key : String)
  | srcGet (endpoint : String)
deriving DecidableEq

/-- Per-kind counters maintained by each migrator. -/
structure Counts where
  created : Nat
  skipped : Nat
  errors : Nat
deriving DecidableEq

/-- All-zero counters. -/
def Counts.zero : Counts := ⟨0, 0, 0⟩

/-- Python truthiness of an optional numeric id (None and 0 are falsy). -/
def pyTruthyN (o : Option Nat) : Bool :=
  match o with
  | none => false
  | some n => n != 0

/-- Modelled pynetbox lookup: vrfs.filter(name=name). -/
def filterVrfsByName (st : NBState) (name : String) : List NBVrf :=
  st.vrfs.filter (fun r => r.name == name)

/-- Modelled pynetbox lookup: vlan_groups.filter(name=name). -/
def filterGroupsByName (st : NBState) (name : String) : List NBVlanGroup :=
  st.vlanGroups.filter (fun r => r.name == name)

/-- Modelled pynetbox lookup: vlans.filter(vid=vid, group_id=g).  A None
group_id is omitted from the query, so it does not constrain the match. -/
def filterVlansByVid (st : NBState) (vid : Int) (groupId : Option Nat) : List NBVlan :=
  st.vlans.filter (fun r => r.vid == vid &&
    (match groupId with | none => true | some g => r.group == some g))

/-- Modelled pynetbox lookup: vlans.filter(name=name, group_id=g). -/
def filterVlansByName (st : NBState) (name : String) (groupId : Option Nat) : List NBVlan :=
  st.vlans.filter (fun r => r.name == name &&
    (match groupId with | none => true | some g => r.group == some g))

/-- Modelled pynetbox lookup: prefixes.filter(prefix=p, vrf_id=v); a None
vrf_id is omitted from the query. -/
def filterPfxs (st : NBState) (p : String) (vrfId : Option Nat) : List NBPfxRec :=
  st.pfxs.filter (fun r => r.pfx == p &&
    (match vrfId with | none => true | some v => r.vrf == some v))

/-- Host part of a stored address: the text before the '/' of the mask. -/
def hostPart (a : String) : String :=
  String.mk (a.toList.takeWhile (fun c => c ≠ '/'))

/-- Modelled pynetbox lookup: ip_addresses.filter(address=ip, vrf_id=v).
NetBox matches a bare IP against the host part of stored addresses; a
None vrf_id is omitted from the query. -/
def filterAddrs (st : NBState) (ip : String) (vrfId : Option Nat) : List NBAddrRec :=
  st.addrs.filter (fun r => hostPart r.address == ip &&
    (match vrfId with | none => true | some v => r.vrf == some v))

/-- Modelled pynetbox lookup: dcim.sites.filter(name=name). -/
def filterSitesByName (st : NBState) (name : String) : List NBSite :=
  st.sites.filter (fun r => r.name == name)

/-- Modelled create of a VRF: appends the record, returns its fresh id. -/
def createVrf (st : NBState) (name : String) (rd : Option String) : NBState × Nat :=
  ({ st with vrfs := st.vrfs ++ [⟨st.nextId, name, rd⟩], nextId := st.nextId + 1 }, st.nextId)

/-- Modelled create of a VLAN group. -/
def createGroup (st : NBState) (name slug description : String) : NBState × Nat :=
  ({ st with
      vlanGroups := st.vlanGroups ++ [⟨st.nextId, name, slug, description⟩]
      nextId := st.nextId + 1 }, st.nextId)

/-- Modelled create of a VLAN. -/
def createVlan (st : NBState) (vid : Int) (name : String) (group : Option Nat)
    (description : String) : NBState × Nat :=
  ({ st with
      vlans := st.vlans ++ [⟨st.nextId, vid, name, group, description⟩]
      nextId := st.nextId + 1 }, st.nextId)

/-- Modelled create of a prefix. -/
def createPfx (st : NBState) (pl : NBPfxRec) : NBState × Nat :=
  ({ st with
      pfxs := st.pfxs ++ [{ pl with id := st.nextId }]
      nextId := st.nextId + 1 }, st.nextId)

/-- Modelled create of an IP address. -/
def createAddr (st : NBState) (pl : NBAddrRec) : NBState × Nat :=
  ({ st with
      addrs := st.addrs ++ [{ pl with id := st.nextId }]
      nextId := st.nextId + 1 }, st.nextId)

-- ───────────────────────── Source snapshot model ─────────────────────────

/-- phpIPAM VRF record (fields the engine reads). -/
structure PVrf where
  vrfId : Option String
  name : Option String
  rd : Option String
deriving DecidableEq

/-- phpIPAM section record. -/
structure PSection where
  id : Option String
  name : Option String
  description : Option String
deriving DecidableEq

/-- phpIPAM L2 domain record. -/
structure PDomain where
  id : Option String
  name : Option String
  description : Option String
deriving DecidableEq

/-- phpIPAM VLAN record. -/
structure PVlan where
  id : Option String
  number : Option String
  vlanId : Option String
  name : Option String
  domainId : Option String
  description : Option String
deriving DecidableEq

/-- phpIPAM subnet record. -/
structure PSubnet where
  subnet : Option String
  mask : Option String
  sectionId : Option String
  vrfId : Option String
  vlanId : Option String
  isPool : Option String
  isFull : Option String
  description : Option String
deriving DecidableEq

/-- phpIPAM address record. -/
structure PAddr where
  ip : Option String
  hostname : Option String
  description : Option String
  vrfId : Option String
deriving DecidableEq

/-- A full read-only snapshot of the source system, one collection per
endpoint served by phpipam_get. -/
structure Snapshot where
  sections : List PSection
  vrfs : List PVrf
  l2domains : List PDomain
  vlans : List PVlan
  subnets : List PSubnet
  addresses : List PAddr
deriving DecidableEq

-- ───────────────────────── Identity caches ─────────────────────────

/-- Python dict lookup on an insertion-ordered association list: the
last binding of a key wins. -/
def dictLookup (d : List (String × String)) (k : String) : Option String :=
  (d.reverse.find? (fun e => e.1 == k)).map (fun e => e.2)

/-- Python dict lookup for the VLAN id cache. -/
def dictLookupN (d : List (String × Nat)) (k : String) : Option Nat :=
  (d.reverse.find? (fun e => e.1 == k)).map (fun e => e.2)

/-- Python dict key-membership for the VLAN id cache. -/
def dictMemN (d : List (String × Nat)) (k : String) : Bool :=
  (dictLookupN d k).isSome

/-- Dict comprehension {str(x.id): x.name for x if x.id} as used for the
sections cache and the l2-domain dict.  In the source a record with a
truthy id but a missing name key raises inside the surrounding try and
the whole dict degrades to empty; str() on ids is the identity because
phpIPAM serializes ids as strings. -/
def buildNameDict (l : List (Option String × Option String)) : List (String × String) :=
  if l.all (fun p => !pyTruthy p.1 || p.2.isSome) then
    (l.filter (fun p => pyTruthy p.1)).map (fun p => (p.1.getD "", p.2.getD ""))
  else []

/-- SECTIONS_CACHE built by build_caches. -/
def buildSectionsCache (sections : List PSection) : List (String × String) :=
  buildNameDict (sections.map (fun s => (s.id, s.name)))

/-- VRFS_CACHE built by build_caches ({str(v.vrfId): v.name for v if
v.vrfId}, empty when the vrfs read returns nothing). -/
def buildVrfsCache (vrfs : List PVrf) : List (String × String) :=
  if vrfs.isEmpty then []
  else buildNameDict (vrfs.map (fun v => (v.vrfId, v.name)))

/-- Model of get_section_name: resolve a section id via the cache. -/
def get_section_name (cache : List (String × String)) (sectionId : Option String) :
    Option String :=
  if !pyTruthy sectionId then none else dictLookup cache (sectionId.getD "")

/-- Model of get_vrf_name: resolve a VRF id via the cache. -/
def get_vrf_name (cache : List (String × String)) (vrfId : Option String) :
    Option String :=
  if !pyTruthy vrfId then none else dictLookup cache (vrfId.getD "")

-- ───────────────────────── Shared helpers of migrators ─────────────────────────

/-- Fold a per-record step over a snapshot collection, concatenating the
event traces the steps emit. -/
def runFold {σ α : Type} (step : σ → α → σ × List Event) : List α → σ → σ × List Event
  | [], s => (s, [])
  | r :: rs, s =>
    let (s1, e1) := step s r
    let (s2, e2) := runFold step rs s1
    (s2, e1 ++ e2)

/-- Model of get_or_create_vrf: look the VRF up by name; create it when
absent (unless dry-run, which returns None without mutating).  Remote
reads are modelled as reliable; the internal exception handler of the
source is therefore never reached here. -/
def get_or_create_vrf (dry : Bool) (st : NBState) (name : String) :
    Option Nat × NBState × List Event :=
  if name.isEmpty then (none, st, [])
  else
    let ev := [Event.sleep REQUEST_DELAY, Event.nbFilter "vrfs" name]
    match filterVrfsByName st name with
    | v :: _ => (some v.id, st, ev)
    | [] =>
      if dry then (none, st, ev)
      else
        let (st2, newId) := createVrf st (strTake name 100) none
        (some newId, st2, ev ++ [Event.sleep REQUEST_DELAY, Event.nbCreate "vrfs" name])

/-- Model of get_scope_for_section: map a section name through the
externally supplied SECTION_MAPPING (identity when the mapping is empty)
and resolve the resulting site name against the target's sites. -/
def get_scope_for_section (mapping : List (String × String)) (st : NBState)
    (sectionName : Option String) : (Option String × Option Nat) × List Event :=
  if !pyTruthy sectionName then ((none, none), [])
  else
    let sname := sectionName.getD ""
    let siteName := if mapping.isEmpty then some sname else dictLookup mapping sname
    if !pyTruthy siteName then ((none, none), [])
    else
      let ev := [Event.sleep REQUEST_DELAY, Event.nbFilter "sites" (siteName.getD "")]
      match filterSitesByName st (siteName.getD "") with
      | [] => ((none, none), ev)
      | s :: _ => ((some SCOPE_TYPE, some s.id), ev)

-- ───────────────────────── VRF migrator ─────────────────────────

/-- One iteration of the migrate_vrfs loop (remote calls modelled as
reliable, so the per-record exception handlers are not reached). -/
def vrfStep (dry : Bool) : NBState × Counts → PVrf → (NBState × Counts) × List Event :=
  fun sc v =>
    let st := sc.1
    let c := sc.2
    let name := strStrip (pyOrEmpty v.name)
    if name.isEmpty then ((st, c), [])
    else
      let ev := [Event.sleep REQUEST_DELAY, Event.nbFilter "vrfs" name]
      if !(filterVrfsByName st name).isEmpty then
        ((st, { c with skipped := c.skipped + 1 }), ev)
      else if dry then
        ((st, { c with created := c.created + 1 }), ev)
      else
        let (st2, _) := createVrf st (strTake name 100) (strOrNone (safe_str v.rd))
        ((st2, { c with created := c.created + 1 }),
          ev ++ [Event.sleep REQUEST_DELAY, Event.nbCreate "vrfs" name])

/-- Model of migrate_vrfs. -/
def migrate_vrfs (dry : Bool) (snap : Snapshot) (st : NBState) :
    NBState × Counts × List Event :=
  let fetchEv := [Event.srcGet "vrfs/"]
  if snap.vrfs.isEmpty then (st, Counts.zero, fetchEv)
  else
    let (sc, ev) := runFold (vrfStep dry) snap.vrfs (st, Counts.zero)
    (sc.1, sc.2, fetchEv ++ ev)

-- ───────────────────────── VLAN group migrator ─────────────────────────

/-- One iteration of the migrate_vlan_groups loop. -/
def groupStep (dry : Bool) : NBState × Counts → PDomain → (NBState × Counts) × List Event :=
  fun sc d =>
    let st := sc.1
    let c := sc.2
    let name := strStrip (pyOrEmpty d.name)
    if name.isEmpty then ((st, c), [])
    else
      let ev := [Event.sleep REQUEST_DELAY, Event.nbFilter "vlan_groups" name]
      if !(filterGroupsByName st name).isEmpty then
        ((st, { c with skipped := c.skipped + 1 }), ev)
      else if dry then
        ((st, { c with created := c.created + 1 }), ev)
      else
        let (st2, _) := createGroup st (strTake name 100) (make_slug name)
          (sanitize_description (pyOrEmpty d.description))
        ((st2, { c with created := c.created + 1 }),
          ev ++ [Event.sleep REQUEST_DELAY, Event.nbCreate "vlan_groups" name])

/-- Model of migrate_vlan_groups. -/
def migrate_vlan_groups (dry : Bool) (snap : Snapshot) (st : NBState) :
    NBState × Counts × List Event :=
  let fetchEv := [Event.srcGet "l2domains/"]
  if snap.l2domains.isEmpty then (st, Counts.zero, fetchEv)
  else
    let (sc, ev) := runFold (groupStep dry) snap.l2domains (st, Counts.zero)
    (sc.1, sc.2, fetchEv ++ ev)

-- ───────────────────────── VLAN migrator ─────────────────────────

/-- Dict assignment VLANS_CACHE[k] = v (the last binding of a key wins
on lookup). -/
def cacheSet (d : List (String × Nat)) (k : String) (v : Nat) : List (String × Nat) :=
  d ++ [(k, v)]

/-- State threaded through the VLAN migrator: target store, counters,
and the VLANS_CACHE map from phpIPAM VLAN id to NetBox VLAN id. -/
abbrev VlanFoldState := NBState × Counts × List (String × Nat)

/-- The raw vid field migrate_vlans reads (number, else vlanId, else id). -/
def vlanVidRaw (v : PVlan) : Option String :=
  if pyTruthy v.number then v.number
  else if pyTruthy v.vlanId then v.vlanId else v.id

/-- The VLAN name migrate_vlans derives for a record. -/
def vlanName (v : PVlan) (vid : Int) : String :=
  strTake (strStrip (if pyTruthy v.name then v.name.getD ""
    else "vlan-" ++ toString vid)) 64

/-- Group resolution of migrate_vlans: the l2domain dict decides the
group name, which is looked up in the target store. -/
def vlanGroupPair (st : NBState) (domains : List (String × String)) (v : PVlan) :
    Option Nat × List Event :=
  let domainId := pyOrEmpty v.domainId
  if !domainId.isEmpty && (dictLookup domains domainId).isSome then
    let gname := (dictLookup domains domainId).getD ""
    let ev := [Event.sleep REQUEST_DELAY, Event.nbFilter "vlan_groups" gname]
    match filterGroupsByName st gname with
    | g :: _ => (some g.id, ev)
    | [] => (none, ev)
  else (none, [])

/-- One iteration of the migrate_vlans loop.  The create retry loop of
the source collapses to its first attempt because remote calls are
modelled as reliable (the retry structure itself is modelled once, on
the prefix migrator, which the retry claims cite). -/
def vlanStep (dry : Bool) (domains : List (String × String)) :
    VlanFoldState → PVlan → VlanFoldState × List Event :=
  fun scc v =>
    let st := scc.1
    let c := scc.2.1
    let cache := scc.2.2
    let vidRaw := vlanVidRaw v
    if !pyTruthy vidRaw then ((st, c, cache), [])
    else
      match pyInt? (vidRaw.getD "") with
      | none => ((st, c, cache), [])
      | some vid =>
        let name := vlanName v vid
        let phpipamId := match v.id with | some s => s | none => toString vid
        let groupPair := vlanGroupPair st domains v
        let groupId := groupPair.1
        let ev1 := groupPair.2
        let ev2 := [Event.sleep REQUEST_DELAY, Event.nbFilter "vlans" (toString vid)]
        match filterVlansByVid st vid groupId with
        | e :: _ =>
          ((st, { c with skipped := c.skipped + 1 }, cacheSet cache phpipamId e.id),
            ev1 ++ ev2)
        | [] =>
          let ev3 := [Event.nbFilter "vlans" name]
          match filterVlansByName st name groupId with
          | e :: _ =>
            ((st, { c with skipped := c.skipped + 1 }, cacheSet cache phpipamId e.id),
              ev1 ++ ev2 ++ ev3)
          | [] =>
            if dry then
              ((st, { c with created := c.created + 1 }, cache), ev1 ++ ev2 ++ ev3)
            else
              let groupField := if pyTruthyN groupId then groupId else none
              let (st2, newId) := createVlan st vid name groupField
                (sanitize_description (pyOrEmpty v.description))
              ((st2, { c with created := c.created + 1 }, cacheSet cache phpipamId newId),
                ev1 ++ ev2 ++ ev3 ++ [Event.sleep REQUEST_DELAY, Event.nbCreate "vlans" (toString vid)])

/-- Model of migrate_vlans (returns the populated VLANS_CACHE for the
prefix migrator). -/
def migrate_vlans (dry : Bool) (snap : Snapshot) (st : NBState) :
    NBState × Counts × List (String × Nat) × List Event :=
  let fetchEv := [Event.srcGet "vlans/"]
  if snap.vlans.isEmpty then (st, Counts.zero, [], fetchEv)
  else
    let fetchEv := fetchEv ++ [Event.srcGet "l2domains/"]
    let domains := buildNameDict (snap.l2domains.map (fun d => (d.id, d.name)))
    let (scc, ev) := runFold (vlanStep dry domains) snap.vlans (st, Counts.zero, [])
    (scc.1, scc.2.1, scc.2.2, fetchEv ++ ev)

-- ───────────────────────── Prefix migrator ─────────────────────────

/-- Outcome of a modelled create call: success, a pynetbox RequestError
carrying a message, or some other exception carrying a message. -/
inductive NbResult where
  | ok
  | reqErr (msg : String)
  | exn (msg : String)
deriving DecidableEq

/-- Script under which every create call succeeds. -/
def allOk : Nat → NbResult := fun _ => NbResult.ok

/-- Payload built for one subnet record. -/
structure PfxPayload where
  pfx : String
  description : String
  isPool : Bool
  markUtilized : Bool
  vrf : Option Nat
  scopeType : Option String
  scopeId : Option Nat
  vlan : Option Nat
deriving DecidableEq

/-- Turn a prefix payload into a store record (id filled by create). -/
def PfxPayload.toRec (pl : PfxPayload) : NBPfxRec :=
  ⟨0, pl.pfx, pl.vrf, pl.description, pl.isPool, pl.markUtilized,
    pl.scopeType, pl.scopeId, pl.vlan⟩

/-- The check-and-create retry loop of migrate_prefixes, over the list of
remaining attempt indices (range(RETRY_ATTEMPTS) in the source).  The
existence check is modelled as reliable; the outcome of the create call
on attempt i is given by the script.  Returns the store, counters, the
emitted events, and the number of attempts executed. -/
def pfxTryLoop (dry : Bool) (script : Nat → NbResult) (pl : PfxPayload)
    (vrfId : Option Nat) :
    List Nat → NBState → Counts → NBState × Counts × List Event × Nat
  | [], st, c => (st, c, [], 0)
  | attempt :: rest, st, c =>
    let ev := [Event.sleep REQUEST_DELAY, Event.nbFilter "prefixes" pl.pfx]
    if !(filterPfxs st pl.pfx vrfId).isEmpty then
      (st, { c with skipped := c.skipped + 1 }, ev, 1)
    else if dry then
      (st, { c with created := c.created + 1 }, ev, 1)
    else
      let ev := ev ++ [Event.sleep REQUEST_DELAY, Event.nbCreate "prefixes" pl.pfx]
      match script attempt with
      | NbResult.ok => ((createPfx st pl.toRec).1, { c with created := c.created + 1 }, ev, 1)
      | NbResult.reqErr m =>
        if strContains m "400" || is_validation_error m then
          if strContains (strLower m) "already exists" then
            (st, { c with skipped := c.skipped + 1 }, ev, 1)
          else
            (st, { c with errors := c.errors + 1 }, ev, 1)
        else if decide (attempt < RETRY_ATTEMPTS - 1) && is_connection_error m then
          let r := pfxTryLoop dry script pl vrfId rest st c
          (r.1, r.2.1, ev ++ [Event.sleep RETRY_DELAY] ++ r.2.2.1, r.2.2.2 + 1)
        else
          (st, { c with errors := c.errors + 1 }, ev, 1)
      | NbResult.exn m =>
        if decide (attempt < RETRY_ATTEMPTS - 1) && is_connection_error m then
          let r := pfxTryLoop dry script pl vrfId rest st c
          (r.1, r.2.1, ev ++ [Event.sleep RETRY_DELAY] ++ r.2.2.1, r.2.2.2 + 1)
        else
          (st, { c with errors := c.errors + 1 }, ev, 1)

/-- One iteration of the migrate_prefixes loop: reference resolution,
payload build, then the check-and-create retry loop. -/
def pfxStep (dry : Bool) (sectionsCache vrfsCache mapping : List (String × String))
    (vlanCache : List (String × Nat)) (script : Nat → NbResult) :
    NBState × Counts → PSubnet → (NBState × Counts) × List Event :=
  fun sc s =>
    let st := sc.1
    let c := sc.2
    if !pyTruthy s.subnet || !pyTruthy s.mask then ((st, c), [])
    else
      let pfx := s.subnet.getD "" ++ "/" ++ s.mask.getD ""
      let desc := sanitize_description (pyOrEmpty s.description)
      let sectionName := get_section_name sectionsCache s.sectionId
      let vrfName := get_vrf_name vrfsCache s.vrfId
      let vrfRes :=
        if pyTruthy vrfName then get_or_create_vrf dry st (vrfName.getD "")
        else (none, st, [])
      let vrfId := vrfRes.1
      let st1 := vrfRes.2.1
      let ev1 := vrfRes.2.2
      let scopeRes := get_scope_for_section mapping st1 sectionName
      let scopeType := scopeRes.1.1
      let scopeId := scopeRes.1.2
      let ev2 := scopeRes.2
      let vlanIdP := pyOrEmpty s.vlanId
      let pl : PfxPayload := {
        pfx := pfx
        description := desc
        isPool := s.isPool == some "1" || s.isFull == some "1"
        markUtilized := s.isFull == some "1"
        vrf := if pyTruthyN vrfId then vrfId else none
        scopeType := if pyTruthy scopeType && pyTruthyN scopeId then scopeType else none
        scopeId := if pyTruthy scopeType && pyTruthyN scopeId then scopeId else none
        vlan := if !vlanIdP.isEmpty && dictMemN vlanCache vlanIdP then
            dictLookupN vlanCache vlanIdP else none }
      let r := pfxTryLoop dry script pl vrfId (List.range RETRY_ATTEMPTS) st1 c
      ((r.1, r.2.1), ev1 ++ ev2 ++ r.2.2.1)

/-- Sort key of migrate_prefixes: the parsed prefix length, 999 when the
record cannot be parsed as a network. -/
def get_prefix_len (s : PSubnet) : Nat :=
  match s.subnet, s.mask with
  | some sub, some m => (ipNetworkLen? sub m).getD 999
  | _, _ => 999

/-- Model of subnets.sort(key=get_prefix_len): Python list.sort is a
stable ascending sort, whose output is uniquely determined by sortedness
plus stability, and stable insertion sort computes exactly it. -/
def sortSubnets (l : List PSubnet) : List PSubnet :=
  List.insertionSort (fun a b => get_prefix_len a ≤ get_prefix_len b) l

/-- Model of migrate_prefixes (creates modelled as succeeding; the
failure branches live in pfxTryLoop, exercised by the retry claims). -/
def migrate_prefixes (dry : Bool) (snap : Snapshot)
    (sectionsCache vrfsCache mapping : List (String × String))
    (vlanCache : List (String × Nat)) (st : NBState) :
    NBState × Counts × List Event :=
  let fetchEv := [Event.srcGet "subnets/"]
  if snap.subnets.isEmpty then (st, Counts.zero, fetchEv)
  else
    let sorted := sortSubnets snap.subnets
    let (sc, ev) := runFold (pfxStep dry sectionsCache vrfsCache mapping vlanCache allOk)
      sorted (st, Counts.zero)
    (sc.1, sc.2, fetchEv ++ ev)

-- ───────────────────────── Address migrator ─────────────────────────

/-- One iteration of the migrate_addresses loop (check-and-create loop
collapsed to its reliable first attempt, as for VLANs). -/
def addrStep (dry : Bool) (vrfsCache : List (String × String)) :
    NBState × Counts → PAddr → (NBState × Counts) × List Event :=
  fun sc a =>
    let st := sc.1
    let c := sc.2
    if !pyTruthy a.ip then ((st, c), [])
    else
      let ip := a.ip.getD ""
      let mask := if strContains ip ":" then "128" else "32"
      let address := ip ++ "/" ++ mask
      let vrfName := get_vrf_name vrfsCache a.vrfId
      let vrfRes :=
        if pyTruthy vrfName then get_or_create_vrf dry st (vrfName.getD "")
        else (none, st, [])
      let vrfId := vrfRes.1
      let st1 := vrfRes.2.1
      let ev1 := vrfRes.2.2
      let rawHostname := pyOrEmpty a.hostname
      let description := sanitize_description
        (if pyTruthy a.description then a.description.getD "" else rawHostname)
      let dnsName := sanitize_dns_name rawHostname
      let ev2 := [Event.sleep REQUEST_DELAY, Event.nbFilter "ip_addresses" ip]
      if !(filterAddrs st1 ip vrfId).isEmpty then
        ((st1, { c with skipped := c.skipped + 1 }), ev1 ++ ev2)
      else if dry then
        ((st1, { c with created := c.created + 1 }), ev1 ++ ev2)
      else
        let st2 := (createAddr st1
          ⟨0, address, if pyTruthyN vrfId then vrfId else none, description, dnsName⟩).1
        ((st2, { c with created := c.created + 1 }),
          ev1 ++ ev2 ++ [Event.sleep REQUEST_DELAY, Event.nbCreate "ip_addresses" ip])

/-- Model of migrate_addresses. -/
def migrate_addresses (dry : Bool) (snap : Snapshot)
    (vrfsCache : List (String × String)) (st : NBState) :
    NBState × Counts × List Event :=
  let fetchEv := [Event.srcGet "addresses/"]
  if snap.addresses.isEmpty then (st, Counts.zero, fetchEv)
  else
    let (sc, ev) := runFold (addrStep dry vrfsCache) snap.addresses (st, Counts.zero)
    (sc.1, sc.2, fetchEv ++ ev)

-- ───────────────────────── Orchestrator ─────────────────────────

/-- Result of one full run of main(): final target state, per-kind
counters, and the full remote-interaction trace. -/
structure RunResult where
  st : NBState
  vrfCounts : Counts
  groupCounts : Counts
  vlanCounts : Counts
  pfxCounts : Counts
  addrCounts : Counts
  trace : List Event
deriving DecidableEq

/-- Model of main(): build caches, then run the migrators in dependency
order.  The mapping parameter is the externally generated
SECTION_MAPPING table. -/
def runMigration (dry : Bool) (mapping : List (String × String))
    (snap : Snapshot) (st0 : NBState) : RunResult :=
  let cacheEv := [Event.srcGet "sections/", Event.srcGet "vrfs/"]
  let sectionsCache := buildSectionsCache snap.sections
  let vrfsCache := buildVrfsCache snap.vrfs
  let r1 := migrate_vrfs dry snap st0
  let r2 := migrate_vlan_groups dry snap r1.1
  let r3 := migrate_vlans dry snap r2.1
  let r4 := migrate_prefixes dry snap sectionsCache vrfsCache mapping r3.2.2.1 r3.1
  let r5 := migrate_addresses dry snap vrfsCache r4.1
  ⟨r5.1, r1.2.1, r2.2.1, r3.2.1, r4.2.1, r5.2.1,
    cacheEv ++ r1.2.2 ++ r2.2.2 ++ r3.2.2.2 ++ r4.2.2 ++ r5.2.2⟩

-- ───────────────────────── Site-creation script (slug part) ─────────────────────────

/-- Candidate slug tried by the collision loop of create_sites:
f-string base-counter truncated back to 50 characters. -/
def slug_candidate (base : String) (n : Nat) : String :=
  strTake (base ++ "-" ++ toString n) 50

/-- The while-loop of create_sites resolving a slug collision, with
explicit fuel (the source loop has none and need not terminate). -/
def find_unique_slug : Nat → Nat → List String → String → Option String
  | 0, _, _, _ => none
  | fuel + 1, counter, used, base =>
    let cand := slug_candidate base counter
    if used.contains cand then find_unique_slug fuel (counter + 1) used base
    else some cand

/-- Slug assignment for one new site: the base slug when fresh, else the
collision loop starting at counter 1. -/
def assign_site_slug (used : List String) (base : String) : Option String :=
  if used.contains base then find_unique_slug (used.length + 1) 1 used base
  else some base

/-- The slug-producing part of the create_sites loop: walks the sections,
skipping empty names and sites that already exist by name, and threads
the used_slugs set.  Returns none if a collision loop fails to produce a
fresh slug within its fuel (the source would spin forever). -/
def create_sites_slugs (existing : List String) :
    List PSection → List String → Option (List String)
  | [], _used => some []
  | s :: rest, used =>
    if !pyTruthy s.name then create_sites_slugs existing rest used
    else if (strStrip (s.name.getD "")).isEmpty then create_sites_slugs existing rest used
    else if existing.contains (strStrip (s.name.getD "")) then create_sites_slugs existing rest used
    else
      match assign_site_slug used (make_slug_sites (strStrip (s.name.getD ""))) with
      | none => none
      | some slug =>
        (create_sites_slugs existing rest (used ++ [slug])).map (fun l => slug :: l)

-- ───────────────────────── Spec-side predicates ─────────────────────────

/-- The spec's slug pattern: nonempty, at most 50 characters, all from
the lowercase-alphanumeric-hyphen alphabet. -/
def isValidSlug (s : String) : Prop :=
  s.toList ≠ [] ∧ s.toList.length ≤ 50 ∧ ∀ c ∈ s.toList, isSlugChar c = true

example : make_slug "Hello World_Test!" = "hello-world-test" := by decide
example : make_slug "" = "default" := by decide
example : make_slug "!!!" = "default" := by decide
example : strStrip "  ab c  " = "ab c" := by decide
example : is_connection_error "Connection reset by peer" = true := by decide
example : is_validation_error "already exists" = true := by decide
example : isValidIPv4 "10.0.0.0" = true := by decide
example : isValidIPv4 "10.0.0.256" = false := by decide
example : isValidIPv6 "fe80::1" = true := by decide
example : ipNetworkLen? "10.0.0.0" "24" = some 24 := by decide
example : ipNetworkLen? "banana" "24" = none := by decide
example : pyInt? " 42 " = some 42 := by decide
example : pyInt? "x1" = none := by decide

-- ───────────────────────── General helper lemmas ─────────────────────────

theorem string_isEmpty_iff (s : String) : s.isEmpty = true ↔ s.toList = [] := by
  rw [String.isEmpty_iff]
  constructor
  · intro h; rw [h]; rfl
  · intro h
    cases s with
    | mk data => simp only [String.toList] at h; subst h; rfl

theorem toList_mk (l : List Char) : (String.mk l).toList = l := rfl

-- ───────────────────────── Slug lemmas (claim C2) ─────────────────────────

theorem mem_collapseHyphens : ∀ (l : List Char) (c : Char), c ∈ collapseHyphens l → c ∈ l := by
  intro l
  induction l with
  | nil => intro c h; simp [collapseHyphens] at h
  | cons a tail ih =>
    cases tail with
    | nil => intro c h; simpa [collapseHyphens] using h
    | cons b rest =>
      intro c h
      by_cases hab : (a == '-' && b == '-') = true
      · rw [collapseHyphens, if_pos hab] at h
        exact List.mem_cons_of_mem a (ih c h)
      · rw [collapseHyphens, if_neg hab] at h
        rcases List.mem_cons.mp h with h1 | h2
        · exact h1 ▸ List.mem_cons_self a _
        · exact List.mem_cons_of_mem a (ih c h2)

theorem mem_stripHyphens {l : List Char} {c : Char} (h : c ∈ stripHyphens l) : c ∈ l := by
  unfold stripHyphens at h
  rw [List.mem_reverse] at h
  have h1 := (List.dropWhile_sublist _).subset h
  rw [List.mem_reverse] at h1
  exact (List.dropWhile_sublist _).subset h1

theorem slugCore_chars (name : String) : ∀ c ∈ slugCore name, isSlugChar c = true := by
  intro c hc
  unfold slugCore at hc
  have h1 := mem_collapseHyphens _ _ (mem_stripHyphens hc)
  exact (List.mem_filter.mp h1).2

theorem take_valid_of_core (core : List Char) (hne : core ≠ [])
    (hchars : ∀ c ∈ core, isSlugChar c = true) :
    isValidSlug (String.mk (core.take 50)) := by
  refine ⟨?_, ?_, ?_⟩
  · rw [toList_mk]
    cases core with
    | nil => exact absurd rfl hne
    | cons a t => simp [List.take]
  · rw [toList_mk, List.length_take]
    exact min_le_left _ _
  · rw [toList_mk]
    intro c hc
    exact hchars c ((List.take_sublist _ _).subset hc)

theorem make_slug_valid (name : String) : isValidSlug (make_slug name) := by
  unfold make_slug
  by_cases h0 : name.isEmpty = true
  · rw [if_pos h0]; refine ⟨by decide, by decide, by decide⟩
  · rw [if_neg h0]
    by_cases h1 : (slugCore name).isEmpty = true
    · rw [if_pos h1]; refine ⟨by decide, by decide, by decide⟩
    · rw [if_neg h1]
      have hne : slugCore name ≠ [] := by
        intro h; rw [h] at h1; exact h1 rfl
      exact take_valid_of_core _ hne (slugCore_chars name)

theorem make_slug_sites_valid (name : String) : isValidSlug (make_slug_sites name) := by
  unfold make_slug_sites
  show isValidSlug (String.mk (List.take 50
    (if (slugCore name).isEmpty = true then "site".toList else slugCore name)))
  by_cases h1 : (slugCore name).isEmpty = true
  · rw [if_pos h1]
    exact take_valid_of_core _ (by decide) (by decide)
  · rw [if_neg h1]
    have hne : slugCore name ≠ [] := by
      intro h; rw [h] at h1; exact h1 rfl
    exact take_valid_of_core _ hne (slugCore_chars name)

theorem digitChar_isSlug (n : Nat) (h : n < 10) : isSlugChar (Nat.digitChar n) = true := by
  interval_cases n <;> decide

theorem toDigitsCore_chars (b : Nat) (hb : b = 10) :
    ∀ (fuel n : Nat) (ds : List Char), ∀ c ∈ Nat.toDigitsCore b fuel n ds,
      c ∈ ds ∨ isSlugChar c = true := by
  intro fuel
  induction fuel with
  | zero => intro n ds c hc; exact Or.inl hc
  | succ f ih =>
    intro n ds c hc
    rw [Nat.toDigitsCore] at hc
    have hd : isSlugChar (Nat.digitChar (n % b)) = true := by
      refine digitChar_isSlug _ ?_
      rw [hb]; exact Nat.mod_lt _ (by norm_num)
    by_cases hz : n / b = 0
    · rw [if_pos hz] at hc
      rcases List.mem_cons.mp hc with h1 | h2
      · exact Or.inr (h1 ▸ hd)
      · exact Or.inl h2
    · rw [if_neg hz] at hc
      rcases ih _ _ _ hc with h1 | h2
      · rcases List.mem_cons.mp h1 with h3 | h4
        · exact Or.inr (h3 ▸ hd)
        · exact Or.inl h4
      · exact Or.inr h2

theorem toString_nat_chars (n : Nat) : ∀ c ∈ (toString n).toList, isSlugChar c = true := by
  intro c hc
  have h : (toString n).toList = Nat.toDigits 10 n := rfl
  rw [h, Nat.toDigits] at hc
  rcases toDigitsCore_chars 10 rfl _ _ _ c hc with h1 | h2
  · simp at h1
  · exact h2

theorem slug_candidate_valid (base : String) (n : Nat) (hb : isValidSlug base) :
    isValidSlug (slug_candidate base n) := by
  unfold slug_candidate strTake
  refine take_valid_of_core _ ?_ ?_
  · have : (base ++ "-" ++ toString n).toList = base.toList ++ "-".toList ++ (toString n).toList := rfl
    rw [this]
    intro h
    rcases List.append_eq_nil.mp (List.append_eq_nil.mp h).1 with ⟨h1, _⟩
    exact hb.1 h1
  · have : (base ++ "-" ++ toString n).toList = base.toList ++ "-".toList ++ (toString n).toList := rfl
    rw [this]
    intro c hc
    rcases List.mem_append.mp hc with h1 | h2
    · rcases List.mem_append.mp h1 with h3 | h4
      · exact hb.2.2 c h3
      · have : c = '-' := by simpa using h4
        rw [this]; decide
    · exact toString_nat_chars n c h2

theorem find_unique_slug_fresh :
    ∀ (fuel counter : Nat) (used : List String) (base : String) (s : String),
      find_unique_slug fuel counter used base = some s →
      s ∉ used ∧ ∃ n, s = slug_candidate base n := by
  intro fuel
  induction fuel with
  | zero => intro counter used base s h; simp [find_unique_slug] at h
  | succ f ih =>
    intro counter used base s h
    rw [find_unique_slug] at h
    by_cases hc : used.contains (slug_candidate base counter) = true
    · rw [if_pos hc] at h
      exact ih _ _ _ _ h
    · rw [if_neg hc] at h
      have hs : s = slug_candidate base counter := by
        injection h with h'; exact h'.symm
      subst hs
      refine ⟨?_, counter, rfl⟩
      intro hmem
      exact hc (List.contains_iff_exists_mem_beq.mpr ⟨_, hmem, by simp⟩)

theorem assign_site_slug_fresh (used : List String) (base : String) (s : String)
    (hb : isValidSlug base) (h : assign_site_slug used base = some s) :
    s ∉ used ∧ isValidSlug s := by
  unfold assign_site_slug at h
  by_cases hc : used.contains base = true
  · rw [if_pos hc] at h
    rcases find_unique_slug_fresh _ _ _ _ _ h with ⟨h1, n, h2⟩
    exact ⟨h1, h2 ▸ slug_candidate_valid base n hb⟩
  · rw [if_neg hc] at h
    have hs : s = base := by injection h with h'; exact h'.symm
    subst hs
    refine ⟨?_, hb⟩
    intro hmem
    exact hc (List.contains_iff_exists_mem_beq.mpr ⟨_, hmem, by simp⟩)

theorem create_sites_slugs_sound :
    ∀ (sections : List PSection) (existing used slugs : List String),
      create_sites_slugs existing sections used = some slugs →
      slugs.Nodup ∧ (∀ s ∈ slugs, s ∉ used) ∧ (∀ s ∈ slugs, isValidSlug s) := by
  intro sections
  induction sections with
  | nil =>
    intro existing used slugs h
    rw [create_sites_slugs] at h
    injection h with h'
    subst h'
    exact ⟨List.nodup_nil, by simp, by simp⟩
  | cons sec rest ih =>
    intro existing used slugs h
    rw [create_sites_slugs] at h
    split_ifs at h with h1 h2 h3
    · exact ih _ _ _ h
    · exact ih _ _ _ h
    · exact ih _ _ _ h
    · rcases hassign : assign_site_slug used (make_slug_sites (strStrip (sec.name.getD "")))
        with _ | slug
      all_goals rw [hassign] at h
      · exact absurd h (by simp)
      · change Option.map (fun l => slug :: l)
          (create_sites_slugs existing rest (used ++ [slug])) = some slugs at h
        rcases hrest : create_sites_slugs existing rest (used ++ [slug]) with _ | l
        all_goals rw [hrest] at h
        · exact absurd h (by simp)
        · rw [Option.map_some'] at h
          have hsl : slugs = slug :: l := by
            injection h with h'
            exact h'.symm
          subst hsl
          rcases assign_site_slug_fresh _ _ _ (make_slug_sites_valid _) hassign with
            ⟨hfresh, hvalid⟩
          rcases ih _ _ _ hrest with ⟨hnodup, hnotused, hvalids⟩
          refine ⟨?_, ?_, ?_⟩
          · refine List.nodup_cons.mpr ⟨?_, hnodup⟩
            intro hmem
            have := hnotused _ hmem
            simp at this
          · intro s hs
            rcases List.mem_cons.mp hs with h4 | h5
            · exact h4 ▸ hfresh
            · intro hmem
              exact (hnotused _ h5) (List.mem_append_left _ hmem)
          · intro s hs
            rcases List.mem_cons.mp hs with h4 | h5
            · exact h4 ▸ hvalid
            · exact hvalids _ h5

theorem mk_toList (s : String) : String.mk s.toList = s := by
  cases s; rfl

theorem strip_take_of_full (base : String) (n : Nat) (h : base.toList.length = 50) :
    slug_candidate base n = base := by
  unfold slug_candidate strTake
  have h2 : (base ++ "-" ++ toString n).toList =
      base.toList ++ ("-".toList ++ (toString n).toList) := by
    show (base.toList ++ "-".toList) ++ (toString n).toList = _
    rw [List.append_assoc]
  rw [h2, ← h, List.take_left]
  exact mk_toList base

-- ───────────────────────── Claim C2 ─────────────────────────

/-- Claim C2, counterexample: the claim asserts that any two distinct
slug-producing calls in the same run yield distinct slugs.  In the
migration script the VLAN-group migrator feeds make_slug directly with
no per-run uniquification, so the two distinct L2-domain names "A B" and
"A_b" both receive the slug "a-b" within a single live run. -/
theorem C2_counterexample :
    (migrate_vlan_groups false
        ⟨[], [], [⟨some "1", some "A B", none⟩, ⟨some "2", some "A_b", none⟩], [], [], []⟩
        ⟨[], [], [], [], [], [], 1⟩).1.vlanGroups.map (fun g => g.slug) = ["a-b", "a-b"] ∧
    ¬ (["a-b", "a-b"] : List String).Nodup ∧ ("A B" : String) ≠ "A_b" := by decide

/-- Claim C2, amended: every slug either make_slug variant produces
matches the pattern (nonempty, at most 50 characters, lowercase
alphanumerics and hyphens, with the fixed fallback token when
normalization empties the input).  Per-run uniqueness holds only in the
site-creation script: whenever its collision loop (numeric suffix,
re-truncated to 50) yields a slug list, the slugs are pairwise distinct,
fresh with respect to the initially used set, and pattern-valid.  The
migration script itself applies no uniquification, and for a 50-character
base slug every suffixed candidate re-truncates to the base itself, so a
collision on such a base is never resolved (the source loop would spin
forever). -/
theorem C2_slug_validity_and_uniqueness :
    (∀ name, isValidSlug (make_slug name)) ∧
    (∀ name, isValidSlug (make_slug_sites name)) ∧
    (∀ (existing : List String) (sections : List PSection) (used slugs : List String),
      create_sites_slugs existing sections used = some slugs →
      slugs.Nodup ∧ (∀ s ∈ slugs, s ∉ used) ∧ (∀ s ∈ slugs, isValidSlug s)) ∧
    (∀ (base : String) (n : Nat), base.toList.length = 50 → slug_candidate base n = base) :=
  ⟨make_slug_valid, make_slug_sites_valid,
   fun existing sections used slugs h => create_sites_slugs_sound sections existing used slugs h,
   strip_take_of_full⟩

/-- Claim C2, witness: the amended theorem applied at concrete inputs. -/
theorem C2_witness :
    isValidSlug (make_slug "Data Center #1") ∧
    (create_sites_slugs [] [⟨some "1", some "A B", none⟩, ⟨some "2", some "A-b", none⟩] [] =
      some ["a-b", "a-b-1"] ∧ (["a-b", "a-b-1"] : List String).Nodup) ∧
    ((String.mk (List.replicate 50 'a')).toList.length = 50 ∧
      slug_candidate (String.mk (List.replicate 50 'a')) 1 = String.mk (List.replicate 50 'a')) :=
  ⟨C2_slug_validity_and_uniqueness.1 _,
   ⟨by decide, (C2_slug_validity_and_uniqueness.2.2.1 []
      [⟨some "1", some "A B", none⟩, ⟨some "2", some "A-b", none⟩] [] ["a-b", "a-b-1"]
      (by decide)).1⟩,
   ⟨by decide, C2_slug_validity_and_uniqueness.2.2.2 _ 1 (by decide)⟩⟩

-- ───────────────────────── Claim C3 ─────────────────────────

/-- Prefix length of a subnet record as Python computes it, none when
ip_network would raise. -/
def subnetLen (s : PSubnet) : Option Nat :=
  match s.subnet, s.mask with
  | some sub, some m => ipNetworkLen? sub m
  | _, _ => none

theorem get_prefix_len_of_subnetLen (s : PSubnet) (p : Nat) (h : subnetLen s = some p) :
    get_prefix_len s = p := by
  rcases s with ⟨subnet, mask, f3, f4, f5, f6, f7, f8⟩
  rcases subnet with _ | sub
  · exact absurd h (by simp [subnetLen])
  · rcases mask with _ | m
    · exact absurd h (by simp [subnetLen])
    · have h' : ipNetworkLen? sub m = some p := h
      show (ipNetworkLen? sub m).getD 999 = p
      rw [h']
      rfl

theorem sortSubnets_sorted (l : List PSubnet) :
    List.Pairwise (fun a b => get_prefix_len a ≤ get_prefix_len b) (sortSubnets l) := by
  letI : IsTotal PSubnet (fun a b => get_prefix_len a ≤ get_prefix_len b) :=
    ⟨fun a b => le_total _ _⟩
  letI : IsTrans PSubnet (fun a b => get_prefix_len a ≤ get_prefix_len b) :=
    ⟨fun a b c hab hbc => le_trans hab hbc⟩
  exact List.sorted_insertionSort _ l

/-- Claim C3 (confirmed): migrate_prefixes iterates the subnets sorted by
parsed prefix length, so the processing sequence is a permutation of the
snapshot that is non-decreasing in prefix length: whenever two positions
of the processed sequence hold records whose subnet/mask parse to prefix
lengths p1 < p2, the p1 record is processed strictly earlier, whatever
the snapshot order was. -/
theorem C3_prefix_ordering (l : List PSubnet) :
    (sortSubnets l).Perm l ∧
    ∀ (i j : Fin (sortSubnets l).length) (p1 p2 : Nat),
      subnetLen ((sortSubnets l).get i) = some p1 →
      subnetLen ((sortSubnets l).get j) = some p2 →
      p1 < p2 → (i : Nat) < (j : Nat) := by
  refine ⟨List.perm_insertionSort _ l, ?_⟩
  intro i j p1 p2 h1 h2 hlt
  have hpair := (List.pairwise_iff_get.mp (sortSubnets_sorted l))
  rcases lt_trichotomy (i : Nat) (j : Nat) with h | h | h
  · exact h
  · exfalso
    have hij : i = j := Fin.ext h
    rw [hij, h2] at h1
    injection h1 with h1
    exact absurd (h1 ▸ hlt) (lt_irrefl _)
  · exfalso
    have := hpair j i (by exact h)
    rw [get_prefix_len_of_subnetLen _ _ h1, get_prefix_len_of_subnetLen _ _ h2] at this
    exact absurd (lt_of_lt_of_le hlt this) (lt_irrefl _)

/-- Claim C3, witness: a two-record snapshot listed narrow-first is
processed broad-first. -/
theorem C3_witness :
    (sortSubnets [⟨some "10.1.0.0", some "24", none, none, none, none, none, none⟩,
                  ⟨some "10.0.0.0", some "8", none, none, none, none, none, none⟩]).Perm
      [⟨some "10.1.0.0", some "24", none, none, none, none, none, none⟩,
       ⟨some "10.0.0.0", some "8", none, none, none, none, none, none⟩] ∧
    (0 : Nat) < 1 :=
  ⟨(C3_prefix_ordering _).1,
   (C3_prefix_ordering [⟨some "10.1.0.0", some "24", none, none, none, none, none, none⟩,
      ⟨some "10.0.0.0", some "8", none, none, none, none, none, none⟩]).2
     ⟨0, by decide⟩ ⟨1, by decide⟩ 8 24 (by decide) (by decide) (by decide)⟩

-- ───────────────────────── Claim C5 ─────────────────────────

/-- Claim C5 (confirmed): in the check-and-create retry loop of
migrate_prefixes, a record whose create call raises a
connection-classified error on attempts 1 and 2 and succeeds on attempt
3 ends counted as created after exactly 3 attempts; a record whose
create call raises a semantic error whose message indicates the record
already exists ends counted as skipped after exactly 1 attempt, with no
retry. -/
theorem C5_retry_outcomes (st : NBState) (c : Counts) (pl : PfxPayload) (vrfId : Option Nat)
    (mConn mExists : String)
    (hfilter : filterPfxs st pl.pfx vrfId = [])
    (hconn : is_connection_error mConn = true)
    (hval : (strContains mExists "400" || is_validation_error mExists) = true)
    (hexists : strContains (strLower mExists) "already exists" = true) :
    ((pfxTryLoop false (fun i => if i < 2 then NbResult.exn mConn else NbResult.ok)
        pl vrfId (List.range RETRY_ATTEMPTS) st c).2.1 = { c with created := c.created + 1 } ∧
     (pfxTryLoop false (fun i => if i < 2 then NbResult.exn mConn else NbResult.ok)
        pl vrfId (List.range RETRY_ATTEMPTS) st c).2.2.2 = 3) ∧
    ((pfxTryLoop false (fun _ => NbResult.reqErr mExists)
        pl vrfId (List.range RETRY_ATTEMPTS) st c).2.1 = { c with skipped := c.skipped + 1 } ∧
     (pfxTryLoop false (fun _ => NbResult.reqErr mExists)
        pl vrfId (List.range RETRY_ATTEMPTS) st c).2.2.2 = 1) := by
  have hrange : List.range RETRY_ATTEMPTS = [0, 1, 2] := by decide
  rw [hrange]
  constructor
  · simp [pfxTryLoop, hfilter, hconn, RETRY_ATTEMPTS]
  · simp [pfxTryLoop, hfilter, hval, hexists, RETRY_ATTEMPTS]

/-- Claim C5, witness: the theorem at a concrete empty store, payload,
and concrete error messages. -/
theorem C5_witness :
    (filterPfxs ⟨[], [], [], [], [], [], 1⟩ "10.0.0.0/24" none = [] ∧
     is_connection_error "connection reset by peer" = true ∧
     (strContains "400 already exists" "400" ||
       is_validation_error "400 already exists") = true ∧
     strContains (strLower "400 already exists") "already exists" = true) ∧
    ((pfxTryLoop false (fun i => if i < 2 then NbResult.exn "connection reset by peer"
          else NbResult.ok)
        ⟨"10.0.0.0/24", "", false, false, none, none, none, none⟩ none
        (List.range RETRY_ATTEMPTS) ⟨[], [], [], [], [], [], 1⟩ Counts.zero).2.1 =
      { Counts.zero with created := 1 } ∧
     (pfxTryLoop false (fun i => if i < 2 then NbResult.exn "connection reset by peer"
          else NbResult.ok)
        ⟨"10.0.0.0/24", "", false, false, none, none, none, none⟩ none
        (List.range RETRY_ATTEMPTS) ⟨[], [], [], [], [], [], 1⟩ Counts.zero).2.2.2 = 3) ∧
    ((pfxTryLoop false (fun _ => NbResult.reqErr "400 already exists")
        ⟨"10.0.0.0/24", "", false, false, none, none, none, none⟩ none
        (List.range RETRY_ATTEMPTS) ⟨[], [], [], [], [], [], 1⟩ Counts.zero).2.1 =
      { Counts.zero with skipped := 1 } ∧
     (pfxTryLoop false (fun _ => NbResult.reqErr "400 already exists")
        ⟨"10.0.0.0/24", "", false, false, none, none, none, none⟩ none
        (List.range RETRY_ATTEMPTS) ⟨[], [], [], [], [], [], 1⟩ Counts.zero).2.2.2 = 1) :=
  ⟨⟨by decide, by decide, by decide, by decide⟩,
   (C5_retry_outcomes _ Counts.zero _ none "connection reset by peer" "400 already exists"
     (by decide) (by decide) (by decide) (by decide)).1,
   (C5_retry_outcomes _ Counts.zero _ none "connection reset by peer" "400 already exists"
     (by decide) (by decide) (by decide) (by decide)).2⟩

-- ───────────────────────── Claim C6 ─────────────────────────

/-- Backoff sleeps of a trace: every sleep that is not the fixed
inter-request delay (the two sleep durations in the source are the
REQUEST_DELAY rate-limit sleep and the RETRY_DELAY backoff sleep). -/
def backoffSleeps (tr : List Event) : List Nat :=
  tr.filterMap (fun e => match e with
    | Event.sleep d => if d == REQUEST_DELAY then none else some d
    | _ => none)

/-- Claim C6, counterexample: for a create call that fails with a
connection-classified error on the first two attempts and succeeds on
the third, the executor sleeps RETRY_DELAY before each retry — the
backoff sleeps are [500, 500] centiseconds — whereas the claimed linear
backoff retryDelay × attemptNumber would give [500, 1000]. -/
theorem C6_counterexample :
    backoffSleeps (pfxTryLoop false
        (fun i => if i < 2 then NbResult.exn "connection reset" else NbResult.ok)
        ⟨"10.0.0.0/24", "", false, false, none, none, none, none⟩ none
        (List.range RETRY_ATTEMPTS) ⟨[], [], [], [], [], [], 1⟩ Counts.zero).2.2.1 =
      [RETRY_DELAY, RETRY_DELAY] ∧
    [RETRY_DELAY, RETRY_DELAY] ≠ [RETRY_DELAY * 1, RETRY_DELAY * 2] := by decide

theorem pfxTryLoop_backoff (dry : Bool) (script : Nat → NbResult) (pl : PfxPayload)
    (vrfId : Option Nat) :
    ∀ (atts : List Nat) (st : NBState) (c : Counts),
      ∀ d ∈ backoffSleeps (pfxTryLoop dry script pl vrfId atts st c).2.2.1,
        d = RETRY_DELAY := by
  have hne : (RETRY_DELAY == REQUEST_DELAY) = false := by decide
  intro atts
  induction atts with
  | nil =>
    intro st c d hd
    simp [pfxTryLoop, backoffSleeps] at hd
  | cons attempt rest ih =>
    intro st c d hd
    simp only [pfxTryLoop] at hd
    split at hd
    · simp [backoffSleeps] at hd
    · split at hd
      · simp [backoffSleeps] at hd
      · split at hd
        · simp [backoffSleeps, hne] at hd
        · split at hd
          · split at hd
            · simp [backoffSleeps, hne] at hd
            · simp [backoffSleeps, hne] at hd
          · split at hd
            · simp [backoffSleeps, hne, List.filterMap_append] at hd
              rcases hd with hd | hd
              · exact hd.2.symm
              · exact ih st c d (by simpa [backoffSleeps] using hd)
            · simp [backoffSleeps, hne] at hd
        · split at hd
          · simp [backoffSleeps, hne, List.filterMap_append] at hd
            rcases hd with hd | hd
            · exact hd.2.symm
            · exact ih st c d (by simpa [backoffSleeps] using hd)
          · simp [backoffSleeps, hne] at hd

/-- Claim C6, amended: on a transient failure of the create call the
executor sleeps the constant RETRY_DELAY before the next attempt — the
delay is not scaled by the attempt number — and when every attempt fails
with a transient-classified error the exhausted loop surfaces the record
as an error outcome after all RETRY_ATTEMPTS attempts. -/
theorem C6_constant_backoff :
    (∀ (dry : Bool) (script : Nat → NbResult) (pl : PfxPayload) (vrfId : Option Nat)
       (atts : List Nat) (st : NBState) (c : Counts),
      ∀ d ∈ backoffSleeps (pfxTryLoop dry script pl vrfId atts st c).2.2.1,
        d = RETRY_DELAY) ∧
    (∀ (st : NBState) (c : Counts) (pl : PfxPayload) (vrfId : Option Nat) (m : String),
      is_connection_error m = true →
      filterPfxs st pl.pfx vrfId = [] →
      (pfxTryLoop false (fun _ => NbResult.exn m) pl vrfId
          (List.range RETRY_ATTEMPTS) st c).2.1 = { c with errors := c.errors + 1 } ∧
      (pfxTryLoop false (fun _ => NbResult.exn m) pl vrfId
          (List.range RETRY_ATTEMPTS) st c).2.2.2 = 3) := by
  refine ⟨pfxTryLoop_backoff, ?_⟩
  intro st c pl vrfId m hconn hfilter
  have hrange : List.range RETRY_ATTEMPTS = [0, 1, 2] := by decide
  rw [hrange]
  simp [pfxTryLoop, hfilter, hconn, RETRY_ATTEMPTS]

/-- Claim C6, witness: the amended theorem at a concrete run. -/
theorem C6_witness :
    ((Event.sleep RETRY_DELAY) ∈ (pfxTryLoop false
        (fun i => if i < 2 then NbResult.exn "connection reset" else NbResult.ok)
        ⟨"10.0.0.0/24", "", false, false, none, none, none, none⟩ none
        (List.range RETRY_ATTEMPTS) ⟨[], [], [], [], [], [], 1⟩ Counts.zero).2.2.1 ∧
      (500 : Nat) = RETRY_DELAY) ∧
    (is_connection_error "request timed out" = true ∧
      filterPfxs ⟨[], [], [], [], [], [], 1⟩ "10.0.0.0/24" none = [] ∧
      (pfxTryLoop false (fun _ => NbResult.exn "request timed out")
        ⟨"10.0.0.0/24", "", false, false, none, none, none, none⟩ none
        (List.range RETRY_ATTEMPTS) ⟨[], [], [], [], [], [], 1⟩ Counts.zero).2.1 =
        { Counts.zero with errors := 1 }) :=
  ⟨⟨by decide,
    (C6_constant_backoff.1 false
      (fun i => if i < 2 then NbResult.exn "connection reset" else NbResult.ok)
      ⟨"10.0.0.0/24", "", false, false, none, none, none, none⟩ none
      (List.range RETRY_ATTEMPTS) ⟨[], [], [], [], [], [], 1⟩ Counts.zero 500
      (by decide)).symm⟩,
   by decide, by decide,
   (C6_constant_backoff.2 ⟨[], [], [], [], [], [], 1⟩ Counts.zero
     ⟨"10.0.0.0/24", "", false, false, none, none, none, none⟩ none "request timed out"
     (by decide) (by decide)).1⟩

-- ───────────────────────── Frame lemmas for the VRF helper ─────────────────────────

theorem get_or_create_vrf_state (dry : Bool) (st : NBState) (n : String) :
    (get_or_create_vrf dry st n).2.1 = st ∨
    (get_or_create_vrf dry st n).2.1 = (createVrf st (strTake n 100) none).1 := by
  unfold get_or_create_vrf
  split
  · exact Or.inl rfl
  · split
    · exact Or.inl rfl
    · split
      · exact Or.inl rfl
      · exact Or.inr rfl

theorem get_or_create_vrf_addrs (dry : Bool) (st : NBState) (n : String) :
    (get_or_create_vrf dry st n).2.1.addrs = st.addrs := by
  rcases get_or_create_vrf_state dry st n with h | h <;> rw [h] <;> rfl

theorem get_or_create_vrf_groups (dry : Bool) (st : NBState) (n : String) :
    (get_or_create_vrf dry st n).2.1.vlanGroups = st.vlanGroups := by
  rcases get_or_create_vrf_state dry st n with h | h <;> rw [h] <;> rfl

theorem get_or_create_vrf_vlans (dry : Bool) (st : NBState) (n : String) :
    (get_or_create_vrf dry st n).2.1.vlans = st.vlans := by
  rcases get_or_create_vrf_state dry st n with h | h <;> rw [h] <;> rfl

theorem get_or_create_vrf_pfxs (dry : Bool) (st : NBState) (n : String) :
    (get_or_create_vrf dry st n).2.1.pfxs = st.pfxs := by
  rcases get_or_create_vrf_state dry st n with h | h <;> rw [h] <;> rfl

theorem get_or_create_vrf_sites (dry : Bool) (st : NBState) (n : String) :
    (get_or_create_vrf dry st n).2.1.sites = st.sites := by
  rcases get_or_create_vrf_state dry st n with h | h <;> rw [h] <;> rfl

-- ───────────────────────── Claim C9 ─────────────────────────

/-- Claim C9, counterexample: the claim says the address "written or
looked up" carries the derived /32 suffix; but the existence lookup of
migrate_addresses passes the bare IP literal to the filter, without any
mask suffix. -/
theorem C9_counterexample :
    (Event.nbFilter "ip_addresses" "10.0.0.1") ∈
      (addrStep false [] (⟨[], [], [], [], [], [], 1⟩, Counts.zero)
        ⟨some "10.0.0.1", none, none, none⟩).2 ∧
    (Event.nbFilter "ip_addresses" "10.0.0.1/32") ∉
      (addrStep false [] (⟨[], [], [], [], [], [], 1⟩, Counts.zero)
        ⟨some "10.0.0.1", none, none, none⟩).2 ∧
    ("10.0.0.1" : String) ≠ "10.0.0.1/32" := by decide

/-- Claim C9, amended: for every source address record with a non-empty
IP literal, the address written to the target is the IP literal suffixed
with /32 when the literal contains no colon and /128 when it contains a
colon — the record itself carries no mask and none is read from the
source — while the existence lookup passes the bare IP literal (which
the store matches against the host part of stored addresses). -/
theorem C9_address_mask (vrfsCache : List (String × String)) (st : NBState) (c : Counts)
    (a : PAddr) (ip : String) (hip : a.ip = some ip) (hne : ip.isEmpty = false) :
    (Event.nbFilter "ip_addresses" ip) ∈ (addrStep false vrfsCache (st, c) a).2 ∧
    (∀ rec ∈ (addrStep false vrfsCache (st, c) a).1.1.addrs,
      rec ∈ st.addrs ∨
      rec.address = ip ++ "/" ++ (if strContains ip ":" then "128" else "32")) := by
  unfold addrStep
  rw [hip]
  have htr : pyTruthy (some ip) = true := by
    simp [pyTruthy, hne]
  rw [htr]
  simp only [Bool.not_true, Bool.false_eq_true, if_false, Option.getD_some]
  have haddrs : (if pyTruthy (get_vrf_name vrfsCache a.vrfId) = true then
      get_or_create_vrf false st ((get_vrf_name vrfsCache a.vrfId).getD "")
    else (none, st, [])).2.1.addrs = st.addrs := by
    split
    · exact get_or_create_vrf_addrs _ _ _
    · rfl
  generalize hv : (if pyTruthy (get_vrf_name vrfsCache a.vrfId) = true then
      get_or_create_vrf false st ((get_vrf_name vrfsCache a.vrfId).getD "")
    else ((none : Option Nat), st, ([] : List Event))) = vrfRes at haddrs ⊢
  rcases vrfRes with ⟨vrfId, st1, ev1⟩
  constructor
  · split
    · exact List.mem_append.mpr (Or.inr (by simp))
    · exact List.mem_append.mpr (Or.inl (List.mem_append.mpr (Or.inr (by simp))))
  · intro rec hrec
    revert hrec
    split
    · intro hrec
      exact Or.inl (haddrs ▸ hrec)
    · intro hrec
      unfold createAddr at hrec
      rcases List.mem_append.mp (haddrs ▸ hrec) with h | h
      · exact Or.inl h
      · refine Or.inr ?_
        rw [List.mem_singleton.mp h]

/-- Claim C9, witness: the amended theorem at a concrete IPv4 record. -/
theorem C9_witness :
    ((⟨some "10.0.0.1", none, none, none⟩ : PAddr).ip = some "10.0.0.1" ∧
      ("10.0.0.1" : String).isEmpty = false) ∧
    (Event.nbFilter "ip_addresses" "10.0.0.1") ∈
      (addrStep false [] (⟨[], [], [], [], [], [], 1⟩, Counts.zero)
        ⟨some "10.0.0.1", none, none, none⟩).2 :=
  ⟨⟨rfl, by decide⟩,
   (C9_address_mask [] ⟨[], [], [], [], [], [], 1⟩ Counts.zero
     ⟨some "10.0.0.1", none, none, none⟩ "10.0.0.1" rfl (by decide)).1⟩

-- ───────────────────────── Claim C10 ─────────────────────────

/-- Claim C10 (confirmed): a source VRF or L2-domain record whose name is
absent, empty, or whitespace-only (so that it strips to the empty
string) is silently dropped: the migrator issues no target call for it,
changes no counter, and leaves the store untouched. -/
theorem C10_empty_names_dropped (dry : Bool) (st : NBState) (c : Counts)
    (v : PVrf) (d : PDomain)
    (hv : strStrip (pyOrEmpty v.name) = "")
    (hd : strStrip (pyOrEmpty d.name) = "") :
    vrfStep dry (st, c) v = ((st, c), []) ∧ groupStep dry (st, c) d = ((st, c), []) := by
  have hv' : (strStrip (pyOrEmpty v.name)).isEmpty = true := by
    rw [hv]; rfl
  have hd' : (strStrip (pyOrEmpty d.name)).isEmpty = true := by
    rw [hd]; rfl
  constructor
  · simp [vrfStep, hv']
  · simp [groupStep, hd']

/-- Claim C10, witness: a whitespace-only VRF name and a missing
L2-domain name are both dropped. -/
theorem C10_witness :
    (strStrip (pyOrEmpty (some "   ")) = "" ∧ strStrip (pyOrEmpty (none : Option String)) = "") ∧
    vrfStep false (⟨[], [], [], [], [], [], 1⟩, Counts.zero) ⟨some "7", some "   ", none⟩ =
      ((⟨[], [], [], [], [], [], 1⟩, Counts.zero), []) :=
  ⟨⟨by decide, by decide⟩,
   (C10_empty_names_dropped false ⟨[], [], [], [], [], [], 1⟩ Counts.zero
     ⟨some "7", some "   ", none⟩ ⟨some "1", none, none⟩ (by decide) (by decide)).1⟩

-- ───────────────────────── Claim C8 ─────────────────────────

/-- Walk a trace accumulating sleep time; a remote call is admissible
only when at least REQUEST_DELAY has been slept since the previous
remote call (the starting credit is the accumulator argument).  Returns
the accumulated sleep after the last call, none on a violation. -/
def spacedAcc : Nat → List Event → Option Nat
  | acc, [] => some acc
  | acc, Event.sleep d :: rest => spacedAcc (acc + d) rest
  | acc, Event.nbFilter _ _ :: rest =>
      if REQUEST_DELAY ≤ acc then spacedAcc 0 rest else none
  | acc, Event.nbCreate _ _ :: rest =>
      if REQUEST_DELAY ≤ acc then spacedAcc 0 rest else none
  | acc, Event.srcGet _ :: rest =>
      if REQUEST_DELAY ≤ acc then spacedAcc 0 rest else none

/-- A trace fragment that respects the inter-call delay whatever sleep
credit it starts with. -/
def Spaced (tr : List Event) : Prop :=
  ∀ acc : Nat, (spacedAcc acc tr).isSome = true

theorem spacedAcc_append : ∀ (a b : List Event) (acc : Nat),
    spacedAcc acc (a ++ b) = (spacedAcc acc a).bind (fun k => spacedAcc k b) := by
  intro a
  induction a with
  | nil => intro b acc; rfl
  | cons e rest ih =>
    intro b acc
    cases e with
    | sleep d => rw [List.cons_append, spacedAcc, spacedAcc, ih]
    | nbFilter cl q =>
      rw [List.cons_append, spacedAcc, spacedAcc]
      by_cases h : REQUEST_DELAY ≤ acc
      · rw [if_pos h, if_pos h, ih]
      · rw [if_neg h, if_neg h]; rfl
    | nbCreate cl k =>
      rw [List.cons_append, spacedAcc, spacedAcc]
      by_cases h : REQUEST_DELAY ≤ acc
      · rw [if_pos h, if_pos h, ih]
      · rw [if_neg h, if_neg h]; rfl
    | srcGet ep =>
      rw [List.cons_append, spacedAcc, spacedAcc]
      by_cases h : REQUEST_DELAY ≤ acc
      · rw [if_pos h, if_pos h, ih]
      · rw [if_neg h, if_neg h]; rfl

theorem Spaced_nil : Spaced [] := by
  intro acc; rfl

theorem Spaced_append {a b : List Event} (ha : Spaced a) (hb : Spaced b) :
    Spaced (a ++ b) := by
  intro acc
  rw [spacedAcc_append]
  rcases hsome : spacedAcc acc a with _ | k
  · exact absurd (hsome ▸ ha acc) (by simp)
  · simpa using hb k

theorem Spaced_sleep_filter (cl q : String) :
    Spaced [Event.sleep REQUEST_DELAY, Event.nbFilter cl q] := by
  intro acc
  rw [spacedAcc, spacedAcc, if_pos (Nat.le_add_left _ _)]
  rfl

theorem Spaced_sleep_create (cl k : String) :
    Spaced [Event.sleep REQUEST_DELAY, Event.nbCreate cl k] := by
  intro acc
  rw [spacedAcc, spacedAcc, if_pos (Nat.le_add_left _ _)]
  rfl

theorem Spaced_sleep (d : Nat) : Spaced [Event.sleep d] := by
  intro acc
  rw [spacedAcc, spacedAcc]
  rfl

theorem Spaced_get_or_create_vrf (dry : Bool) (st : NBState) (n : String) :
    Spaced (get_or_create_vrf dry st n).2.2 := by
  simp only [get_or_create_vrf]
  repeat' split
  all_goals first
    | exact Spaced_nil
    | exact Spaced_sleep_filter _ _
    | exact Spaced_append (Spaced_sleep_filter _ _) (Spaced_sleep_create _ _)

theorem Spaced_get_scope (mapping : List (String × String)) (st : NBState)
    (sn : Option String) :
    Spaced (get_scope_for_section mapping st sn).2 := by
  simp only [get_scope_for_section]
  repeat' split
  all_goals first
    | exact Spaced_nil
    | exact Spaced_sleep_filter _ _

theorem Spaced_vrfStep (dry : Bool) (sc : NBState × Counts) (v : PVrf) :
    Spaced (vrfStep dry sc v).2 := by
  simp only [vrfStep]
  repeat' split
  all_goals first
    | exact Spaced_nil
    | exact Spaced_sleep_filter _ _
    | exact Spaced_append (Spaced_sleep_filter _ _) (Spaced_sleep_create _ _)

theorem Spaced_groupStep (dry : Bool) (sc : NBState × Counts) (d : PDomain) :
    Spaced (groupStep dry sc d).2 := by
  simp only [groupStep]
  repeat' split
  all_goals first
    | exact Spaced_nil
    | exact Spaced_sleep_filter _ _
    | exact Spaced_append (Spaced_sleep_filter _ _) (Spaced_sleep_create _ _)

theorem Spaced_pfxTryLoop (dry : Bool) (script : Nat → NbResult) (pl : PfxPayload)
    (vrfId : Option Nat) :
    ∀ (atts : List Nat) (st : NBState) (c : Counts),
      Spaced (pfxTryLoop dry script pl vrfId atts st c).2.2.1 := by
  intro atts
  induction atts with
  | nil => intro st c; exact Spaced_nil
  | cons attempt rest ih =>
    intro st c
    simp only [pfxTryLoop]
    repeat' split
    all_goals first
      | exact Spaced_sleep_filter _ _
      | exact Spaced_append (Spaced_sleep_filter _ _) (Spaced_sleep_create _ _)
      | exact Spaced_append
          (Spaced_append (Spaced_append (Spaced_sleep_filter _ _) (Spaced_sleep_create _ _))
            (Spaced_sleep _)) (ih st c)

theorem Spaced_pfxStep (dry : Bool) (scache vcache mapping : List (String × String))
    (vlc : List (String × Nat)) (script : Nat → NbResult) (sc : NBState × Counts)
    (s : PSubnet) :
    Spaced (pfxStep dry scache vcache mapping vlc script sc s).2 := by
  simp only [pfxStep]
  split
  · exact Spaced_nil
  · refine Spaced_append (Spaced_append ?_ (Spaced_get_scope _ _ _))
      (Spaced_pfxTryLoop _ _ _ _ _ _ _)
    split
    · exact Spaced_get_or_create_vrf _ _ _
    · exact Spaced_nil

theorem Spaced_addrStep (dry : Bool) (vcache : List (String × String))
    (sc : NBState × Counts) (a : PAddr) :
    Spaced (addrStep dry vcache sc a).2 := by
  simp only [addrStep]
  repeat' split
  all_goals first
    | exact Spaced_nil
    | exact Spaced_append (Spaced_get_or_create_vrf _ _ _) (Spaced_sleep_filter _ _)
    | exact Spaced_append Spaced_nil (Spaced_sleep_filter _ _)
    | exact Spaced_append
        (Spaced_append (Spaced_get_or_create_vrf _ _ _) (Spaced_sleep_filter _ _))
        (Spaced_sleep_create _ _)
    | exact Spaced_append
        (Spaced_append Spaced_nil (Spaced_sleep_filter _ _))
        (Spaced_sleep_create _ _)

theorem Spaced_runFold {σ α : Type} (step : σ → α → σ × List Event)
    (hstep : ∀ s r, Spaced (step s r).2) :
    ∀ (rs : List α) (s : σ), Spaced (runFold step rs s).2 := by
  intro rs
  induction rs with
  | nil => intro s; exact Spaced_nil
  | cons r rest ih =>
    intro s
    unfold runFold
    exact Spaced_append (hstep s r) (ih (step s r).1)

/-- Claim C8, counterexample: the run's full remote trace is not
rate-limited.  Even granting the first call a full REQUEST_DELAY credit,
the source reads of build_caches follow each other with no intervening
wait (phpipam_get sleeps never), so the whole-run trace violates the
minimum-interval property; and inside the VLAN migrator the name-based
existence check follows the vid-based check with no intervening sleep,
so even a pure target-call fragment violates it. -/
theorem C8_counterexample :
    spacedAcc REQUEST_DELAY
      (runMigration false [] ⟨[], [], [], [], [], []⟩ ⟨[], [], [], [], [], [], 1⟩).trace =
      none ∧
    spacedAcc REQUEST_DELAY
      (runFold (vlanStep false []) [⟨some "12", some "100", none, some "Users", none, none⟩]
        (⟨[], [], [], [], [], [], 1⟩, Counts.zero, [])).2 = none := by decide

/-- Claim C8, amended: the VRF, VLAN-group, prefix and address migrators
precede every target-store call with an accumulated wait of at least
REQUEST_DELAY since the previous remote call, whatever credit the
fragment starts with; but source reads (phpipam_get) are issued with no
rate-limiting sleep at all — every migration phase opens with a bare
source fetch — and the VLAN migrator's name-based existence check
follows its vid-based check without an intervening delay. -/
theorem C8_rate_limiting :
    (∀ (dry : Bool) (rs : List PVrf) (sc : NBState × Counts),
      Spaced (runFold (vrfStep dry) rs sc).2) ∧
    (∀ (dry : Bool) (rs : List PDomain) (sc : NBState × Counts),
      Spaced (runFold (groupStep dry) rs sc).2) ∧
    (∀ (dry : Bool) (scache vcache mapping : List (String × String))
       (vlc : List (String × Nat)) (script : Nat → NbResult)
       (rs : List PSubnet) (sc : NBState × Counts),
      Spaced (runFold (pfxStep dry scache vcache mapping vlc script) rs sc).2) ∧
    (∀ (dry : Bool) (vcache : List (String × String)) (rs : List PAddr)
       (sc : NBState × Counts),
      Spaced (runFold (addrStep dry vcache) rs sc).2) ∧
    (∀ (dry : Bool) (snap : Snapshot) (st : NBState),
      ∃ tl, (migrate_vrfs dry snap st).2.2 = Event.srcGet "vrfs/" :: tl) ∧
    (∀ (dry : Bool) (snap : Snapshot) (st : NBState),
      ∃ tl, (migrate_vlans dry snap st).2.2.2 = Event.srcGet "vlans/" :: tl) := by
  refine ⟨?_, ?_, ?_, ?_, ?_, ?_⟩
  · intro dry rs sc
    exact Spaced_runFold _ (Spaced_vrfStep dry) rs sc
  · intro dry rs sc
    exact Spaced_runFold _ (Spaced_groupStep dry) rs sc
  · intro dry scache vcache mapping vlc script rs sc
    exact Spaced_runFold _ (Spaced_pfxStep dry scache vcache mapping vlc script) rs sc
  · intro dry vcache rs sc
    exact Spaced_runFold _ (Spaced_addrStep dry vcache) rs sc
  · intro dry snap st
    unfold migrate_vrfs
    split
    · exact ⟨[], rfl⟩
    · exact ⟨_, rfl⟩
  · intro dry snap st
    unfold migrate_vlans
    split
    · exact ⟨[], rfl⟩
    · exact ⟨_, rfl⟩

-- ───────────────────────── Claim C4 ─────────────────────────

/-- Number of VRF create calls for a given name in a trace. -/
def countVrfCreates (tr : List Event) (n : String) : Nat :=
  tr.countP (fun e => e == Event.nbCreate "vrfs" n)

/-- Number of VRF lookup (filter) calls for a given name in a trace. -/
def countVrfLookups (tr : List Event) (n : String) : Nat :=
  tr.countP (fun e => e == Event.nbFilter "vrfs" n)

/-- Does a subnet record lead the prefix migrator to resolve the given
routing-domain name (truthy subnet and mask, and a truthy cache entry
equal to the name)? -/
def refsVrfName (vcache : List (String × String)) (n : String) (s : PSubnet) : Bool :=
  pyTruthy s.subnet && pyTruthy s.mask && pyTruthy (get_vrf_name vcache s.vrfId) &&
    ((get_vrf_name vcache s.vrfId).getD "" == n)

theorem countVrfCreates_append (a b : List Event) (n : String) :
    countVrfCreates (a ++ b) n = countVrfCreates a n + countVrfCreates b n :=
  List.countP_append _ _ _

theorem countVrfLookups_append (a b : List Event) (n : String) :
    countVrfLookups (a ++ b) n = countVrfLookups a n + countVrfLookups b n :=
  List.countP_append _ _ _

theorem strTake_of_le (s : String) (k : Nat) (h : s.toList.length ≤ k) :
    strTake s k = s := by
  unfold strTake
  rw [List.take_of_length_le h]
  exact mk_toList s

/-- Presence of a VRF name is preserved by createVrf. -/
theorem present_createVrf {st : NBState} {n : String}
    (h : filterVrfsByName st n ≠ []) (name : String) (rd : Option String) :
    filterVrfsByName (createVrf st name rd).1 n ≠ [] := by
  unfold filterVrfsByName createVrf at *
  simp only [List.filter_append]
  intro hc
  exact h (List.append_eq_nil.mp hc).1

/-- Creating a VRF under the requested name makes the name present, as
long as the name survives the 100-character truncation. -/
theorem present_createVrf_self (st : NBState) (rd : Option String) (n : String)
    (hlen : n.toList.length ≤ 100) :
    filterVrfsByName (createVrf st (strTake n 100) rd).1 n ≠ [] := by
  rw [strTake_of_le n 100 hlen]
  unfold filterVrfsByName createVrf
  simp only [List.filter_append]
  intro hc
  have h2 := (List.append_eq_nil.mp hc).2
  rw [List.filter_cons] at h2
  simp at h2

/-- Create-count and presence facts for one get_or_create_vrf call. -/
theorem get_or_create_vrf_K (st : NBState) (m n : String) (hlen : n.toList.length ≤ 100) :
    countVrfCreates (get_or_create_vrf false st m).2.2 n ≤ 1 ∧
    (filterVrfsByName st n ≠ [] → countVrfCreates (get_or_create_vrf false st m).2.2 n = 0) ∧
    (filterVrfsByName st n ≠ [] → filterVrfsByName (get_or_create_vrf false st m).2.1 n ≠ []) ∧
    (1 ≤ countVrfCreates (get_or_create_vrf false st m).2.2 n →
      filterVrfsByName (get_or_create_vrf false st m).2.1 n ≠ []) := by
  simp only [get_or_create_vrf]
  split
  · simp [countVrfCreates]
  · split
    · simp [countVrfCreates]
    · rename_i hm hfound
      split
      · simp at *
      · by_cases hmn : m = n
        · subst hmn
          have hcount : countVrfCreates
              ([Event.sleep REQUEST_DELAY, Event.nbFilter "vrfs" m] ++
                [Event.sleep REQUEST_DELAY, Event.nbCreate "vrfs" m]) m = 1 := by
            simp [countVrfCreates]
          refine ⟨le_of_eq hcount, ?_, ?_, ?_⟩
          · intro hp
            exact absurd hfound hp
          · intro hp
            exact absurd hfound hp
          · intro _
            exact present_createVrf_self st none m hlen
        · have hcount : countVrfCreates
              ([Event.sleep REQUEST_DELAY, Event.nbFilter "vrfs" m] ++
                [Event.sleep REQUEST_DELAY, Event.nbCreate "vrfs" m]) n = 0 := by
            simp [countVrfCreates, hmn]
          refine ⟨hcount ▸ Nat.zero_le 1, fun _ => hcount, ?_, ?_⟩
          · intro hp
            exact present_createVrf hp _ _
          · intro h1
            rw [hcount] at h1
            exact absurd h1 (by simp)

/-- Lookup count of one get_or_create_vrf call: exactly one filter for
the requested name when it is non-empty. -/
theorem get_or_create_vrf_lookups (dry : Bool) (st : NBState) (m n : String) :
    countVrfLookups (get_or_create_vrf dry st m).2.2 n =
      if m.isEmpty = false ∧ m = n then 1 else 0 := by
  simp only [get_or_create_vrf]
  split
  · rename_i hm
    simp [countVrfLookups, hm]
  · rename_i hm
    have hm' : m.isEmpty = false := by
      cases h : m.isEmpty
      · rfl
      · exact absurd h hm
    by_cases hmn : m = n
    · subst hmn
      rw [show (if (m.isEmpty = false ∧ m = m) then (1 : Nat) else 0) = 1 from
        if_pos ⟨hm', rfl⟩]
      repeat' split
      all_goals simp [countVrfLookups]
    · rw [show (if (m.isEmpty = false ∧ m = n) then (1 : Nat) else 0) = 0 from
        if_neg (fun hc => hmn hc.2)]
      repeat' split
      all_goals simp [countVrfLookups, hmn]

/-- The scope lookup issues no VRF calls. -/
theorem get_scope_vrf_counts (mapping : List (String × String)) (st : NBState)
    (sn : Option String) (n : String) :
    countVrfCreates (get_scope_for_section mapping st sn).2 n = 0 ∧
    countVrfLookups (get_scope_for_section mapping st sn).2 n = 0 := by
  simp only [get_scope_for_section]
  repeat' split
  all_goals simp [countVrfCreates, countVrfLookups]

/-- The check-and-create loop issues no VRF calls and never touches the
vrfs collection. -/
theorem pfxTryLoop_vrf_inert (dry : Bool) (script : Nat → NbResult) (pl : PfxPayload)
    (vrfId : Option Nat) :
    ∀ (atts : List Nat) (st : NBState) (c : Counts) (n : String),
      countVrfCreates (pfxTryLoop dry script pl vrfId atts st c).2.2.1 n = 0 ∧
      countVrfLookups (pfxTryLoop dry script pl vrfId atts st c).2.2.1 n = 0 ∧
      (pfxTryLoop dry script pl vrfId atts st c).1.vrfs = st.vrfs := by
  intro atts
  induction atts with
  | nil => intro st c n; exact ⟨rfl, rfl, rfl⟩
  | cons attempt rest ih =>
    intro st c n
    have ih1 := (ih st c n).1
    have ih2 := (ih st c n).2.1
    simp only [countVrfCreates, List.countP_eq_zero, beq_iff_eq] at ih1
    simp only [countVrfLookups, List.countP_eq_zero, beq_iff_eq] at ih2
    simp only [pfxTryLoop]
    repeat' split
    all_goals refine ⟨?_, ?_, ?_⟩
    all_goals first
      | (simp [countVrfCreates, countVrfLookups, List.countP_append, createPfx,
          (ih st c n).2.2]
         done)
      | (simp [countVrfCreates, countVrfLookups, List.countP_append]
         first
          | exact ih1
          | exact ih2)

theorem filterVrfs_congr {st st' : NBState} (h : st'.vrfs = st.vrfs) (n : String) :
    filterVrfsByName st' n = filterVrfsByName st n := by
  unfold filterVrfsByName
  rw [h]

theorem pyTruthy_getD_isEmpty {o : Option String} (h : pyTruthy o = true) :
    (o.getD "").isEmpty = false := by
  cases o with
  | none => exact absurd h (by simp [pyTruthy])
  | some str =>
    simp only [pyTruthy, Bool.not_eq_true'] at h
    simpa using h

/-- Create-count, lookup-count and presence facts for one prefix-record
step. -/
theorem pfxStep_vrf_K (scache vcache mapping : List (String × String))
    (vlc : List (String × Nat)) (script : Nat → NbResult)
    (st : NBState) (c : Counts) (s : PSubnet) (n : String)
    (hlen : n.toList.length ≤ 100) :
    countVrfCreates (pfxStep false scache vcache mapping vlc script (st, c) s).2 n ≤ 1 ∧
    (filterVrfsByName st n ≠ [] →
      countVrfCreates (pfxStep false scache vcache mapping vlc script (st, c) s).2 n = 0) ∧
    (filterVrfsByName st n ≠ [] →
      filterVrfsByName (pfxStep false scache vcache mapping vlc script (st, c) s).1.1 n ≠ []) ∧
    (1 ≤ countVrfCreates (pfxStep false scache vcache mapping vlc script (st, c) s).2 n →
      filterVrfsByName (pfxStep false scache vcache mapping vlc script (st, c) s).1.1 n ≠ []) ∧
    countVrfLookups (pfxStep false scache vcache mapping vlc script (st, c) s).2 n =
      (if refsVrfName vcache n s then 1 else 0) := by
  simp only [pfxStep]
  split
  · rename_i hguard
    have hrefs : refsVrfName vcache n s = false := by
      unfold refsVrfName
      cases hsub : pyTruthy s.subnet
      · simp
      · cases hmask : pyTruthy s.mask
        · simp
        · rw [hsub, hmask] at hguard
          exact absurd hguard (by decide)
    simp [countVrfCreates, countVrfLookups, hrefs]
  · rename_i hguard
    simp only [Bool.or_eq_true, Bool.not_eq_true', not_or, Bool.not_eq_false] at hguard
    by_cases hv : pyTruthy (get_vrf_name vcache s.vrfId) = true
    · simp only [if_pos hv]
      have hm := pyTruthy_getD_isEmpty hv
      rcases get_or_create_vrf_K st ((get_vrf_name vcache s.vrfId).getD "") n hlen with
        ⟨k1, k2, k3, k4⟩
      have hlook := get_or_create_vrf_lookups false st
        ((get_vrf_name vcache s.vrfId).getD "") n
      rcases get_scope_vrf_counts mapping
        (get_or_create_vrf false st ((get_vrf_name vcache s.vrfId).getD "")).2.1
        (get_section_name scache s.sectionId) n with ⟨sc1, sc2⟩
      rcases pfxTryLoop_vrf_inert false script _ _ (List.range RETRY_ATTEMPTS)
        (get_or_create_vrf false st ((get_vrf_name vcache s.vrfId).getD "")).2.1 c n with
        ⟨lp1, lp2, lp3⟩
      have hpres : filterVrfsByName (pfxTryLoop false script _ _ (List.range RETRY_ATTEMPTS)
          (get_or_create_vrf false st ((get_vrf_name vcache s.vrfId).getD "")).2.1 c).1 n =
          filterVrfsByName
            (get_or_create_vrf false st ((get_vrf_name vcache s.vrfId).getD "")).2.1 n :=
        filterVrfs_congr lp3 n
      refine ⟨?_, ?_, ?_, ?_, ?_⟩
      · rw [countVrfCreates_append, countVrfCreates_append, sc1, lp1]
        simpa using k1
      · intro hp
        rw [countVrfCreates_append, countVrfCreates_append, sc1, lp1, k2 hp]
      · intro hp
        rw [hpres]
        exact k3 hp
      · intro h1
        rw [countVrfCreates_append, countVrfCreates_append, sc1, lp1] at h1
        simp only [Nat.add_zero] at h1
        rw [hpres]
        exact k4 h1
      · rw [countVrfLookups_append, countVrfLookups_append, sc2, lp2, hlook]
        have hrefs : refsVrfName vcache n s =
            ((get_vrf_name vcache s.vrfId).getD "" == n) := by
          unfold refsVrfName
          rw [hguard.1, hguard.2, hv]
          simp
        rw [hrefs]
        by_cases hmn : (get_vrf_name vcache s.vrfId).getD "" = n
        · rw [if_pos ⟨hm, hmn⟩]
          simp [hmn]
        · rw [if_neg (fun hc => hmn hc.2)]
          simp [hmn]
    · simp only [if_neg hv]
      rcases get_scope_vrf_counts mapping st (get_section_name scache s.sectionId) n with
        ⟨sc1, sc2⟩
      have hvf : pyTruthy (get_vrf_name vcache s.vrfId) = false := by
        cases h : pyTruthy (get_vrf_name vcache s.vrfId)
        · rfl
        · exact absurd h hv
      have hrefs : refsVrfName vcache n s = false := by
        unfold refsVrfName
        simp [hvf]
      refine ⟨?_, ?_, ?_, ?_, ?_⟩
      · rw [countVrfCreates_append, countVrfCreates_append, sc1,
          (pfxTryLoop_vrf_inert false script _ _ (List.range RETRY_ATTEMPTS) st c n).1]
        simp [countVrfCreates]
      · intro hp
        rw [countVrfCreates_append, countVrfCreates_append, sc1,
          (pfxTryLoop_vrf_inert false script _ _ (List.range RETRY_ATTEMPTS) st c n).1]
        simp [countVrfCreates]
      · intro hp
        rw [filterVrfs_congr
          (pfxTryLoop_vrf_inert false script _ _ (List.range RETRY_ATTEMPTS) st c n).2.2 n]
        exact hp
      · intro h1
        rw [countVrfCreates_append, countVrfCreates_append, sc1,
          (pfxTryLoop_vrf_inert false script _ _ (List.range RETRY_ATTEMPTS) st c n).1] at h1
        simp [countVrfCreates] at h1
      · rw [countVrfLookups_append, countVrfLookups_append, sc2,
          (pfxTryLoop_vrf_inert false script _ _ (List.range RETRY_ATTEMPTS) st c n).2.1,
          hrefs]
        simp [countVrfLookups]

/-- Fold version of the per-step facts: over a whole prefix phase at
most one VRF create is issued for a (length-limited) name, and the
lookup count equals the number of records that reference the name. -/
theorem pfxFold_vrf_K (scache vcache mapping : List (String × String))
    (vlc : List (String × Nat)) (script : Nat → NbResult) (n : String)
    (hlen : n.toList.length ≤ 100) :
    ∀ (rs : List PSubnet) (st : NBState) (c : Counts),
      countVrfCreates
        (runFold (pfxStep false scache vcache mapping vlc script) rs (st, c)).2 n ≤ 1 ∧
      (filterVrfsByName st n ≠ [] →
        countVrfCreates
          (runFold (pfxStep false scache vcache mapping vlc script) rs (st, c)).2 n = 0) ∧
      (filterVrfsByName st n ≠ [] →
        filterVrfsByName
          (runFold (pfxStep false scache vcache mapping vlc script) rs (st, c)).1.1 n ≠ []) ∧
      (1 ≤ countVrfCreates
          (runFold (pfxStep false scache vcache mapping vlc script) rs (st, c)).2 n →
        filterVrfsByName
          (runFold (pfxStep false scache vcache mapping vlc script) rs (st, c)).1.1 n ≠ []) ∧
      countVrfLookups
        (runFold (pfxStep false scache vcache mapping vlc script) rs (st, c)).2 n =
        (rs.filter (refsVrfName vcache n)).length := by
  intro rs
  induction rs with
  | nil =>
    intro st c
    refine ⟨Nat.zero_le 1, fun _ => rfl, fun hp => hp, ?_, rfl⟩
    intro h1
    simp [runFold, countVrfCreates] at h1
  | cons r rest ih =>
    intro st c
    rcases pfxStep_vrf_K scache vcache mapping vlc script st c r n hlen with
      ⟨k1, k2, k3, k4, k5⟩
    have hpair : ((pfxStep false scache vcache mapping vlc script (st, c) r).1.1,
        (pfxStep false scache vcache mapping vlc script (st, c) r).1.2) =
        (pfxStep false scache vcache mapping vlc script (st, c) r).1 := rfl
    rcases ih (pfxStep false scache vcache mapping vlc script (st, c) r).1.1
      (pfxStep false scache vcache mapping vlc script (st, c) r).1.2 with
      ⟨i1, i2, i3, i4, i5⟩
    have hrun : runFold (pfxStep false scache vcache mapping vlc script) (r :: rest) (st, c) =
        (let s1 := pfxStep false scache vcache mapping vlc script (st, c) r
         let s2 := runFold (pfxStep false scache vcache mapping vlc script) rest s1.1
         (s2.1, s1.2 ++ s2.2)) := by
      rw [runFold]
    rw [hrun]
    simp only []
    rw [hpair] at i1 i2 i3 i4 i5
    constructor
    · rw [countVrfCreates_append]
      rcases Nat.lt_or_ge (countVrfCreates
          (pfxStep false scache vcache mapping vlc script (st, c) r).2 n) 1 with h0 | h1
      · have h0' : countVrfCreates
            (pfxStep false scache vcache mapping vlc script (st, c) r).2 n = 0 :=
          Nat.lt_one_iff.mp h0
        rw [h0']
        simpa using i1
      · have hp1 : filterVrfsByName
            (pfxStep false scache vcache mapping vlc script (st, c) r).1.1 n ≠ [] :=
          k4 h1
        rw [i2 hp1]
        simpa using k1
    constructor
    · intro hp
      rw [countVrfCreates_append, k2 hp, i2 (k3 hp)]
    constructor
    · intro hp
      exact i3 (k3 hp)
    constructor
    · intro h1
      rw [countVrfCreates_append] at h1
      rcases Nat.lt_or_ge (countVrfCreates
          (pfxStep false scache vcache mapping vlc script (st, c) r).2 n) 1 with h0 | hge
      · have h0' : countVrfCreates
            (pfxStep false scache vcache mapping vlc script (st, c) r).2 n = 0 :=
          Nat.lt_one_iff.mp h0
        rw [h0', Nat.zero_add] at h1
        exact i4 h1
      · exact i3 (k4 hge)
    · rw [countVrfLookups_append, k5, i5, List.filter_cons]
      by_cases hr : refsVrfName vcache n r = true
      · rw [if_pos hr, if_pos hr, List.length_cons]
        omega
      · have hr' : refsVrfName vcache n r = false := by
          cases h : refsVrfName vcache n r
          · rfl
          · exact absurd h hr
        rw [if_neg (by rw [hr']; exact Bool.false_ne_true), hr']
        simp

/-- Claim C4, counterexample: two source prefixes referencing the same
routing domain CORP trigger two target-store filter calls for that name
during one run — get_or_create_vrf performs a fresh lookup on every
reference (the VRFS_CACHE maps source ids to names only, never to
target ids) — refuting "at most one create-or-lookup call (one
target-store filter, plus at most one create)".  Only the create is
issued at most once. -/
theorem C4_counterexample :
    countVrfLookups (migrate_prefixes false
      ⟨[], [⟨some "1", some "CORP", none⟩], [], [],
        [⟨some "10.0.0.0", some "24", none, some "1", none, none, none, none⟩,
         ⟨some "10.1.0.0", some "24", none, some "1", none, none, none, none⟩], []⟩
      [] [("1", "CORP")] [] [] ⟨[], [], [], [], [], [], 1⟩).2.2 "CORP" = 2 ∧
    ¬ (2 : Nat) ≤ 1 ∧
    countVrfCreates (migrate_prefixes false
      ⟨[], [⟨some "1", some "CORP", none⟩], [], [],
        [⟨some "10.0.0.0", some "24", none, some "1", none, none, none, none⟩,
         ⟨some "10.1.0.0", some "24", none, some "1", none, none, none, none⟩], []⟩
      [] [("1", "CORP")] [] [] ⟨[], [], [], [], [], [], 1⟩).2.2 "CORP" = 1 := by decide

/-- Claim C4, amended: during the whole prefix phase at most one VRF
create call is issued per routing-domain name (for names within the
100-character field limit), but the name is looked up once per
referencing prefix: the number of VRF filter calls for a name equals
the number of processed subnet records that resolve to that name —
references are not cached. -/
theorem C4_vrf_resolution (snap : Snapshot)
    (scache vcache mapping : List (String × String)) (vlc : List (String × Nat))
    (st : NBState) (n : String) (hlen : n.toList.length ≤ 100) :
    countVrfCreates (migrate_prefixes false snap scache vcache mapping vlc st).2.2 n ≤ 1 ∧
    countVrfLookups (migrate_prefixes false snap scache vcache mapping vlc st).2.2 n =
      ((sortSubnets snap.subnets).filter (refsVrfName vcache n)).length := by
  simp only [migrate_prefixes]
  split
  · rename_i hempty
    have hsort : sortSubnets snap.subnets = [] := by
      have hsub : snap.subnets = [] := by
        cases h : snap.subnets
        · rfl
        · rw [h] at hempty
          simp at hempty
      rw [hsub]
      rfl
    rw [hsort]
    exact ⟨by simp [countVrfCreates], by simp [countVrfLookups]⟩
  · rcases pfxFold_vrf_K scache vcache mapping vlc allOk n hlen
      (sortSubnets snap.subnets) st Counts.zero with ⟨k1, _, _, _, k5⟩
    constructor
    · rw [countVrfCreates_append]
      have : countVrfCreates [Event.srcGet "subnets/"] n = 0 := by
        simp [countVrfCreates]
      rw [this, Nat.zero_add]
      exact k1
    · rw [countVrfLookups_append]
      have : countVrfLookups [Event.srcGet "subnets/"] n = 0 := by
        simp [countVrfLookups]
      rw [this, Nat.zero_add]
      exact k5

/-- Claim C4, witness: the amended theorem at the two-prefix snapshot of
the counterexample. -/
theorem C4_witness :
    (("CORP" : String).toList.length ≤ 100) ∧
    countVrfCreates (migrate_prefixes false
      ⟨[], [⟨some "1", some "CORP", none⟩], [], [],
        [⟨some "10.0.0.0", some "24", none, some "1", none, none, none, none⟩,
         ⟨some "10.1.0.0", some "24", none, some "1", none, none, none, none⟩], []⟩
      [] [("1", "CORP")] [] [] ⟨[], [], [], [], [], [], 1⟩).2.2 "CORP" ≤ 1 :=
  ⟨by decide,
   (C4_vrf_resolution
     ⟨[], [⟨some "1", some "CORP", none⟩], [], [],
       [⟨some "10.0.0.0", some "24", none, some "1", none, none, none, none⟩,
        ⟨some "10.1.0.0", some "24", none, some "1", none, none, none, none⟩], []⟩
     [] [("1", "CORP")] [] [] ⟨[], [], [], [], [], [], 1⟩ "CORP" (by decide)).1⟩

-- ───────────────────────── Shared infrastructure for claims C1 and C7 ─────────────────────────

/-- Number of create calls of any kind in a trace. -/
def countCreateEvents (tr : List Event) : Nat :=
  tr.countP (fun e => match e with | Event.nbCreate _ _ => true | _ => false)

theorem countCreateEvents_append (a b : List Event) :
    countCreateEvents (a ++ b) = countCreateEvents a + countCreateEvents b :=
  List.countP_append _ _ _

theorem strStrip_length_le (s : String) :
    (strStrip s).toList.length ≤ s.toList.length := by
  unfold strStrip
  rw [toList_mk, List.length_reverse]
  calc ((s.toList.dropWhile pyWhitespace).reverse.dropWhile pyWhitespace).length
      ≤ (s.toList.dropWhile pyWhitespace).reverse.length :=
        (List.dropWhile_sublist _).length_le
    _ = (s.toList.dropWhile pyWhitespace).length := List.length_reverse _
    _ ≤ s.toList.length := (List.dropWhile_sublist _).length_le

/-- Presence of a VRF name survives appending records. -/
theorem present_mono {st st' : NBState} {n : String}
    (h : filterVrfsByName st n ≠ []) {l : List NBVrf} (hv : st'.vrfs = st.vrfs ++ l) :
    filterVrfsByName st' n ≠ [] := by
  unfold filterVrfsByName at *
  rw [hv, List.filter_append]
  intro hc
  exact h (List.append_eq_nil.mp hc).1

/-- The head of a VRF-name filter is unchanged by appending records,
as long as it already matched something. -/
theorem filter_head_stable {st st' : NBState} {n : String}
    (h : filterVrfsByName st n ≠ []) {l : List NBVrf} (hv : st'.vrfs = st.vrfs ++ l) :
    (filterVrfsByName st' n).head? = (filterVrfsByName st n).head? := by
  unfold filterVrfsByName at *
  rw [hv, List.filter_append, List.head?_append]
  rcases hf : List.filter (fun r => r.name == n) st.vrfs with _ | ⟨a, t⟩
  · exact absurd hf h
  · rw [hf]
    rfl

/-- Well-formedness invariant: the id counter and all ids that payload
truthiness tests can see are at least 1. -/
structure GoodState (st : NBState) : Prop where
  nextPos : 1 ≤ st.nextId
  vrfPos : ∀ r ∈ st.vrfs, 1 ≤ r.id
  groupPos : ∀ g ∈ st.vlanGroups, 1 ≤ g.id

theorem vrfStep_shape (dry : Bool) (sc : NBState × Counts) (v : PVrf) :
    (vrfStep dry sc v).1.1.vlanGroups = sc.1.vlanGroups ∧
    (vrfStep dry sc v).1.1.vlans = sc.1.vlans ∧
    (vrfStep dry sc v).1.1.pfxs = sc.1.pfxs ∧
    (vrfStep dry sc v).1.1.addrs = sc.1.addrs ∧
    (vrfStep dry sc v).1.1.sites = sc.1.sites ∧
    (∃ l, (vrfStep dry sc v).1.1.vrfs = sc.1.vrfs ++ l) := by
  simp only [vrfStep]
  repeat' split
  all_goals refine ⟨rfl, rfl, rfl, rfl, rfl, ?_⟩
  all_goals first
    | exact ⟨[], (List.append_nil _).symm⟩
    | exact ⟨_, rfl⟩

theorem groupStep_shape (dry : Bool) (sc : NBState × Counts) (d : PDomain) :
    (groupStep dry sc d).1.1.vrfs = sc.1.vrfs ∧
    (groupStep dry sc d).1.1.vlans = sc.1.vlans ∧
    (groupStep dry sc d).1.1.pfxs = sc.1.pfxs ∧
    (groupStep dry sc d).1.1.addrs = sc.1.addrs ∧
    (groupStep dry sc d).1.1.sites = sc.1.sites ∧
    (∃ l, (groupStep dry sc d).1.1.vlanGroups = sc.1.vlanGroups ++ l) := by
  simp only [groupStep]
  repeat' split
  all_goals refine ⟨rfl, rfl, rfl, rfl, rfl, ?_⟩
  all_goals first
    | exact ⟨[], (List.append_nil _).symm⟩
    | exact ⟨_, rfl⟩

theorem vlanStep_shape (dry : Bool) (domains : List (String × String))
    (scc : VlanFoldState) (v : PVlan) :
    (vlanStep dry domains scc v).1.1.vrfs = scc.1.vrfs ∧
    (vlanStep dry domains scc v).1.1.vlanGroups = scc.1.vlanGroups ∧
    (vlanStep dry domains scc v).1.1.pfxs = scc.1.pfxs ∧
    (vlanStep dry domains scc v).1.1.addrs = scc.1.addrs ∧
    (vlanStep dry domains scc v).1.1.sites = scc.1.sites ∧
    (∃ l, (vlanStep dry domains scc v).1.1.vlans = scc.1.vlans ++ l) := by
  simp only [vlanStep]
  repeat' split
  all_goals refine ⟨rfl, rfl, rfl, rfl, rfl, ?_⟩
  all_goals first
    | exact ⟨[], (List.append_nil _).symm⟩
    | exact ⟨_, rfl⟩

theorem pfxTryLoop_shape (dry : Bool) (script : Nat → NbResult) (pl : PfxPayload)
    (vrfId : Option Nat) :
    ∀ (atts : List Nat) (st : NBState) (c : Counts),
      (pfxTryLoop dry script pl vrfId atts st c).1.vrfs = st.vrfs ∧
      (pfxTryLoop dry script pl vrfId atts st c).1.vlanGroups = st.vlanGroups ∧
      (pfxTryLoop dry script pl vrfId atts st c).1.vlans = st.vlans ∧
      (pfxTryLoop dry script pl vrfId atts st c).1.addrs = st.addrs ∧
      (pfxTryLoop dry script pl vrfId atts st c).1.sites = st.sites ∧
      (∃ l, (pfxTryLoop dry script pl vrfId atts st c).1.pfxs = st.pfxs ++ l) := by
  intro atts
  induction atts with
  | nil =>
    intro st c
    exact ⟨rfl, rfl, rfl, rfl, rfl, ⟨[], (List.append_nil _).symm⟩⟩
  | cons attempt rest ih =>
    intro st c
    simp only [pfxTryLoop]
    repeat' split
    all_goals first
      | exact ⟨rfl, rfl, rfl, rfl, rfl, ⟨[], (List.append_nil _).symm⟩⟩
      | exact ⟨rfl, rfl, rfl, rfl, rfl, ⟨_, rfl⟩⟩
      | exact ih st c

theorem addrStep_shape (dry : Bool) (vcache : List (String × String))
    (sc : NBState × Counts) (a : PAddr) :
    (addrStep dry vcache sc a).1.1.vlanGroups = sc.1.vlanGroups ∧
    (addrStep dry vcache sc a).1.1.vlans = sc.1.vlans ∧
    (addrStep dry vcache sc a).1.1.pfxs = sc.1.pfxs ∧
    (addrStep dry vcache sc a).1.1.sites = sc.1.sites ∧
    (∃ l, (addrStep dry vcache sc a).1.1.vrfs = sc.1.vrfs ++ l) ∧
    (∃ l, (addrStep dry vcache sc a).1.1.addrs = sc.1.addrs ++ l) := by
  have hv := get_or_create_vrf_state dry sc.1
    ((get_vrf_name vcache a.vrfId).getD "")
  simp only [addrStep]
  repeat' split
  all_goals refine ⟨?_, ?_, ?_, ?_, ?_, ?_⟩
  all_goals first
    | rfl
    | exact ⟨[], (List.append_nil _).symm⟩
    | (rcases hv with h | h
       all_goals rw [h]
       all_goals first
        | rfl
        | exact ⟨[], (List.append_nil _).symm⟩
        | exact ⟨_, rfl⟩)
    | exact ⟨_, rfl⟩

theorem get_or_create_vrf_vrfs_ex (dry : Bool) (st : NBState) (n : String) :
    ∃ l, (get_or_create_vrf dry st n).2.1.vrfs = st.vrfs ++ l := by
  rcases get_or_create_vrf_state dry st n with h | h <;> rw [h]
  · exact ⟨[], (List.append_nil _).symm⟩
  · exact ⟨_, rfl⟩

theorem pfxStep_shape (dry : Bool) (sCache vCache mapping : List (String × String))
    (vlanCache : List (String × Nat)) (script : Nat → NbResult)
    (sc : NBState × Counts) (s : PSubnet) :
    (pfxStep dry sCache vCache mapping vlanCache script sc s).1.1.vlanGroups = sc.1.vlanGroups ∧
    (pfxStep dry sCache vCache mapping vlanCache script sc s).1.1.vlans = sc.1.vlans ∧
    (pfxStep dry sCache vCache mapping vlanCache script sc s).1.1.addrs = sc.1.addrs ∧
    (pfxStep dry sCache vCache mapping vlanCache script sc s).1.1.sites = sc.1.sites ∧
    (∃ l, (pfxStep dry sCache vCache mapping vlanCache script sc s).1.1.vrfs = sc.1.vrfs ++ l) ∧
    (∃ l, (pfxStep dry sCache vCache mapping vlanCache script sc s).1.1.pfxs = sc.1.pfxs ++ l) := by
  simp only [pfxStep]
  split
  · exact ⟨rfl, rfl, rfl, rfl, ⟨[], (List.append_nil _).symm⟩,
      ⟨[], (List.append_nil _).symm⟩⟩
  by_cases hvn : pyTruthy (get_vrf_name vCache s.vrfId) = true
  · rw [if_pos hvn]
    refine ⟨?_, ?_, ?_, ?_, ?_, ?_⟩
    · rw [(pfxTryLoop_shape dry script _ _ _ _ _).2.1]
      exact get_or_create_vrf_groups _ _ _
    · rw [(pfxTryLoop_shape dry script _ _ _ _ _).2.2.1]
      exact get_or_create_vrf_vlans _ _ _
    · rw [(pfxTryLoop_shape dry script _ _ _ _ _).2.2.2.1]
      exact get_or_create_vrf_addrs _ _ _
    · rw [(pfxTryLoop_shape dry script _ _ _ _ _).2.2.2.2.1]
      exact get_or_create_vrf_sites _ _ _
    · rw [(pfxTryLoop_shape dry script _ _ _ _ _).1]
      exact get_or_create_vrf_vrfs_ex dry sc.1 _
    · rw [← get_or_create_vrf_pfxs dry sc.1 ((get_vrf_name vCache s.vrfId).getD "")]
      exact (pfxTryLoop_shape dry script _ _ _ _ _).2.2.2.2.2
  · rw [if_neg hvn]
    refine ⟨?_, ?_, ?_, ?_, ?_, ?_⟩
    · rw [(pfxTryLoop_shape dry script _ _ _ _ _).2.1]
    · rw [(pfxTryLoop_shape dry script _ _ _ _ _).2.2.1]
    · rw [(pfxTryLoop_shape dry script _ _ _ _ _).2.2.2.1]
    · rw [(pfxTryLoop_shape dry script _ _ _ _ _).2.2.2.2.1]
    · rw [(pfxTryLoop_shape dry script _ _ _ _ _).1]
      exact ⟨[], (List.append_nil _).symm⟩
    · exact (pfxTryLoop_shape dry script _ _ _ _ _).2.2.2.2.2

-- ───────────────────────── Store extension order (claim C1) ─────────────────────────

/-- One store extends another by appending to every collection; sites
are read-only throughout the migration. -/
structure SExt (S T : NBState) : Prop where
  vrfs : ∃ l, T.vrfs = S.vrfs ++ l
  groups : ∃ l, T.vlanGroups = S.vlanGroups ++ l
  vlans : ∃ l, T.vlans = S.vlans ++ l
  pfxs : ∃ l, T.pfxs = S.pfxs ++ l
  addrs : ∃ l, T.addrs = S.addrs ++ l
  sites : T.sites = S.sites

/-- Extension that additionally leaves the VLAN-group collection
untouched (holds for every phase except the VLAN-group migrator). -/
structure SExtG (S T : NBState) : Prop where
  ext : SExt S T
  groupsEq : T.vlanGroups = S.vlanGroups

theorem eqSExt {α : Type} {a b : List α} (h : b = a) : ∃ l, b = a ++ l :=
  ⟨[], by rw [h, List.append_nil]⟩

theorem extAppend {α : Type} {a b c : List α} (h1 : ∃ l, b = a ++ l)
    (h2 : ∃ l, c = b ++ l) : ∃ l, c = a ++ l := by
  obtain ⟨l1, h1⟩ := h1
  obtain ⟨l2, h2⟩ := h2
  exact ⟨l1 ++ l2, by rw [h2, h1, List.append_assoc]⟩

theorem SExt_refl (S : NBState) : SExt S S :=
  ⟨eqSExt rfl, eqSExt rfl, eqSExt rfl, eqSExt rfl, eqSExt rfl, rfl⟩

theorem SExt_trans {S T U : NBState} (h1 : SExt S T) (h2 : SExt T U) : SExt S U :=
  ⟨extAppend h1.vrfs h2.vrfs, extAppend h1.groups h2.groups,
   extAppend h1.vlans h2.vlans, extAppend h1.pfxs h2.pfxs,
   extAppend h1.addrs h2.addrs, h2.sites.trans h1.sites⟩

theorem SExtG_refl (S : NBState) : SExtG S S := ⟨SExt_refl S, rfl⟩

theorem SExtG_trans {S T U : NBState} (h1 : SExtG S T) (h2 : SExtG T U) : SExtG S U :=
  ⟨SExt_trans h1.ext h2.ext, h2.groupsEq.trans h1.groupsEq⟩

theorem vrfStep_extG (dry : Bool) (sc : NBState × Counts) (v : PVrf) :
    SExtG sc.1 (vrfStep dry sc v).1.1 :=
  have h := vrfStep_shape dry sc v
  ⟨⟨h.2.2.2.2.2, eqSExt h.1, eqSExt h.2.1, eqSExt h.2.2.1, eqSExt h.2.2.2.1, h.2.2.2.2.1⟩, h.1⟩

theorem groupStep_ext (dry : Bool) (sc : NBState × Counts) (d : PDomain) :
    SExt sc.1 (groupStep dry sc d).1.1 :=
  have h := groupStep_shape dry sc d
  ⟨eqSExt h.1, h.2.2.2.2.2, eqSExt h.2.1, eqSExt h.2.2.1, eqSExt h.2.2.2.1, h.2.2.2.2.1⟩

theorem vlanStep_extG (dry : Bool) (domains : List (String × String))
    (scc : VlanFoldState) (v : PVlan) :
    SExtG scc.1 (vlanStep dry domains scc v).1.1 :=
  have h := vlanStep_shape dry domains scc v
  ⟨⟨eqSExt h.1, eqSExt h.2.1, h.2.2.2.2.2, eqSExt h.2.2.1, eqSExt h.2.2.2.1, h.2.2.2.2.1⟩, h.2.1⟩

theorem pfxStep_extG (dry : Bool) (sCache vCache mapping : List (String × String))
    (vlanCache : List (String × Nat)) (script : Nat → NbResult)
    (sc : NBState × Counts) (s : PSubnet) :
    SExtG sc.1 (pfxStep dry sCache vCache mapping vlanCache script sc s).1.1 :=
  have h := pfxStep_shape dry sCache vCache mapping vlanCache script sc s
  ⟨⟨h.2.2.2.2.1, eqSExt h.1, eqSExt h.2.1, h.2.2.2.2.2, eqSExt h.2.2.1, h.2.2.2.1⟩, h.1⟩

theorem addrStep_extG (dry : Bool) (vcache : List (String × String))
    (sc : NBState × Counts) (a : PAddr) :
    SExtG sc.1 (addrStep dry vcache sc a).1.1 :=
  have h := addrStep_shape dry vcache sc a
  ⟨⟨h.2.2.2.2.1, eqSExt h.1, eqSExt h.2.1, eqSExt h.2.2.1, h.2.2.2.2.2, h.2.2.2.1⟩, h.1⟩

/-- A reflexive-transitive store relation holding at each step holds
across a whole fold. -/
theorem runFold_rel {σ α : Type} (proj : σ → NBState) (R : NBState → NBState → Prop)
    (hrefl : ∀ S, R S S)
    (htrans : ∀ {A B C : NBState}, R A B → R B C → R A C)
    (step : σ → α → σ × List Event) (hstep : ∀ s r, R (proj s) (proj (step s r).1)) :
    ∀ (l : List α) (s : σ), R (proj s) (proj (runFold step l s).1) := by
  intro l
  induction l with
  | nil => intro s; exact hrefl _
  | cons r rs ih =>
    intro s
    unfold runFold
    exact htrans (hstep s r) (ih (step s r).1)

/-- A state predicate preserved by each step is preserved by a fold. -/
theorem runFold_pres {σ α : Type} (P : σ → Prop)
    (step : σ → α → σ × List Event) (hstep : ∀ s r, P s → P (step s r).1) :
    ∀ (l : List α) (s : σ), P s → P (runFold step l s).1 := by
  intro l
  induction l with
  | nil => intro s h; exact h
  | cons r rs ih =>
    intro s h
    unfold runFold
    exact ih (step s r).1 (hstep s r h)

-- ───────────────────────── VRF resolution (claim C1) ─────────────────────────

/-- The id get_or_create_vrf resolves by name: the head of the name
filter at the given store. -/
def vrfResolve (st : NBState) (n : String) : Option Nat :=
  match filterVrfsByName st n with
  | [] => none
  | v :: _ => some v.id

/-- The VRF id the prefix/address migrators obtain for the optional
routing-domain name of a record at a given store. -/
def resolvedVrf (st : NBState) (vn : Option String) : Option Nat :=
  if pyTruthy vn then vrfResolve st (vn.getD "") else none

theorem filter_append_ne_nil {α : Type} {p : α → Bool} {a : List α}
    (h : a.filter p ≠ []) (b : List α) : (a ++ b).filter p ≠ [] := by
  rw [List.filter_append]
  intro hc
  exact h (List.append_eq_nil.mp hc).1

theorem vrfResolve_mono {S T : NBState} {n : String} {i : Nat}
    (hr : vrfResolve S n = some i) (h : SExt S T) : vrfResolve T n = some i := by
  obtain ⟨l, hl⟩ := h.vrfs
  unfold vrfResolve filterVrfsByName at *
  rw [hl, List.filter_append]
  rcases hf : List.filter (fun r => r.name == n) S.vrfs with _ | ⟨v, t⟩
  · rw [hf] at hr
    exact absurd hr (by simp)
  · rw [hf] at hr
    rw [hf, List.cons_append]
    exact hr

theorem pyTruthy_isEmpty {vn : Option String} (h : pyTruthy vn = true) :
    (vn.getD "").isEmpty = false := by
  cases vn with
  | none => simp [pyTruthy] at h
  | some s =>
    simp only [pyTruthy, Option.getD] at *
    cases hx : s.isEmpty
    · rfl
    · rw [hx] at h
      exact absurd h (by decide)

theorem strTake_self {s : String} {n : Nat} (h : s.toList.length ≤ n) :
    strTake s n = s := by
  unfold strTake
  rw [List.take_of_length_le h]
  cases s
  rfl

theorem gocv_found {dry : Bool} {st : NBState} {n : String} {i : Nat}
    (hne : n.isEmpty = false) (hr : vrfResolve st n = some i) :
    get_or_create_vrf dry st n =
      (some i, st, [Event.sleep REQUEST_DELAY, Event.nbFilter "vrfs" n]) := by
  unfold get_or_create_vrf
  rw [if_neg (by rw [hne]; exact Bool.false_ne_true)]
  unfold vrfResolve filterVrfsByName at hr
  unfold filterVrfsByName
  rcases hf : List.filter (fun r => r.name == n) st.vrfs with _ | ⟨v, t⟩
  · rw [hf] at hr
    exact absurd hr (by simp)
  · rw [hf] at hr
    rw [hf]
    have hvi : v.id = i := Option.some.inj hr
    exact congrArg
      (fun j => ((some j : Option Nat), st,
        [Event.sleep REQUEST_DELAY, Event.nbFilter "vrfs" n])) hvi

theorem gocv_create {st : NBState} {n : String}
    (hne : n.isEmpty = false) (hr : vrfResolve st n = none) :
    get_or_create_vrf false st n =
      (some st.nextId, (createVrf st (strTake n 100) none).1,
       [Event.sleep REQUEST_DELAY, Event.nbFilter "vrfs" n,
        Event.sleep REQUEST_DELAY, Event.nbCreate "vrfs" n]) := by
  unfold get_or_create_vrf
  rw [if_neg (by rw [hne]; exact Bool.false_ne_true)]
  unfold vrfResolve filterVrfsByName at hr
  unfold filterVrfsByName
  rcases hf : List.filter (fun r => r.name == n) st.vrfs with _ | ⟨v, t⟩
  · rw [hf]
    rfl
  · rw [hf] at hr
    exact absurd hr (by simp)

theorem vrfResolve_createVrf {st : NBState} {n : String}
    (hr : vrfResolve st n = none) (hlen : n.toList.length ≤ 100) :
    vrfResolve (createVrf st (strTake n 100) none).1 n = some st.nextId := by
  unfold vrfResolve filterVrfsByName at *
  unfold createVrf
  rw [strTake_self hlen]
  simp only [List.filter_append]
  rcases hf : List.filter (fun r => r.name == n) st.vrfs with _ | ⟨v, t⟩
  · have hone : List.filter (fun r => r.name == n)
        [(⟨st.nextId, n, none⟩ : NBVrf)] = [⟨st.nextId, n, none⟩] := by
      simp [List.filter]
    rw [hone, hf]
    rfl
  · rw [hf] at hr
    exact absurd hr (by simp)

-- ───────────────────────── GoodState preservation (claim C1) ─────────────────────────

theorem goodState_createVrf {st : NBState} (h : GoodState st) (n : String)
    (rd : Option String) : GoodState (createVrf st n rd).1 := by
  unfold createVrf
  refine ⟨Nat.le_succ_of_le h.nextPos, ?_, h.groupPos⟩
  intro r hr
  rcases List.mem_append.mp hr with hm | hm
  · exact h.vrfPos r hm
  · rw [List.mem_singleton] at hm
    subst hm
    exact h.nextPos

theorem goodState_createGroup {st : NBState} (h : GoodState st)
    (n slug d : String) : GoodState (createGroup st n slug d).1 := by
  unfold createGroup
  refine ⟨Nat.le_succ_of_le h.nextPos, h.vrfPos, ?_⟩
  intro g hg
  rcases List.mem_append.mp hg with hm | hm
  · exact h.groupPos g hm
  · rw [List.mem_singleton] at hm
    subst hm
    exact h.nextPos

theorem goodState_createVlan {st : NBState} (h : GoodState st) (vid : Int)
    (n : String) (g : Option Nat) (d : String) :
    GoodState (createVlan st vid n g d).1 :=
  ⟨Nat.le_succ_of_le h.nextPos, h.vrfPos, h.groupPos⟩

theorem goodState_createPfx {st : NBState} (h : GoodState st) (pl : NBPfxRec) :
    GoodState (createPfx st pl).1 :=
  ⟨Nat.le_succ_of_le h.nextPos, h.vrfPos, h.groupPos⟩

theorem goodState_createAddr {st : NBState} (h : GoodState st) (pl : NBAddrRec) :
    GoodState (createAddr st pl).1 :=
  ⟨Nat.le_succ_of_le h.nextPos, h.vrfPos, h.groupPos⟩

theorem goodState_gocv {dry : Bool} {st : NBState} {n : String}
    (h : GoodState st) : GoodState (get_or_create_vrf dry st n).2.1 := by
  rcases get_or_create_vrf_state dry st n with he | he <;> rw [he]
  · exact h
  · exact goodState_createVrf h _ _

theorem goodState_vrfStep {dry : Bool} {sc : NBState × Counts} {v : PVrf}
    (h : GoodState sc.1) : GoodState (vrfStep dry sc v).1.1 := by
  simp only [vrfStep]
  repeat' split
  all_goals first
    | exact h
    | exact goodState_createVrf h _ _

theorem goodState_groupStep {dry : Bool} {sc : NBState × Counts} {d : PDomain}
    (h : GoodState sc.1) : GoodState (groupStep dry sc d).1.1 := by
  simp only [groupStep]
  repeat' split
  all_goals first
    | exact h
    | exact goodState_createGroup h _ _ _

theorem goodState_vlanStep {dry : Bool} {domains : List (String × String)}
    {scc : VlanFoldState} {v : PVlan}
    (h : GoodState scc.1) : GoodState (vlanStep dry domains scc v).1.1 := by
  simp only [vlanStep]
  repeat' split
  all_goals first
    | exact h
    | exact goodState_createVlan h _ _ _ _

theorem goodState_pfxTryLoop (dry : Bool) (script : Nat → NbResult)
    (pl : PfxPayload) (vrfId : Option Nat) :
    ∀ (atts : List Nat) (st : NBState) (c : Counts), GoodState st →
      GoodState (pfxTryLoop dry script pl vrfId atts st c).1 := by
  intro atts
  induction atts with
  | nil => intro st c h; exact h
  | cons attempt rest ih =>
    intro st c h
    simp only [pfxTryLoop]
    repeat' split
    all_goals first
      | exact h
      | exact goodState_createPfx h _
      | exact ih st c h

theorem goodState_pfxStep {dry : Bool} {sCache vCache mapping : List (String × String)}
    {vlanCache : List (String × Nat)} {script : Nat → NbResult}
    {sc : NBState × Counts} {s : PSubnet} (h : GoodState sc.1) :
    GoodState (pfxStep dry sCache vCache mapping vlanCache script sc s).1.1 := by
  simp only [pfxStep]
  split
  · exact h
  by_cases hvn : pyTruthy (get_vrf_name vCache s.vrfId) = true
  · rw [if_pos hvn]
    exact goodState_pfxTryLoop _ _ _ _ _ _ _ (goodState_gocv h)
  · rw [if_neg hvn]
    exact goodState_pfxTryLoop _ _ _ _ _ _ _ h

theorem goodState_addrStep {dry : Bool} {vcache : List (String × String)}
    {sc : NBState × Counts} {a : PAddr} (h : GoodState sc.1) :
    GoodState (addrStep dry vcache sc a).1.1 := by
  simp only [addrStep]
  repeat' split
  all_goals first
    | exact h
    | exact goodState_gocv h
    | exact goodState_createAddr h _
    | exact goodState_createAddr (goodState_gocv h) _

-- ───────────────────────── Satisfaction predicates (claim C1) ─────────────────────────

/-- A phpIPAM VRF record the VRF migrator does not silently drop. -/
def vrfLive (v : PVrf) : Bool := !(strStrip (pyOrEmpty v.name)).isEmpty

/-- The VRF existence check succeeds at the given store. -/
def SatVrf (st : NBState) (v : PVrf) : Prop :=
  vrfLive v = true → filterVrfsByName st (strStrip (pyOrEmpty v.name)) ≠ []

/-- An l2domain record the VLAN-group migrator does not silently drop. -/
def domLive (d : PDomain) : Bool := !(strStrip (pyOrEmpty d.name)).isEmpty

/-- The VLAN-group existence check succeeds at the given store. -/
def SatGroup (st : NBState) (d : PDomain) : Prop :=
  domLive d = true → filterGroupsByName st (strStrip (pyOrEmpty d.name)) ≠ []

/-- A phpIPAM VLAN record the VLAN migrator does not silently drop. -/
def vlanLive (v : PVlan) : Bool :=
  pyTruthy (vlanVidRaw v) && (pyInt? ((vlanVidRaw v).getD "")).isSome

/-- The group id migrate_vlans resolves for a record at a given store. -/
def vlanGroupId (st : NBState) (domains : List (String × String)) (v : PVlan) :
    Option Nat :=
  (vlanGroupPair st domains v).1

/-- One of the two VLAN existence checks succeeds at the given store. -/
def SatVlan (st : NBState) (domains : List (String × String)) (v : PVlan) : Prop :=
  ∀ vid : Int, pyTruthy (vlanVidRaw v) = true →
    pyInt? ((vlanVidRaw v).getD "") = some vid →
    filterVlansByVid st vid (vlanGroupId st domains v) ≠ [] ∨
    filterVlansByName st (vlanName v vid) (vlanGroupId st domains v) ≠ []

/-- A subnet record the prefix migrator does not silently drop. -/
def pfxLive (s : PSubnet) : Bool := pyTruthy s.subnet && pyTruthy s.mask

/-- The prefix string migrate_prefixes builds for a record. -/
def pfxKey (s : PSubnet) : String := s.subnet.getD "" ++ "/" ++ s.mask.getD ""

/-- The routing-domain name resolves and the prefix existence check
succeeds at the given store. -/
def SatPfx (st : NBState) (vCache : List (String × String)) (s : PSubnet) : Prop :=
  pfxLive s = true →
    (pyTruthy (get_vrf_name vCache s.vrfId) = true →
      vrfResolve st ((get_vrf_name vCache s.vrfId).getD "") ≠ none) ∧
    filterPfxs st (pfxKey s) (resolvedVrf st (get_vrf_name vCache s.vrfId)) ≠ []

/-- An address record the address migrator does not silently drop. -/
def addrLive (a : PAddr) : Bool := pyTruthy a.ip

/-- The routing-domain name resolves and the address existence check
succeeds at the given store. -/
def SatAddr (st : NBState) (vCache : List (String × String)) (a : PAddr) : Prop :=
  addrLive a = true →
    (pyTruthy (get_vrf_name vCache a.vrfId) = true →
      vrfResolve st ((get_vrf_name vCache a.vrfId).getD "") ≠ none) ∧
    filterAddrs st (a.ip.getD "") (resolvedVrf st (get_vrf_name vCache a.vrfId)) ≠ []

-- ───────────────────────── Monotonicity of satisfaction ─────────────────────────

theorem SatVrf_mono {S T : NBState} {v : PVrf} (h : SatVrf S v) (he : SExt S T) :
    SatVrf T v := by
  intro hl
  obtain ⟨l, hvl⟩ := he.vrfs
  have h1 := h hl
  unfold filterVrfsByName at *
  rw [hvl]
  exact filter_append_ne_nil h1 l

theorem SatGroup_mono {S T : NBState} {d : PDomain} (h : SatGroup S d)
    (he : SExt S T) : SatGroup T d := by
  intro hl
  obtain ⟨l, hvl⟩ := he.groups
  have h1 := h hl
  unfold filterGroupsByName at *
  rw [hvl]
  exact filter_append_ne_nil h1 l

theorem resolvedVrf_mono {S T : NBState} {vn : Option String}
    (hr : pyTruthy vn = true → vrfResolve S (vn.getD "") ≠ none) (he : SExt S T) :
    resolvedVrf T vn = resolvedVrf S vn := by
  unfold resolvedVrf
  by_cases hvn : pyTruthy vn = true
  · rw [if_pos hvn, if_pos hvn]
    rcases ho : vrfResolve S (vn.getD "") with _ | i
    · exact absurd ho (hr hvn)
    · exact vrfResolve_mono ho he
  · rw [if_neg hvn, if_neg hvn]

theorem SatPfx_mono {S T : NBState} {vC : List (String × String)} {s : PSubnet}
    (h : SatPfx S vC s) (he : SExt S T) : SatPfx T vC s := by
  intro hl
  obtain ⟨h1, h2⟩ := h hl
  refine ⟨?_, ?_⟩
  · intro hvn
    rcases ho : vrfResolve S ((get_vrf_name vC s.vrfId).getD "") with _ | i
    · exact absurd ho (h1 hvn)
    · rw [vrfResolve_mono ho he]
      exact Option.some_ne_none i
  · rw [resolvedVrf_mono h1 he]
    obtain ⟨l, hpl⟩ := he.pfxs
    unfold filterPfxs at *
    rw [hpl]
    exact filter_append_ne_nil h2 l

theorem SatAddr_mono {S T : NBState} {vC : List (String × String)} {a : PAddr}
    (h : SatAddr S vC a) (he : SExt S T) : SatAddr T vC a := by
  intro hl
  obtain ⟨h1, h2⟩ := h hl
  refine ⟨?_, ?_⟩
  · intro hvn
    rcases ho : vrfResolve S ((get_vrf_name vC a.vrfId).getD "") with _ | i
    · exact absurd ho (h1 hvn)
    · rw [vrfResolve_mono ho he]
      exact Option.some_ne_none i
  · rw [resolvedVrf_mono h1 he]
    obtain ⟨l, hpl⟩ := he.addrs
    unfold filterAddrs at *
    rw [hpl]
    exact filter_append_ne_nil h2 l

theorem vlanGroupId_eq {S T : NBState} {domains : List (String × String)}
    {v : PVlan} (hg : T.vlanGroups = S.vlanGroups) :
    vlanGroupId T domains v = vlanGroupId S domains v := by
  unfold vlanGroupId vlanGroupPair filterGroupsByName
  rw [hg]

theorem SatVlan_mono {S T : NBState} {domains : List (String × String)} {v : PVlan}
    (h : SatVlan S domains v) (he : SExtG S T) : SatVlan T domains v := by
  intro vid hvr hvi
  rcases h vid hvr hvi with h1 | h1
  · left
    rw [vlanGroupId_eq he.groupsEq]
    obtain ⟨l, hvl⟩ := he.ext.vlans
    unfold filterVlansByVid at *
    rw [hvl]
    exact filter_append_ne_nil h1 l
  · right
    rw [vlanGroupId_eq he.groupsEq]
    obtain ⟨l, hvl⟩ := he.ext.vlans
    unfold filterVlansByName at *
    rw [hvl]
    exact filter_append_ne_nil h1 l

-- ───────────────────────── Per-phase run lemmas: VRFs ─────────────────────────

theorem bfalse {b : Bool} (h : ¬ b = true) : b = false := by
  cases b
  · rfl
  · exact absurd rfl h

theorem ne_isEmpty_false {α : Type} {l : List α} (h : l ≠ []) : l.isEmpty = false := by
  cases l with
  | nil => exact absurd rfl h
  | cons a t => rfl

theorem isEmpty_false_ne {α : Type} {l : List α} (h : l.isEmpty = false) : l ≠ [] := by
  cases l with
  | nil => simp [List.isEmpty] at h
  | cons a t => exact List.cons_ne_nil a t

theorem runFold_cons {σ α : Type} (step : σ → α → σ × List Event) (r : α)
    (rs : List α) (s : σ) :
    runFold step (r :: rs) s =
      ((runFold step rs (step s r).1).1,
       (step s r).2 ++ (runFold step rs (step s r).1).2) := rfl

theorem filterVrfsByName_createVrf_self {st : NBState} {n : String}
    (hlen : n.toList.length ≤ 100) (rd : Option String) :
    filterVrfsByName (createVrf st (strTake n 100) rd).1 n ≠ [] := by
  unfold filterVrfsByName createVrf
  rw [strTake_self hlen]
  simp only [List.filter_append]
  intro hc
  have h2 := (List.append_eq_nil.mp hc).2
  simp [List.filter] at h2

theorem vrfStep_run1 (sc : NBState × Counts) {v : PVrf}
    (hlen : (strStrip (pyOrEmpty v.name)).toList.length ≤ 100) :
    SatVrf (vrfStep false sc v).1.1 v ∧
    (vrfStep false sc v).1.2.created + (vrfStep false sc v).1.2.skipped
      = sc.2.created + sc.2.skipped + (if vrfLive v = true then 1 else 0) ∧
    (vrfStep false sc v).1.2.errors = sc.2.errors := by
  simp only [vrfStep]
  by_cases hname : (strStrip (pyOrEmpty v.name)).isEmpty = true
  · rw [if_pos hname]
    have hlive : vrfLive v = false := by unfold vrfLive; rw [hname]; rfl
    refine ⟨?_, ?_, rfl⟩
    · intro hl
      rw [hlive] at hl
      exact absurd hl (by decide)
    · rw [hlive]
      simp
  · have hname' : (strStrip (pyOrEmpty v.name)).isEmpty = false := bfalse hname
    have hlive : vrfLive v = true := by unfold vrfLive; rw [hname']; rfl
    rw [if_neg hname]
    by_cases hfound : (filterVrfsByName sc.1 (strStrip (pyOrEmpty v.name))).isEmpty = true
    · rw [if_neg (by rw [hfound]; decide), if_neg Bool.false_ne_true]
      refine ⟨?_, ?_, rfl⟩
      · intro hl
        exact filterVrfsByName_createVrf_self hlen _
      · rw [hlive]
        show sc.2.created + 1 + sc.2.skipped = sc.2.created + sc.2.skipped + 1
        omega
    · have hfound' := bfalse hfound
      rw [if_pos (by rw [hfound']; rfl)]
      refine ⟨?_, ?_, rfl⟩
      · intro hl
        exact isEmpty_false_ne hfound'
      · rw [hlive]
        show sc.2.created + (sc.2.skipped + 1) = sc.2.created + sc.2.skipped + 1
        omega

theorem vrfStep_skip {sc : NBState × Counts} {v : PVrf} (h : SatVrf sc.1 v) :
    (vrfStep false sc v).1.1 = sc.1 ∧
    (vrfStep false sc v).1.2.created = sc.2.created ∧
    (vrfStep false sc v).1.2.errors = sc.2.errors ∧
    (vrfStep false sc v).1.2.skipped
      = sc.2.skipped + (if vrfLive v = true then 1 else 0) ∧
    countCreateEvents (vrfStep false sc v).2 = 0 := by
  simp only [vrfStep]
  by_cases hname : (strStrip (pyOrEmpty v.name)).isEmpty = true
  · rw [if_pos hname]
    have hlive : vrfLive v = false := by unfold vrfLive; rw [hname]; rfl
    rw [hlive]
    exact ⟨rfl, rfl, rfl, by simp, rfl⟩
  · have hname' := bfalse hname
    have hlive : vrfLive v = true := by unfold vrfLive; rw [hname']; rfl
    have hfound : (filterVrfsByName sc.1 (strStrip (pyOrEmpty v.name))).isEmpty = false :=
      ne_isEmpty_false (h hlive)
    rw [if_neg hname, if_pos (by rw [hfound]; rfl)]
    rw [hlive]
    exact ⟨rfl, rfl, rfl, rfl, rfl⟩

theorem vrfFold_run1 :
    ∀ (l : List PVrf) (sc : NBState × Counts),
      (∀ v ∈ l, (strStrip (pyOrEmpty v.name)).toList.length ≤ 100) →
      (∀ v ∈ l, SatVrf (runFold (vrfStep false) l sc).1.1 v) ∧
      (runFold (vrfStep false) l sc).1.2.created
          + (runFold (vrfStep false) l sc).1.2.skipped
        = sc.2.created + sc.2.skipped + l.countP vrfLive ∧
      (runFold (vrfStep false) l sc).1.2.errors = sc.2.errors := by
  intro l
  induction l with
  | nil =>
    intro sc hlen
    exact ⟨fun v hv => absurd hv (List.not_mem_nil v), rfl, rfl⟩
  | cons r rs ih =>
    intro sc hlen
    rw [runFold_cons]
    obtain ⟨hsat, hcount, herr⟩ := vrfStep_run1 sc (hlen r (List.mem_cons_self r rs))
    obtain ⟨ihsat, ihcount, iherr⟩ := ih (vrfStep false sc r).1
      (fun v hv => hlen v (List.mem_cons_of_mem r hv))
    have hext : SExtG (vrfStep false sc r).1.1
        (runFold (vrfStep false) rs (vrfStep false sc r).1).1.1 :=
      runFold_rel (fun s => s.1) SExtG SExtG_refl
        (fun h1 h2 => SExtG_trans h1 h2) (vrfStep false)
        (fun s r => vrfStep_extG false s r) rs (vrfStep false sc r).1
    refine ⟨?_, ?_, ?_⟩
    · intro v hv
      rcases List.mem_cons.mp hv with hv | hv
      · subst hv
        exact SatVrf_mono hsat hext.ext
      · exact ihsat v hv
    · rw [ihcount, hcount, List.countP_cons]
      omega
    · rw [iherr, herr]

theorem vrfFold_skip :
    ∀ (l : List PVrf) (sc : NBState × Counts),
      (∀ v ∈ l, SatVrf sc.1 v) →
      (runFold (vrfStep false) l sc).1.1 = sc.1 ∧
      (runFold (vrfStep false) l sc).1.2.created = sc.2.created ∧
      (runFold (vrfStep false) l sc).1.2.errors = sc.2.errors ∧
      (runFold (vrfStep false) l sc).1.2.skipped
        = sc.2.skipped + l.countP vrfLive ∧
      countCreateEvents (runFold (vrfStep false) l sc).2 = 0 := by
  intro l
  induction l with
  | nil => intro sc h; exact ⟨rfl, rfl, rfl, rfl, rfl⟩
  | cons r rs ih =>
    intro sc h
    rw [runFold_cons]
    obtain ⟨hst, hcr, herr, hsk, hev⟩ := vrfStep_skip (h r (List.mem_cons_self r rs))
    obtain ⟨ihst, ihcr, iherr, ihsk, ihev⟩ := ih (vrfStep false sc r).1
      (fun v hv => by rw [hst]; exact h v (List.mem_cons_of_mem r hv))
    refine ⟨?_, ?_, ?_, ?_, ?_⟩
    · rw [ihst, hst]
    · rw [ihcr, hcr]
    · rw [iherr, herr]
    · rw [ihsk, hsk, List.countP_cons]
      omega
    · rw [countCreateEvents_append, hev, ihev]

-- ───────────────────────── Per-phase run lemmas: VLAN groups ─────────────────────────

theorem filterGroupsByName_createGroup_self {st : NBState} {n : String}
    (hlen : n.toList.length ≤ 100) (slug d : String) :
    filterGroupsByName (createGroup st (strTake n 100) slug d).1 n ≠ [] := by
  unfold filterGroupsByName createGroup
  rw [strTake_self hlen]
  simp only [List.filter_append]
  intro hc
  have h2 := (List.append_eq_nil.mp hc).2
  simp [List.filter] at h2

theorem groupStep_run1 (sc : NBState × Counts) {d : PDomain}
    (hlen : (strStrip (pyOrEmpty d.name)).toList.length ≤ 100) :
    SatGroup (groupStep false sc d).1.1 d ∧
    (groupStep false sc d).1.2.created + (groupStep false sc d).1.2.skipped
      = sc.2.created + sc.2.skipped + (if domLive d = true then 1 else 0) ∧
    (groupStep false sc d).1.2.errors = sc.2.errors := by
  simp only [groupStep]
  by_cases hname : (strStrip (pyOrEmpty d.name)).isEmpty = true
  · rw [if_pos hname]
    have hlive : domLive d = false := by unfold domLive; rw [hname]; rfl
    refine ⟨?_, ?_, rfl⟩
    · intro hl
      rw [hlive] at hl
      exact absurd hl (by decide)
    · rw [hlive]
      simp
  · have hname' : (strStrip (pyOrEmpty d.name)).isEmpty = false := bfalse hname
    have hlive : domLive d = true := by unfold domLive; rw [hname']; rfl
    rw [if_neg hname]
    by_cases hfound : (filterGroupsByName sc.1 (strStrip (pyOrEmpty d.name))).isEmpty = true
    · rw [if_neg (by rw [hfound]; decide), if_neg Bool.false_ne_true]
      refine ⟨?_, ?_, rfl⟩
      · intro hl
        exact filterGroupsByName_createGroup_self hlen _ _
      · rw [hlive]
        show sc.2.created + 1 + sc.2.skipped = sc.2.created + sc.2.skipped + 1
        omega
    · have hfound' := bfalse hfound
      rw [if_pos (by rw [hfound']; rfl)]
      refine ⟨?_, ?_, rfl⟩
      · intro hl
        exact isEmpty_false_ne hfound'
      · rw [hlive]
        show sc.2.created + (sc.2.skipped + 1) = sc.2.created + sc.2.skipped + 1
        omega

theorem groupStep_skip {sc : NBState × Counts} {d : PDomain} (h : SatGroup sc.1 d) :
    (groupStep false sc d).1.1 = sc.1 ∧
    (groupStep false sc d).1.2.created = sc.2.created ∧
    (groupStep false sc d).1.2.errors = sc.2.errors ∧
    (groupStep false sc d).1.2.skipped
      = sc.2.skipped + (if domLive d = true then 1 else 0) ∧
    countCreateEvents (groupStep false sc d).2 = 0 := by
  simp only [groupStep]
  by_cases hname : (strStrip (pyOrEmpty d.name)).isEmpty = true
  · rw [if_pos hname]
    have hlive : domLive d = false := by unfold domLive; rw [hname]; rfl
    rw [hlive]
    exact ⟨rfl, rfl, rfl, rfl, rfl⟩
  · have hname' := bfalse hname
    have hlive : domLive d = true := by unfold domLive; rw [hname']; rfl
    have hfound : (filterGroupsByName sc.1 (strStrip (pyOrEmpty d.name))).isEmpty = false :=
      ne_isEmpty_false (h hlive)
    rw [if_neg hname, if_pos (by rw [hfound]; rfl)]
    rw [hlive]
    exact ⟨rfl, rfl, rfl, rfl, rfl⟩

theorem groupFold_run1 :
    ∀ (l : List PDomain) (sc : NBState × Counts),
      (∀ d ∈ l, (strStrip (pyOrEmpty d.name)).toList.length ≤ 100) →
      (∀ d ∈ l, SatGroup (runFold (groupStep false) l sc).1.1 d) ∧
      (runFold (groupStep false) l sc).1.2.created
          + (runFold (groupStep false) l sc).1.2.skipped
        = sc.2.created + sc.2.skipped + l.countP domLive ∧
      (runFold (groupStep false) l sc).1.2.errors = sc.2.errors := by
  intro l
  induction l with
  | nil =>
    intro sc hlen
    exact ⟨fun d hd => absurd hd (List.not_mem_nil d), rfl, rfl⟩
  | cons r rs ih =>
    intro sc hlen
    rw [runFold_cons]
    obtain ⟨hsat, hcount, herr⟩ := groupStep_run1 sc (hlen r (List.mem_cons_self r rs))
    obtain ⟨ihsat, ihcount, iherr⟩ := ih (groupStep false sc r).1
      (fun d hd => hlen d (List.mem_cons_of_mem r hd))
    have hext : SExt (groupStep false sc r).1.1
        (runFold (groupStep false) rs (groupStep false sc r).1).1.1 :=
      runFold_rel (fun s => s.1) SExt SExt_refl
        (fun h1 h2 => SExt_trans h1 h2) (groupStep false)
        (fun s r => groupStep_ext false s r) rs (groupStep false sc r).1
    refine ⟨?_, ?_, ?_⟩
    · intro d hd
      rcases List.mem_cons.mp hd with hd | hd
      · subst hd
        exact SatGroup_mono hsat hext
      · exact ihsat d hd
    · rw [ihcount, hcount, List.countP_cons]
      omega
    · rw [iherr, herr]

theorem groupFold_skip :
    ∀ (l : List PDomain) (sc : NBState × Counts),
      (∀ d ∈ l, SatGroup sc.1 d) →
      (runFold (groupStep false) l sc).1.1 = sc.1 ∧
      (runFold (groupStep false) l sc).1.2.created = sc.2.created ∧
      (runFold (groupStep false) l sc).1.2.errors = sc.2.errors ∧
      (runFold (groupStep false) l sc).1.2.skipped
        = sc.2.skipped + l.countP domLive ∧
      countCreateEvents (runFold (groupStep false) l sc).2 = 0 := by
  intro l
  induction l with
  | nil => intro sc h; exact ⟨rfl, rfl, rfl, rfl, rfl⟩
  | cons r rs ih =>
    intro sc h
    rw [runFold_cons]
    obtain ⟨hst, hcr, herr, hsk, hev⟩ := groupStep_skip (h r (List.mem_cons_self r rs))
    obtain ⟨ihst, ihcr, iherr, ihsk, ihev⟩ := ih (groupStep false sc r).1
      (fun d hd => by rw [hst]; exact h d (List.mem_cons_of_mem r hd))
    refine ⟨?_, ?_, ?_, ?_, ?_⟩
    · rw [ihst, hst]
    · rw [ihcr, hcr]
    · rw [iherr, herr]
    · rw [ihsk, hsk, List.countP_cons]
      omega
    · rw [countCreateEvents_append, hev, ihev]

-- ───────────────────────── Per-phase run lemmas: VLANs ─────────────────────────

theorem vlanGroupPair_pos {st : NBState} {domains : List (String × String)}
    {v : PVlan} {g : Nat} (hg : GoodState st)
    (h : (vlanGroupPair st domains v).1 = some g) : 1 ≤ g := by
  simp only [vlanGroupPair] at h
  by_cases hd : (!(pyOrEmpty v.domainId).isEmpty &&
      (dictLookup domains (pyOrEmpty v.domainId)).isSome) = true
  · rw [if_pos hd] at h
    rcases hf : filterGroupsByName st
        ((dictLookup domains (pyOrEmpty v.domainId)).getD "") with _ | ⟨r, t⟩
    · rw [hf] at h
      exact absurd h (by simp)
    · rw [hf] at h
      have hid : r.id = g := Option.some.inj h
      have hmem : r ∈ List.filter
          (fun q => q.name == ((dictLookup domains (pyOrEmpty v.domainId)).getD ""))
          st.vlanGroups := by
        unfold filterGroupsByName at hf
        rw [hf]
        exact List.mem_cons_self r t
      have hpos := hg.groupPos r (List.mem_of_mem_filter hmem)
      omega
  · rw [if_neg hd] at h
    exact absurd h (by simp)

theorem vlanCreate_hit {st : NBState} {domains : List (String × String)} {v : PVlan}
    {vid : Int} (hg : GoodState st) (desc : String) :
    filterVlansByVid
      (createVlan st vid (vlanName v vid)
        (if pyTruthyN (vlanGroupPair st domains v).1 = true
          then (vlanGroupPair st domains v).1 else none) desc).1
      vid
      (vlanGroupId (createVlan st vid (vlanName v vid)
        (if pyTruthyN (vlanGroupPair st domains v).1 = true
          then (vlanGroupPair st domains v).1 else none) desc).1 domains v) ≠ [] := by
  have hge : (createVlan st vid (vlanName v vid)
      (if pyTruthyN (vlanGroupPair st domains v).1 = true
        then (vlanGroupPair st domains v).1 else none) desc).1.vlanGroups
      = st.vlanGroups := rfl
  rw [vlanGroupId_eq hge]
  unfold vlanGroupId filterVlansByVid createVlan
  simp only [List.filter_append]
  intro hc
  have h2c := (List.append_eq_nil.mp hc).2
  rcases hgid : (vlanGroupPair st domains v).1 with _ | g
  · rw [hgid] at h2c
    simp [List.filter, pyTruthyN] at h2c
  · rw [hgid] at h2c
    have hgpos := vlanGroupPair_pos hg hgid
    have htr : pyTruthyN (some g) = true := by
      simp only [pyTruthyN, bne_iff_ne]
      omega
    rw [htr] at h2c
    simp [List.filter] at h2c

theorem vlanStep_run1 (domains : List (String × String)) (scc : VlanFoldState)
    (v : PVlan) (hg : GoodState scc.1) :
    SatVlan (vlanStep false domains scc v).1.1 domains v ∧
    (vlanStep false domains scc v).1.2.1.created
        + (vlanStep false domains scc v).1.2.1.skipped
      = scc.2.1.created + scc.2.1.skipped + (if vlanLive v = true then 1 else 0) ∧
    (vlanStep false domains scc v).1.2.1.errors = scc.2.1.errors := by
  simp only [vlanStep]
  split
  · rename_i h
    have hvr' : pyTruthy (vlanVidRaw v) = false := by
      cases hx : pyTruthy (vlanVidRaw v)
      · rfl
      · rw [hx] at h
        exact absurd h (by decide)
    have hlive : vlanLive v = false := by unfold vlanLive; rw [hvr']; rfl
    refine ⟨?_, ?_, rfl⟩
    · intro vid0 h1 h2
      rw [h1] at hvr'
      exact absurd hvr' (by decide)
    · rw [hlive]
      simp
  · rename_i hvrB
    split
    · rename_i hint
      have hlive : vlanLive v = false := by
        unfold vlanLive
        rw [hint]
        simp
      refine ⟨?_, ?_, rfl⟩
      · intro vid0 h1 h2
        rw [hint] at h2
        exact absurd h2 (by simp)
      · rw [hlive]
        simp
    · rename_i vid hint
      have hvr : pyTruthy (vlanVidRaw v) = true := by
        cases hx : pyTruthy (vlanVidRaw v)
        · exact absurd (by rw [hx]; rfl) hvrB
        · rfl
      have hlive : vlanLive v = true := by
        unfold vlanLive
        rw [hvr, hint]
        rfl
      split
      · rename_i e t hvf
        refine ⟨?_, ?_, rfl⟩
        · intro vid0 h1 h2
          rw [hint] at h2
          have hv0 : vid0 = vid := (Option.some.inj h2).symm
          subst hv0
          left
          unfold vlanGroupId
          rw [hvf]
          exact List.cons_ne_nil e t
        · rw [hlive]
          show scc.2.1.created + (scc.2.1.skipped + 1)
            = scc.2.1.created + scc.2.1.skipped + 1
          omega
      · rename_i hvf
        split
        · rename_i e t hnf
          refine ⟨?_, ?_, rfl⟩
          · intro vid0 h1 h2
            rw [hint] at h2
            have hv0 : vid0 = vid := (Option.some.inj h2).symm
            subst hv0
            right
            unfold vlanGroupId
            rw [hnf]
            exact List.cons_ne_nil e t
          · rw [hlive]
            show scc.2.1.created + (scc.2.1.skipped + 1)
              = scc.2.1.created + scc.2.1.skipped + 1
            omega
        · rename_i hnf
          rw [if_neg Bool.false_ne_true]
          refine ⟨?_, ?_, rfl⟩
          · intro vid0 h1 h2
            rw [hint] at h2
            have hv0 : vid0 = vid := (Option.some.inj h2).symm
            subst hv0
            left
            exact vlanCreate_hit hg _
          · rw [hlive]
            show scc.2.1.created + 1 + scc.2.1.skipped
              = scc.2.1.created + scc.2.1.skipped + 1
            omega

theorem vlanGroupPair_ev (st : NBState) (domains : List (String × String))
    (v : PVlan) : countCreateEvents (vlanGroupPair st domains v).2 = 0 := by
  simp only [vlanGroupPair]
  repeat' split
  all_goals rfl

theorem vlanStep_skip {domains : List (String × String)} {scc : VlanFoldState}
    {v : PVlan} (h : SatVlan scc.1 domains v) :
    (vlanStep false domains scc v).1.1 = scc.1 ∧
    (vlanStep false domains scc v).1.2.1.created = scc.2.1.created ∧
    (vlanStep false domains scc v).1.2.1.errors = scc.2.1.errors ∧
    (vlanStep false domains scc v).1.2.1.skipped
      = scc.2.1.skipped + (if vlanLive v = true then 1 else 0) ∧
    countCreateEvents (vlanStep false domains scc v).2 = 0 := by
  simp only [vlanStep]
  split
  · rename_i hx
    have hvr' : pyTruthy (vlanVidRaw v) = false := by
      cases hy : pyTruthy (vlanVidRaw v)
      · rfl
      · rw [hy] at hx
        exact absurd hx (by decide)
    have hlive : vlanLive v = false := by unfold vlanLive; rw [hvr']; rfl
    rw [hlive]
    exact ⟨rfl, rfl, rfl, by simp, rfl⟩
  · rename_i hvrB
    split
    · rename_i hint
      have hlive : vlanLive v = false := by
        unfold vlanLive
        rw [hint]
        simp
      rw [hlive]
      exact ⟨rfl, rfl, rfl, by simp, rfl⟩
    · rename_i vid hint
      have hvr : pyTruthy (vlanVidRaw v) = true := by
        cases hx : pyTruthy (vlanVidRaw v)
        · exact absurd (by rw [hx]; rfl) hvrB
        · rfl
      have hlive : vlanLive v = true := by
        unfold vlanLive
        rw [hvr, hint]
        rfl
      split
      · rename_i e t hvf
        rw [hlive]
        refine ⟨rfl, rfl, rfl, rfl, ?_⟩
        rw [countCreateEvents_append, vlanGroupPair_ev]
        rfl
      · rename_i hvf
        split
        · rename_i e t hnf
          rw [hlive]
          refine ⟨rfl, rfl, rfl, rfl, ?_⟩
          rw [countCreateEvents_append, countCreateEvents_append, vlanGroupPair_ev]
          rfl
        · rename_i hnf
          exfalso
          rcases h vid hvr hint with hhit | hhit
          · unfold vlanGroupId at hhit
            rw [hvf] at hhit
            exact absurd rfl hhit
          · unfold vlanGroupId at hhit
            rw [hnf] at hhit
            exact absurd rfl hhit

theorem vlanFold_run1 (domains : List (String × String)) :
    ∀ (l : List PVlan) (scc : VlanFoldState), GoodState scc.1 →
      (∀ v ∈ l, SatVlan (runFold (vlanStep false domains) l scc).1.1 domains v) ∧
      (runFold (vlanStep false domains) l scc).1.2.1.created
          + (runFold (vlanStep false domains) l scc).1.2.1.skipped
        = scc.2.1.created + scc.2.1.skipped + l.countP vlanLive ∧
      (runFold (vlanStep false domains) l scc).1.2.1.errors = scc.2.1.errors := by
  intro l
  induction l with
  | nil =>
    intro scc hg
    exact ⟨fun v hv => absurd hv (List.not_mem_nil v), rfl, rfl⟩
  | cons r rs ih =>
    intro scc hg
    rw [runFold_cons]
    obtain ⟨hsat, hcount, herr⟩ := vlanStep_run1 domains scc r hg
    obtain ⟨ihsat, ihcount, iherr⟩ := ih (vlanStep false domains scc r).1
      (goodState_vlanStep hg)
    have hext : SExtG (vlanStep false domains scc r).1.1
        (runFold (vlanStep false domains) rs (vlanStep false domains scc r).1).1.1 :=
      runFold_rel (fun s => s.1) SExtG SExtG_refl
        (fun h1 h2 => SExtG_trans h1 h2) (vlanStep false domains)
        (fun s r => vlanStep_extG false domains s r) rs
        (vlanStep false domains scc r).1
    refine ⟨?_, ?_, ?_⟩
    · intro v hv
      rcases List.mem_cons.mp hv with hv | hv
      · subst hv
        exact SatVlan_mono hsat hext
      · exact ihsat v hv
    · rw [ihcount, hcount, List.countP_cons]
      omega
    · rw [iherr, herr]

theorem vlanFold_skip (domains : List (String × String)) :
    ∀ (l : List PVlan) (scc : VlanFoldState),
      (∀ v ∈ l, SatVlan scc.1 domains v) →
      (runFold (vlanStep false domains) l scc).1.1 = scc.1 ∧
      (runFold (vlanStep false domains) l scc).1.2.1.created = scc.2.1.created ∧
      (runFold (vlanStep false domains) l scc).1.2.1.errors = scc.2.1.errors ∧
      (runFold (vlanStep false domains) l scc).1.2.1.skipped
        = scc.2.1.skipped + l.countP vlanLive ∧
      countCreateEvents (runFold (vlanStep false domains) l scc).2 = 0 := by
  intro l
  induction l with
  | nil => intro scc h; exact ⟨rfl, rfl, rfl, rfl, rfl⟩
  | cons r rs ih =>
    intro scc h
    rw [runFold_cons]
    obtain ⟨hst, hcr, herr, hsk, hev⟩ := vlanStep_skip (h r (List.mem_cons_self r rs))
    obtain ⟨ihst, ihcr, iherr, ihsk, ihev⟩ := ih (vlanStep false domains scc r).1
      (fun v hv => by rw [hst]; exact h v (List.mem_cons_of_mem r hv))
    refine ⟨?_, ?_, ?_, ?_, ?_⟩
    · rw [ihst, hst]
    · rw [ihcr, hcr]
    · rw [iherr, herr]
    · rw [ihsk, hsk, List.countP_cons]
      omega
    · rw [countCreateEvents_append, hev, ihev]

-- ───────────────────────── Per-phase run lemmas: prefixes ─────────────────────────

theorem bnot_true {b : Bool} (h : (!b) = true) : b = false := by
  cases b
  · rfl
  · exact absurd h (by decide)

theorem vrfResolve_pos {st : NBState} {n : String} {i : Nat} (hg : GoodState st)
    (h : vrfResolve st n = some i) : 1 ≤ i := by
  unfold vrfResolve at h
  rcases hf : filterVrfsByName st n with _ | ⟨v, t⟩
  · rw [hf] at h
    exact absurd h (by simp)
  · rw [hf] at h
    have hvi : v.id = i := Option.some.inj h
    have hmem : v ∈ st.vrfs := by
      unfold filterVrfsByName at hf
      exact List.mem_of_mem_filter (by rw [hf]; exact List.mem_cons_self v t)
    have := hg.vrfPos v hmem
    omega

theorem dictLookup_val_mem {d : List (String × String)} {k vl : String}
    (h : dictLookup d k = some vl) : ∃ p ∈ d, p.2 = vl := by
  unfold dictLookup at h
  obtain ⟨e, hfind, he2⟩ := Option.map_eq_some'.mp h
  exact ⟨e, List.mem_reverse.mp (List.mem_of_find?_eq_some hfind), he2⟩

theorem get_vrf_name_len {vC : List (String × String)} {x : Option String}
    {nm : String} (hlen : ∀ p ∈ vC, p.2.toList.length ≤ 100)
    (h : get_vrf_name vC x = some nm) : nm.toList.length ≤ 100 := by
  unfold get_vrf_name at h
  by_cases hx : (!pyTruthy x) = true
  · rw [if_pos hx] at h
    exact absurd h (by simp)
  · rw [if_neg hx] at h
    obtain ⟨p, hp, hp2⟩ := dictLookup_val_mem h
    rw [← hp2]
    exact hlen p hp

theorem pfxTryLoop_skip1 {st : NBState} {c : Counts} {pl : PfxPayload}
    {vrfId : Option Nat} {script : Nat → NbResult}
    (hne : (filterPfxs st pl.pfx vrfId).isEmpty = false)
    (attempt : Nat) (rest : List Nat) :
    pfxTryLoop false script pl vrfId (attempt :: rest) st c =
      (st, { c with skipped := c.skipped + 1 },
       [Event.sleep REQUEST_DELAY, Event.nbFilter "prefixes" pl.pfx], 1) := by
  simp only [pfxTryLoop]
  rw [if_pos (by rw [hne]; rfl)]

theorem pfxTryLoop_create1 {st : NBState} {c : Counts} {pl : PfxPayload}
    {vrfId : Option Nat}
    (hemp : (filterPfxs st pl.pfx vrfId).isEmpty = true)
    (attempt : Nat) (rest : List Nat) :
    pfxTryLoop false allOk pl vrfId (attempt :: rest) st c =
      ((createPfx st pl.toRec).1, { c with created := c.created + 1 },
       [Event.sleep REQUEST_DELAY, Event.nbFilter "prefixes" pl.pfx,
        Event.sleep REQUEST_DELAY, Event.nbCreate "prefixes" pl.pfx], 1) := by
  simp only [pfxTryLoop]
  rw [if_neg (by rw [hemp]; decide), if_neg Bool.false_ne_true]
  rfl

theorem pfxCreate_hit {st : NBState} {key : String} {vrfId : Option Nat}
    {rec : NBPfxRec} (hpfx : rec.pfx = key)
    (hvrf : ∀ g, vrfId = some g → rec.vrf = some g) :
    filterPfxs (createPfx st rec).1 key vrfId ≠ [] := by
  unfold filterPfxs createPfx
  simp only [List.filter_append]
  intro hc
  have h2 := (List.append_eq_nil.mp hc).2
  have hmatch : (({ rec with id := st.nextId } : NBPfxRec).pfx == key) = true := by
    rw [show ({ rec with id := st.nextId } : NBPfxRec).pfx = rec.pfx from rfl, hpfx]
    exact beq_self_eq_true key
  cases vrfId with
  | none => simp [List.filter, hmatch] at h2
  | some g =>
    have hrv : rec.vrf = some g := hvrf g rfl
    have hmatch2 : (({ rec with id := st.nextId } : NBPfxRec).vrf == some g) = true := by
      rw [show ({ rec with id := st.nextId } : NBPfxRec).vrf = rec.vrf from rfl, hrv]
      exact beq_self_eq_true _
    simp [List.filter, hmatch, hmatch2] at h2

theorem vrfResolve_createPfx (st : NBState) (r : NBPfxRec) (n : String) :
    vrfResolve (createPfx st r).1 n = vrfResolve st n := rfl

theorem resolvedVrf_createPfx (st : NBState) (r : NBPfxRec) (vn : Option String) :
    resolvedVrf (createPfx st r).1 vn = resolvedVrf st vn := rfl

theorem vrfResolve_createAddr (st : NBState) (r : NBAddrRec) (n : String) :
    vrfResolve (createAddr st r).1 n = vrfResolve st n := rfl

theorem resolvedVrf_createAddr (st : NBState) (r : NBAddrRec) (vn : Option String) :
    resolvedVrf (createAddr st r).1 vn = resolvedVrf st vn := rfl

theorem pfxStep_run1 (sCache vCache mapping : List (String × String))
    (vlanCache : List (String × Nat)) (sc : NBState × Counts) (s : PSubnet)
    (hg : GoodState sc.1) (hlen : ∀ p ∈ vCache, p.2.toList.length ≤ 100) :
    SatPfx (pfxStep false sCache vCache mapping vlanCache allOk sc s).1.1 vCache s ∧
    (pfxStep false sCache vCache mapping vlanCache allOk sc s).1.2.created
        + (pfxStep false sCache vCache mapping vlanCache allOk sc s).1.2.skipped
      = sc.2.created + sc.2.skipped + (if pfxLive s = true then 1 else 0) ∧
    (pfxStep false sCache vCache mapping vlanCache allOk sc s).1.2.errors
      = sc.2.errors := by
  simp only [pfxStep]
  split
  · rename_i hdrop
    have hlive : pfxLive s = false := by
      unfold pfxLive
      cases hx : pyTruthy s.subnet
      · rfl
      · cases hy : pyTruthy s.mask
        · rfl
        · rw [hx, hy] at hdrop
          exact absurd hdrop (by decide)
    refine ⟨?_, ?_, rfl⟩
    · intro hl
      rw [hlive] at hl
      exact absurd hl (by decide)
    · rw [hlive]
      simp
  · rename_i hdropneg
    have hsub : pyTruthy s.subnet = true := by
      cases hx : pyTruthy s.subnet
      · exact absurd (by rw [hx]; rfl) hdropneg
      · rfl
    have hmask : pyTruthy s.mask = true := by
      cases hy : pyTruthy s.mask
      · exact absurd (by rw [hsub, hy]; rfl) hdropneg
      · rfl
    have hlive : pfxLive s = true := by unfold pfxLive; rw [hsub, hmask]; rfl
    rw [show List.range RETRY_ATTEMPTS = [0, 1, 2] from rfl]
    by_cases hvn : pyTruthy (get_vrf_name vCache s.vrfId) = true
    · rw [if_pos hvn]
      have hnmne : ((get_vrf_name vCache s.vrfId).getD "").isEmpty = false :=
        pyTruthy_isEmpty hvn
      have hlen100 : ((get_vrf_name vCache s.vrfId).getD "").toList.length ≤ 100 := by
        rcases hg2 : get_vrf_name vCache s.vrfId with _ | nm0
        · rw [hg2] at hvn
          simp [pyTruthy] at hvn
        · exact get_vrf_name_len hlen hg2
      rcases hres : vrfResolve sc.1 ((get_vrf_name vCache s.vrfId).getD "")
        with _ | i
      · rw [gocv_create hnmne hres]
        dsimp only []
        have hrnew : vrfResolve (createVrf sc.1
            (strTake ((get_vrf_name vCache s.vrfId).getD "") 100) none).1
            ((get_vrf_name vCache s.vrfId).getD "") = some sc.1.nextId :=
          vrfResolve_createVrf hres hlen100
        have hrv : resolvedVrf (createVrf sc.1
            (strTake ((get_vrf_name vCache s.vrfId).getD "") 100) none).1
            (get_vrf_name vCache s.vrfId) = some sc.1.nextId := by
          unfold resolvedVrf
          rw [if_pos hvn]
          exact hrnew
        have hpt : pyTruthyN (some sc.1.nextId) = true := by
          simp only [pyTruthyN, bne_iff_ne]
          have := hg.nextPos
          omega
        by_cases hpf : (filterPfxs (createVrf sc.1
            (strTake ((get_vrf_name vCache s.vrfId).getD "") 100) none).1
            (s.subnet.getD "" ++ "/" ++ s.mask.getD "")
            (some sc.1.nextId)).isEmpty = true
        · rw [pfxTryLoop_create1 hpf 0 [1, 2]]
          refine ⟨?_, ?_, rfl⟩
          · intro hl
            refine ⟨?_, ?_⟩
            · intro hvn2
              rw [vrfResolve_createPfx, hrnew]
              simp
            · rw [resolvedVrf_createPfx, hrv]
              refine pfxCreate_hit rfl ?_
              intro g hgeq
              have hge : g = sc.1.nextId := (Option.some.inj hgeq).symm
              subst hge
              show (if pyTruthyN (some sc.1.nextId) = true
                then some sc.1.nextId else none) = some sc.1.nextId
              rw [if_pos hpt]
          · rw [hlive]
            show sc.2.created + 1 + sc.2.skipped = sc.2.created + sc.2.skipped + 1
            omega
        · have hpf' := bfalse hpf
          rw [pfxTryLoop_skip1 hpf' 0 [1, 2]]
          refine ⟨?_, ?_, rfl⟩
          · intro hl
            refine ⟨?_, ?_⟩
            · intro hvn2
              rw [hrnew]
              simp
            · rw [hrv]
              exact isEmpty_false_ne hpf'
          · rw [hlive]
            show sc.2.created + (sc.2.skipped + 1) = sc.2.created + sc.2.skipped + 1
            omega
      · rw [gocv_found hnmne hres]
        dsimp only []
        have hrv : resolvedVrf sc.1 (get_vrf_name vCache s.vrfId) = some i := by
          unfold resolvedVrf
          rw [if_pos hvn]
          exact hres
        have hipos := vrfResolve_pos hg hres
        have hpt : pyTruthyN (some i) = true := by
          simp only [pyTruthyN, bne_iff_ne]
          omega
        by_cases hpf : (filterPfxs sc.1
            (s.subnet.getD "" ++ "/" ++ s.mask.getD "") (some i)).isEmpty = true
        · rw [pfxTryLoop_create1 hpf 0 [1, 2]]
          refine ⟨?_, ?_, rfl⟩
          · intro hl
            refine ⟨?_, ?_⟩
            · intro hvn2
              rw [vrfResolve_createPfx, hres]
              simp
            · rw [resolvedVrf_createPfx, hrv]
              refine pfxCreate_hit rfl ?_
              intro g hgeq
              have hge : g = i := (Option.some.inj hgeq).symm
              subst hge
              show (if pyTruthyN (some g) = true then some g else none) = some g
              rw [if_pos hpt]
          · rw [hlive]
            show sc.2.created + 1 + sc.2.skipped = sc.2.created + sc.2.skipped + 1
            omega
        · have hpf' := bfalse hpf
          rw [pfxTryLoop_skip1 hpf' 0 [1, 2]]
          refine ⟨?_, ?_, rfl⟩
          · intro hl
            refine ⟨?_, ?_⟩
            · intro hvn2
              rw [hres]
              simp
            · rw [hrv]
              exact isEmpty_false_ne hpf'
          · rw [hlive]
            show sc.2.created + (sc.2.skipped + 1) = sc.2.created + sc.2.skipped + 1
            omega
    · rw [if_neg hvn]
      dsimp only []
      have hrv : resolvedVrf sc.1 (get_vrf_name vCache s.vrfId) = none := by
        unfold resolvedVrf
        rw [if_neg hvn]
      by_cases hpf : (filterPfxs sc.1
          (s.subnet.getD "" ++ "/" ++ s.mask.getD "") none).isEmpty = true
      · rw [pfxTryLoop_create1 hpf 0 [1, 2]]
        refine ⟨?_, ?_, rfl⟩
        · intro hl
          refine ⟨?_, ?_⟩
          · intro hvn2
            exact absurd hvn2 hvn
          · rw [resolvedVrf_createPfx, hrv]
            refine pfxCreate_hit rfl ?_
            intro g hgeq
            exact absurd hgeq (by simp)
        · rw [hlive]
          show sc.2.created + 1 + sc.2.skipped = sc.2.created + sc.2.skipped + 1
          omega
      · have hpf' := bfalse hpf
        rw [pfxTryLoop_skip1 hpf' 0 [1, 2]]
        refine ⟨?_, ?_, rfl⟩
        · intro hl
          refine ⟨?_, ?_⟩
          · intro hvn2
            exact absurd hvn2 hvn
          · rw [hrv]
            exact isEmpty_false_ne hpf'
        · rw [hlive]
          show sc.2.created + (sc.2.skipped + 1) = sc.2.created + sc.2.skipped + 1
          omega

theorem scope_ev (mapping : List (String × String)) (st : NBState)
    (sn : Option String) :
    countCreateEvents (get_scope_for_section mapping st sn).2 = 0 := by
  simp only [get_scope_for_section]
  repeat' split
  all_goals rfl

theorem pfxStep_skip (sCache vCache mapping : List (String × String))
    (vlanCache : List (String × Nat)) (sc : NBState × Counts) {s : PSubnet}
    (h : SatPfx sc.1 vCache s) :
    (pfxStep false sCache vCache mapping vlanCache allOk sc s).1.1 = sc.1 ∧
    (pfxStep false sCache vCache mapping vlanCache allOk sc s).1.2.created
      = sc.2.created ∧
    (pfxStep false sCache vCache mapping vlanCache allOk sc s).1.2.errors
      = sc.2.errors ∧
    (pfxStep false sCache vCache mapping vlanCache allOk sc s).1.2.skipped
      = sc.2.skipped + (if pfxLive s = true then 1 else 0) ∧
    countCreateEvents (pfxStep false sCache vCache mapping vlanCache allOk sc s).2
      = 0 := by
  simp only [pfxStep]
  split
  · rename_i hdrop
    have hlive : pfxLive s = false := by
      unfold pfxLive
      cases hx : pyTruthy s.subnet
      · rfl
      · cases hy : pyTruthy s.mask
        · rfl
        · rw [hx, hy] at hdrop
          exact absurd hdrop (by decide)
    rw [hlive]
    exact ⟨rfl, rfl, rfl, by simp, rfl⟩
  · rename_i hdropneg
    have hsub : pyTruthy s.subnet = true := by
      cases hx : pyTruthy s.subnet
      · exact absurd (by rw [hx]; rfl) hdropneg
      · rfl
    have hmask : pyTruthy s.mask = true := by
      cases hy : pyTruthy s.mask
      · exact absurd (by rw [hsub, hy]; rfl) hdropneg
      · rfl
    have hlive : pfxLive s = true := by unfold pfxLive; rw [hsub, hmask]; rfl
    obtain ⟨h1, h2⟩ := h hlive
    rw [show List.range RETRY_ATTEMPTS = [0, 1, 2] from rfl]
    by_cases hvn : pyTruthy (get_vrf_name vCache s.vrfId) = true
    · have hnmne : ((get_vrf_name vCache s.vrfId).getD "").isEmpty = false :=
        pyTruthy_isEmpty hvn
      rw [if_pos hvn]
      rcases hres : vrfResolve sc.1 ((get_vrf_name vCache s.vrfId).getD "")
        with _ | i
      · exact absurd hres (h1 hvn)
      · rw [gocv_found hnmne hres]
        dsimp only []
        have hrv : resolvedVrf sc.1 (get_vrf_name vCache s.vrfId) = some i := by
          unfold resolvedVrf
          rw [if_pos hvn]
          exact hres
        rw [hrv] at h2
        have h2' : (filterPfxs sc.1
            (s.subnet.getD "" ++ "/" ++ s.mask.getD "") (some i)).isEmpty = false :=
          ne_isEmpty_false h2
        rw [pfxTryLoop_skip1 h2' 0 [1, 2], hlive]
        refine ⟨rfl, rfl, rfl, rfl, ?_⟩
        rw [countCreateEvents_append, countCreateEvents_append, scope_ev]
        rfl
    · rw [if_neg hvn]
      dsimp only []
      have hrv : resolvedVrf sc.1 (get_vrf_name vCache s.vrfId) = none := by
        unfold resolvedVrf
        rw [if_neg hvn]
      rw [hrv] at h2
      have h2' : (filterPfxs sc.1
          (s.subnet.getD "" ++ "/" ++ s.mask.getD "") none).isEmpty = false :=
        ne_isEmpty_false h2
      rw [pfxTryLoop_skip1 h2' 0 [1, 2], hlive]
      refine ⟨rfl, rfl, rfl, rfl, ?_⟩
      rw [countCreateEvents_append, countCreateEvents_append, scope_ev]
      rfl

theorem pfxFold_run1 (sCache vCache mapping : List (String × String))
    (vlanCache : List (String × Nat)) :
    ∀ (l : List PSubnet) (sc : NBState × Counts), GoodState sc.1 →
      (∀ p ∈ vCache, p.2.toList.length ≤ 100) →
      (∀ s ∈ l, SatPfx
        (runFold (pfxStep false sCache vCache mapping vlanCache allOk) l sc).1.1
        vCache s) ∧
      (runFold (pfxStep false sCache vCache mapping vlanCache allOk) l sc).1.2.created
          + (runFold (pfxStep false sCache vCache mapping vlanCache allOk) l sc).1.2.skipped
        = sc.2.created + sc.2.skipped + l.countP pfxLive ∧
      (runFold (pfxStep false sCache vCache mapping vlanCache allOk) l sc).1.2.errors
        = sc.2.errors := by
  intro l
  induction l with
  | nil =>
    intro sc hg hlen
    exact ⟨fun s hs => absurd hs (List.not_mem_nil s), rfl, rfl⟩
  | cons r rs ih =>
    intro sc hg hlen
    rw [runFold_cons]
    obtain ⟨hsat, hcount, herr⟩ :=
      pfxStep_run1 sCache vCache mapping vlanCache sc r hg hlen
    obtain ⟨ihsat, ihcount, iherr⟩ :=
      ih (pfxStep false sCache vCache mapping vlanCache allOk sc r).1
        (goodState_pfxStep hg) hlen
    have hext : SExtG (pfxStep false sCache vCache mapping vlanCache allOk sc r).1.1
        (runFold (pfxStep false sCache vCache mapping vlanCache allOk) rs
          (pfxStep false sCache vCache mapping vlanCache allOk sc r).1).1.1 :=
      runFold_rel (fun s => s.1) SExtG SExtG_refl
        (fun h1 h2 => SExtG_trans h1 h2)
        (pfxStep false sCache vCache mapping vlanCache allOk)
        (fun s r => pfxStep_extG false sCache vCache mapping vlanCache allOk s r) rs
        (pfxStep false sCache vCache mapping vlanCache allOk sc r).1
    refine ⟨?_, ?_, ?_⟩
    · intro v hv
      rcases List.mem_cons.mp hv with hv | hv
      · subst hv
        exact SatPfx_mono hsat hext.ext
      · exact ihsat v hv
    · rw [ihcount, hcount, List.countP_cons]
      omega
    · rw [iherr, herr]

theorem pfxFold_skip (sCache vCache mapping : List (String × String))
    (vlanCache : List (String × Nat)) :
    ∀ (l : List PSubnet) (sc : NBState × Counts),
      (∀ s ∈ l, SatPfx sc.1 vCache s) →
      (runFold (pfxStep false sCache vCache mapping vlanCache allOk) l sc).1.1
        = sc.1 ∧
      (runFold (pfxStep false sCache vCache mapping vlanCache allOk) l sc).1.2.created
        = sc.2.created ∧
      (runFold (pfxStep false sCache vCache mapping vlanCache allOk) l sc).1.2.errors
        = sc.2.errors ∧
      (runFold (pfxStep false sCache vCache mapping vlanCache allOk) l sc).1.2.skipped
        = sc.2.skipped + l.countP pfxLive ∧
      countCreateEvents
        (runFold (pfxStep false sCache vCache mapping vlanCache allOk) l sc).2 = 0 := by
  intro l
  induction l with
  | nil => intro sc h; exact ⟨rfl, rfl, rfl, rfl, rfl⟩
  | cons r rs ih =>
    intro sc h
    rw [runFold_cons]
    obtain ⟨hst, hcr, herr, hsk, hev⟩ :=
      pfxStep_skip sCache vCache mapping vlanCache sc (h r (List.mem_cons_self r rs))
    obtain ⟨ihst, ihcr, iherr, ihsk, ihev⟩ :=
      ih (pfxStep false sCache vCache mapping vlanCache allOk sc r).1
        (fun s hs => by rw [hst]; exact h s (List.mem_cons_of_mem r hs))
    refine ⟨?_, ?_, ?_, ?_, ?_⟩
    · rw [ihst, hst]
    · rw [ihcr, hcr]
    · rw [iherr, herr]
    · rw [ihsk, hsk, List.countP_cons]
      omega
    · rw [countCreateEvents_append, hev, ihev]

-- ───────────────────────── Per-phase run lemmas: addresses ─────────────────────────

theorem takeWhile_no_slash :
    ∀ (l r : List Char), '/' ∉ l →
      (l ++ '/' :: r).takeWhile (fun c => c ≠ '/') = l := by
  intro l
  induction l with
  | nil =>
    intro r h
    simp [List.takeWhile]
  | cons a t ih =>
    intro r h
    have ha : a ≠ '/' := fun heq => h (heq ▸ List.mem_cons_self a t)
    have iht := ih r (fun hm => h (List.mem_cons_of_mem a hm))
    simp only [List.cons_append, List.takeWhile_cons]
    rw [if_pos (by simp [ha]), iht]

theorem hostPart_mk (ip mask : String) (h : '/' ∉ ip.toList) :
    hostPart (ip ++ "/" ++ mask) = ip := by
  unfold hostPart
  have hl : (ip ++ "/" ++ mask).toList = ip.toList ++ '/' :: mask.toList := by
    cases ip with
    | mk d1 =>
      cases mask with
      | mk d2 =>
        show (d1 ++ ['/']) ++ d2 = d1 ++ '/' :: d2
        rw [List.append_assoc]
        rfl
  rw [hl, takeWhile_no_slash ip.toList mask.toList h]
  cases ip
  rfl

theorem addrCreate_hit {st : NBState} {ip : String} {vrfId : Option Nat}
    {rec : NBAddrRec} (hh : hostPart rec.address = ip)
    (hvrf : ∀ g, vrfId = some g → rec.vrf = some g) :
    filterAddrs (createAddr st rec).1 ip vrfId ≠ [] := by
  unfold filterAddrs createAddr
  simp only [List.filter_append]
  intro hc
  have h2 := (List.append_eq_nil.mp hc).2
  have hmatch : (hostPart ({ rec with id := st.nextId } : NBAddrRec).address == ip)
      = true := by
    rw [show ({ rec with id := st.nextId } : NBAddrRec).address = rec.address
      from rfl, hh]
    exact beq_self_eq_true ip
  cases vrfId with
  | none => simp [List.filter, hmatch] at h2
  | some g =>
    have hrv : rec.vrf = some g := hvrf g rfl
    have hmatch2 : (({ rec with id := st.nextId } : NBAddrRec).vrf == some g)
        = true := by
      rw [show ({ rec with id := st.nextId } : NBAddrRec).vrf = rec.vrf
        from rfl, hrv]
      exact beq_self_eq_true _
    simp [List.filter, hmatch, hmatch2] at h2

theorem addrStep_run1 (vCache : List (String × String)) (sc : NBState × Counts)
    (a : PAddr) (hg : GoodState sc.1)
    (hlen : ∀ p ∈ vCache, p.2.toList.length ≤ 100)
    (hslash : '/' ∉ (a.ip.getD "").toList) :
    SatAddr (addrStep false vCache sc a).1.1 vCache a ∧
    (addrStep false vCache sc a).1.2.created
        + (addrStep false vCache sc a).1.2.skipped
      = sc.2.created + sc.2.skipped + (if addrLive a = true then 1 else 0) ∧
    (addrStep false vCache sc a).1.2.errors = sc.2.errors := by
  simp only [addrStep]
  split
  · rename_i hdrop
    have hlive : addrLive a = false := by unfold addrLive; exact bnot_true hdrop
    refine ⟨?_, ?_, rfl⟩
    · intro hl
      rw [hlive] at hl
      exact absurd hl (by decide)
    · rw [hlive]
      simp
  · rename_i hdropneg
    have hlive : addrLive a = true := by
      unfold addrLive
      cases hx : pyTruthy a.ip
      · exact absurd (by rw [hx]; rfl) hdropneg
      · rfl
    by_cases hvn : pyTruthy (get_vrf_name vCache a.vrfId) = true
    · rw [if_pos hvn]
      have hnmne : ((get_vrf_name vCache a.vrfId).getD "").isEmpty = false :=
        pyTruthy_isEmpty hvn
      have hlen100 : ((get_vrf_name vCache a.vrfId).getD "").toList.length ≤ 100 := by
        rcases hg2 : get_vrf_name vCache a.vrfId with _ | nm0
        · rw [hg2] at hvn
          simp [pyTruthy] at hvn
        · exact get_vrf_name_len hlen hg2
      rcases hres : vrfResolve sc.1 ((get_vrf_name vCache a.vrfId).getD "")
        with _ | i
      · rw [gocv_create hnmne hres]
        dsimp only []
        have hrnew : vrfResolve (createVrf sc.1
            (strTake ((get_vrf_name vCache a.vrfId).getD "") 100) none).1
            ((get_vrf_name vCache a.vrfId).getD "") = some sc.1.nextId :=
          vrfResolve_createVrf hres hlen100
        have hrv : resolvedVrf (createVrf sc.1
            (strTake ((get_vrf_name vCache a.vrfId).getD "") 100) none).1
            (get_vrf_name vCache a.vrfId) = some sc.1.nextId := by
          unfold resolvedVrf
          rw [if_pos hvn]
          exact hrnew
        have hpt : pyTruthyN (some sc.1.nextId) = true := by
          simp only [pyTruthyN, bne_iff_ne]
          have := hg.nextPos
          omega
        by_cases haf : (filterAddrs (createVrf sc.1
            (strTake ((get_vrf_name vCache a.vrfId).getD "") 100) none).1
            (a.ip.getD "") (some sc.1.nextId)).isEmpty = true
        · rw [if_neg (by rw [haf]; decide), if_neg Bool.false_ne_true]
          refine ⟨?_, ?_, rfl⟩
          · intro hl
            refine ⟨?_, ?_⟩
            · intro hvn2
              rw [vrfResolve_createAddr, hrnew]
              simp
            · rw [resolvedVrf_createAddr, hrv]
              refine addrCreate_hit ?_ ?_
              · exact hostPart_mk _ _ hslash
              · intro g hgeq
                have hge : g = sc.1.nextId := (Option.some.inj hgeq).symm
                subst hge
                show (if pyTruthyN (some sc.1.nextId) = true
                  then some sc.1.nextId else none) = some sc.1.nextId
                rw [if_pos hpt]
          · rw [hlive]
            show sc.2.created + 1 + sc.2.skipped = sc.2.created + sc.2.skipped + 1
            omega
        · have haf' := bfalse haf
          rw [if_pos (by rw [haf']; rfl)]
          refine ⟨?_, ?_, rfl⟩
          · intro hl
            refine ⟨?_, ?_⟩
            · intro hvn2
              rw [hrnew]
              simp
            · rw [hrv]
              exact isEmpty_false_ne haf'
          · rw [hlive]
            show sc.2.created + (sc.2.skipped + 1) = sc.2.created + sc.2.skipped + 1
            omega
      · rw [gocv_found hnmne hres]
        dsimp only []
        have hrv : resolvedVrf sc.1 (get_vrf_name vCache a.vrfId) = some i := by
          unfold resolvedVrf
          rw [if_pos hvn]
          exact hres
        have hipos := vrfResolve_pos hg hres
        have hpt : pyTruthyN (some i) = true := by
          simp only [pyTruthyN, bne_iff_ne]
          omega
        by_cases haf : (filterAddrs sc.1 (a.ip.getD "") (some i)).isEmpty = true
        · rw [if_neg (by rw [haf]; decide), if_neg Bool.false_ne_true]
          refine ⟨?_, ?_, rfl⟩
          · intro hl
            refine ⟨?_, ?_⟩
            · intro hvn2
              rw [vrfResolve_createAddr, hres]
              simp
            · rw [resolvedVrf_createAddr, hrv]
              refine addrCreate_hit ?_ ?_
              · exact hostPart_mk _ _ hslash
              · intro g hgeq
                have hge : g = i := (Option.some.inj hgeq).symm
                subst hge
                show (if pyTruthyN (some g) = true then some g else none) = some g
                rw [if_pos hpt]
          · rw [hlive]
            show sc.2.created + 1 + sc.2.skipped = sc.2.created + sc.2.skipped + 1
            omega
        · have haf' := bfalse haf
          rw [if_pos (by rw [haf']; rfl)]
          refine ⟨?_, ?_, rfl⟩
          · intro hl
            refine ⟨?_, ?_⟩
            · intro hvn2
              rw [hres]
              simp
            · rw [hrv]
              exact isEmpty_false_ne haf'
          · rw [hlive]
            show sc.2.created + (sc.2.skipped + 1) = sc.2.created + sc.2.skipped + 1
            omega
    · rw [if_neg hvn]
      dsimp only []
      have hrv : resolvedVrf sc.1 (get_vrf_name vCache a.vrfId) = none := by
        unfold resolvedVrf
        rw [if_neg hvn]
      by_cases haf : (filterAddrs sc.1 (a.ip.getD "") none).isEmpty = true
      · rw [if_neg (by rw [haf]; decide), if_neg Bool.false_ne_true]
        refine ⟨?_, ?_, rfl⟩
        · intro hl
          refine ⟨?_, ?_⟩
          · intro hvn2
            exact absurd hvn2 hvn
          · rw [resolvedVrf_createAddr, hrv]
            refine addrCreate_hit ?_ ?_
            · exact hostPart_mk _ _ hslash
            · intro g hgeq
              exact absurd hgeq (by simp)
        · rw [hlive]
          show sc.2.created + 1 + sc.2.skipped = sc.2.created + sc.2.skipped + 1
          omega
      · have haf' := bfalse haf
        rw [if_pos (by rw [haf']; rfl)]
        refine ⟨?_, ?_, rfl⟩
        · intro hl
          refine ⟨?_, ?_⟩
          · intro hvn2
            exact absurd hvn2 hvn
          · rw [hrv]
            exact isEmpty_false_ne haf'
        · rw [hlive]
          show sc.2.created + (sc.2.skipped + 1) = sc.2.created + sc.2.skipped + 1
          omega

theorem addrStep_skip (vCache : List (String × String)) (sc : NBState × Counts)
    {a : PAddr} (h : SatAddr sc.1 vCache a) :
    (addrStep false vCache sc a).1.1 = sc.1 ∧
    (addrStep false vCache sc a).1.2.created = sc.2.created ∧
    (addrStep false vCache sc a).1.2.errors = sc.2.errors ∧
    (addrStep false vCache sc a).1.2.skipped
      = sc.2.skipped + (if addrLive a = true then 1 else 0) ∧
    countCreateEvents (addrStep false vCache sc a).2 = 0 := by
  simp only [addrStep]
  split
  · rename_i hdrop
    have hlive : addrLive a = false := by unfold addrLive; exact bnot_true hdrop
    rw [hlive]
    exact ⟨rfl, rfl, rfl, by simp, rfl⟩
  · rename_i hdropneg
    have hlive : addrLive a = true := by
      unfold addrLive
      cases hx : pyTruthy a.ip
      · exact absurd (by rw [hx]; rfl) hdropneg
      · rfl
    obtain ⟨h1, h2⟩ := h hlive
    by_cases hvn : pyTruthy (get_vrf_name vCache a.vrfId) = true
    · have hnmne : ((get_vrf_name vCache a.vrfId).getD "").isEmpty = false :=
        pyTruthy_isEmpty hvn
      rw [if_pos hvn]
      rcases hres : vrfResolve sc.1 ((get_vrf_name vCache a.vrfId).getD "")
        with _ | i
      · exact absurd hres (h1 hvn)
      · rw [gocv_found hnmne hres]
        dsimp only []
        have hrv : resolvedVrf sc.1 (get_vrf_name vCache a.vrfId) = some i := by
          unfold resolvedVrf
          rw [if_pos hvn]
          exact hres
        rw [hrv] at h2
        have h2' : (filterAddrs sc.1 (a.ip.getD "") (some i)).isEmpty = false :=
          ne_isEmpty_false h2
        rw [if_pos (by rw [h2']; rfl), hlive]
        refine ⟨rfl, rfl, rfl, rfl, ?_⟩
        rw [countCreateEvents_append]
        rfl
    · rw [if_neg hvn]
      dsimp only []
      have hrv : resolvedVrf sc.1 (get_vrf_name vCache a.vrfId) = none := by
        unfold resolvedVrf
        rw [if_neg hvn]
      rw [hrv] at h2
      have h2' : (filterAddrs sc.1 (a.ip.getD "") none).isEmpty = false :=
        ne_isEmpty_false h2
      rw [if_pos (by rw [h2']; rfl), hlive]
      refine ⟨rfl, rfl, rfl, rfl, ?_⟩
      rw [countCreateEvents_append]
      rfl

theorem addrFold_run1 (vCache : List (String × String)) :
    ∀ (l : List PAddr) (sc : NBState × Counts), GoodState sc.1 →
      (∀ p ∈ vCache, p.2.toList.length ≤ 100) →
      (∀ a ∈ l, '/' ∉ (a.ip.getD "").toList) →
      (∀ a ∈ l, SatAddr (runFold (addrStep false vCache) l sc).1.1 vCache a) ∧
      (runFold (addrStep false vCache) l sc).1.2.created
          + (runFold (addrStep false vCache) l sc).1.2.skipped
        = sc.2.created + sc.2.skipped + l.countP addrLive ∧
      (runFold (addrStep false vCache) l sc).1.2.errors = sc.2.errors := by
  intro l
  induction l with
  | nil =>
    intro sc hg hlen hsl
    exact ⟨fun a ha => absurd ha (List.not_mem_nil a), rfl, rfl⟩
  | cons r rs ih =>
    intro sc hg hlen hsl
    rw [runFold_cons]
    obtain ⟨hsat, hcount, herr⟩ := addrStep_run1 vCache sc r hg hlen
      (hsl r (List.mem_cons_self r rs))
    obtain ⟨ihsat, ihcount, iherr⟩ := ih (addrStep false vCache sc r).1
      (goodState_addrStep hg) hlen (fun a ha => hsl a (List.mem_cons_of_mem r ha))
    have hext : SExtG (addrStep false vCache sc r).1.1
        (runFold (addrStep false vCache) rs (addrStep false vCache sc r).1).1.1 :=
      runFold_rel (fun s => s.1) SExtG SExtG_refl
        (fun h1 h2 => SExtG_trans h1 h2) (addrStep false vCache)
        (fun s r => addrStep_extG false vCache s r) rs (addrStep false vCache sc r).1
    refine ⟨?_, ?_, ?_⟩
    · intro v hv
      rcases List.mem_cons.mp hv with hv | hv
      · subst hv
        exact SatAddr_mono hsat hext.ext
      · exact ihsat v hv
    · rw [ihcount, hcount, List.countP_cons]
      omega
    · rw [iherr, herr]

theorem addrFold_skip (vCache : List (String × String)) :
    ∀ (l : List PAddr) (sc : NBState × Counts),
      (∀ a ∈ l, SatAddr sc.1 vCache a) →
      (runFold (addrStep false vCache) l sc).1.1 = sc.1 ∧
      (runFold (addrStep false vCache) l sc).1.2.created = sc.2.created ∧
      (runFold (addrStep false vCache) l sc).1.2.errors = sc.2.errors ∧
      (runFold (addrStep false vCache) l sc).1.2.skipped
        = sc.2.skipped + l.countP addrLive ∧
      countCreateEvents (runFold (addrStep false vCache) l sc).2 = 0 := by
  intro l
  induction l with
  | nil => intro sc h; exact ⟨rfl, rfl, rfl, rfl, rfl⟩
  | cons r rs ih =>
    intro sc h
    rw [runFold_cons]
    obtain ⟨hst, hcr, herr, hsk, hev⟩ :=
      addrStep_skip vCache sc (h r (List.mem_cons_self r rs))
    obtain ⟨ihst, ihcr, iherr, ihsk, ihev⟩ := ih (addrStep false vCache sc r).1
      (fun a ha => by rw [hst]; exact h a (List.mem_cons_of_mem r ha))
    refine ⟨?_, ?_, ?_, ?_, ?_⟩
    · rw [ihst, hst]
    · rw [ihcr, hcr]
    · rw [iherr, herr]
    · rw [ihsk, hsk, List.countP_cons]
      omega
    · rw [countCreateEvents_append, hev, ihev]

-- ───────────────────────── Phase wrappers (claim C1) ─────────────────────────

theorem isEmpty_true_eq_nil {α : Type} {l : List α} (h : l.isEmpty = true) :
    l = [] := by
  cases l with
  | nil => rfl
  | cons a t => simp [List.isEmpty] at h

theorem migrate_vrfs_run1 (snap : Snapshot) (st : NBState) (hg : GoodState st)
    (hlen : ∀ v ∈ snap.vrfs, (strStrip (pyOrEmpty v.name)).toList.length ≤ 100) :
    SExtG st (migrate_vrfs false snap st).1 ∧
    GoodState (migrate_vrfs false snap st).1 ∧
    (∀ v ∈ snap.vrfs, SatVrf (migrate_vrfs false snap st).1 v) ∧
    (migrate_vrfs false snap st).2.1.created
        + (migrate_vrfs false snap st).2.1.skipped = snap.vrfs.countP vrfLive ∧
    (migrate_vrfs false snap st).2.1.errors = 0 := by
  simp only [migrate_vrfs]
  split
  · rename_i he
    have hnil := isEmpty_true_eq_nil he
    refine ⟨SExtG_refl st, hg, ?_, ?_, rfl⟩
    · intro v hv
      rw [hnil] at hv
      exact absurd hv (List.not_mem_nil v)
    · rw [hnil]
      rfl
  · obtain ⟨hsat, hcount, herr⟩ := vrfFold_run1 snap.vrfs (st, Counts.zero) hlen
    have hgood := runFold_pres (fun (x : NBState × Counts) => GoodState x.1)
      (vrfStep false) (fun s r hp => goodState_vrfStep hp) snap.vrfs
      (st, Counts.zero) hg
    have hext := runFold_rel (fun (x : NBState × Counts) => x.1) SExtG SExtG_refl
      (fun h1 h2 => SExtG_trans h1 h2) (vrfStep false)
      (fun s r => vrfStep_extG false s r) snap.vrfs (st, Counts.zero)
    refine ⟨hext, hgood, hsat, ?_, ?_⟩
    · rw [hcount]
      show 0 + 0 + snap.vrfs.countP vrfLive = snap.vrfs.countP vrfLive
      omega
    · rw [herr]
      rfl

theorem migrate_vrfs_run2 (snap : Snapshot) (st : NBState)
    (hs : ∀ v ∈ snap.vrfs, SatVrf st v) :
    (migrate_vrfs false snap st).1 = st ∧
    (migrate_vrfs false snap st).2.1.created = 0 ∧
    (migrate_vrfs false snap st).2.1.errors = 0 ∧
    (migrate_vrfs false snap st).2.1.skipped = snap.vrfs.countP vrfLive ∧
    countCreateEvents (migrate_vrfs false snap st).2.2 = 0 := by
  simp only [migrate_vrfs]
  split
  · rename_i he
    have hnil := isEmpty_true_eq_nil he
    refine ⟨rfl, rfl, rfl, ?_, rfl⟩
    rw [hnil]
    rfl
  · obtain ⟨hst, hcr, herr, hsk, hev⟩ := vrfFold_skip snap.vrfs (st, Counts.zero) hs
    refine ⟨hst, hcr, herr, ?_, ?_⟩
    · rw [hsk]
      show 0 + snap.vrfs.countP vrfLive = snap.vrfs.countP vrfLive
      omega
    · rw [countCreateEvents_append, hev]
      rfl

theorem migrate_vlan_groups_run1 (snap : Snapshot) (st : NBState)
    (hg : GoodState st)
    (hlen : ∀ d ∈ snap.l2domains,
      (strStrip (pyOrEmpty d.name)).toList.length ≤ 100) :
    SExt st (migrate_vlan_groups false snap st).1 ∧
    GoodState (migrate_vlan_groups false snap st).1 ∧
    (∀ d ∈ snap.l2domains, SatGroup (migrate_vlan_groups false snap st).1 d) ∧
    (migrate_vlan_groups false snap st).2.1.created
        + (migrate_vlan_groups false snap st).2.1.skipped
      = snap.l2domains.countP domLive ∧
    (migrate_vlan_groups false snap st).2.1.errors = 0 := by
  simp only [migrate_vlan_groups]
  split
  · rename_i he
    have hnil := isEmpty_true_eq_nil he
    refine ⟨SExt_refl st, hg, ?_, ?_, rfl⟩
    · intro d hd
      rw [hnil] at hd
      exact absurd hd (List.not_mem_nil d)
    · rw [hnil]
      rfl
  · obtain ⟨hsat, hcount, herr⟩ := groupFold_run1 snap.l2domains (st, Counts.zero) hlen
    have hgood := runFold_pres (fun (x : NBState × Counts) => GoodState x.1)
      (groupStep false) (fun s r hp => goodState_groupStep hp) snap.l2domains
      (st, Counts.zero) hg
    have hext := runFold_rel (fun (x : NBState × Counts) => x.1) SExt SExt_refl
      (fun h1 h2 => SExt_trans h1 h2) (groupStep false)
      (fun s r => groupStep_ext false s r) snap.l2domains (st, Counts.zero)
    refine ⟨hext, hgood, hsat, ?_, ?_⟩
    · rw [hcount]
      show 0 + 0 + snap.l2domains.countP domLive = snap.l2domains.countP domLive
      omega
    · rw [herr]
      rfl

theorem migrate_vlan_groups_run2 (snap : Snapshot) (st : NBState)
    (hs : ∀ d ∈ snap.l2domains, SatGroup st d) :
    (migrate_vlan_groups false snap st).1 = st ∧
    (migrate_vlan_groups false snap st).2.1.created = 0 ∧
    (migrate_vlan_groups false snap st).2.1.errors = 0 ∧
    (migrate_vlan_groups false snap st).2.1.skipped
      = snap.l2domains.countP domLive ∧
    countCreateEvents (migrate_vlan_groups false snap st).2.2 = 0 := by
  simp only [migrate_vlan_groups]
  split
  · rename_i he
    have hnil := isEmpty_true_eq_nil he
    refine ⟨rfl, rfl, rfl, ?_, rfl⟩
    rw [hnil]
    rfl
  · obtain ⟨hst, hcr, herr, hsk, hev⟩ :=
      groupFold_skip snap.l2domains (st, Counts.zero) hs
    refine ⟨hst, hcr, herr, ?_, ?_⟩
    · rw [hsk]
      show 0 + snap.l2domains.countP domLive = snap.l2domains.countP domLive
      omega
    · rw [countCreateEvents_append, hev]
      rfl

theorem migrate_vlans_run1 (snap : Snapshot) (st : NBState) (hg : GoodState st) :
    SExtG st (migrate_vlans false snap st).1 ∧
    GoodState (migrate_vlans false snap st).1 ∧
    (∀ v ∈ snap.vlans, SatVlan (migrate_vlans false snap st).1
      (buildNameDict (snap.l2domains.map (fun d => (d.id, d.name)))) v) ∧
    (migrate_vlans false snap st).2.1.created
        + (migrate_vlans false snap st).2.1.skipped
      = snap.vlans.countP vlanLive ∧
    (migrate_vlans false snap st).2.1.errors = 0 := by
  simp only [migrate_vlans]
  split
  · rename_i he
    have hnil := isEmpty_true_eq_nil he
    refine ⟨SExtG_refl st, hg, ?_, ?_, rfl⟩
    · intro v hv
      rw [hnil] at hv
      exact absurd hv (List.not_mem_nil v)
    · rw [hnil]
      rfl
  · obtain ⟨hsat, hcount, herr⟩ := vlanFold_run1
      (buildNameDict (snap.l2domains.map (fun d => (d.id, d.name))))
      snap.vlans (st, Counts.zero, []) hg
    have hgood := runFold_pres (fun (x : VlanFoldState) => GoodState x.1)
      (vlanStep false (buildNameDict (snap.l2domains.map (fun d => (d.id, d.name)))))
      (fun s r hp => goodState_vlanStep hp) snap.vlans (st, Counts.zero, []) hg
    have hext := runFold_rel (fun (x : VlanFoldState) => x.1) SExtG SExtG_refl
      (fun h1 h2 => SExtG_trans h1 h2)
      (vlanStep false (buildNameDict (snap.l2domains.map (fun d => (d.id, d.name)))))
      (fun s r => vlanStep_extG false _ s r) snap.vlans (st, Counts.zero, [])
    refine ⟨hext, hgood, hsat, ?_, ?_⟩
    · rw [hcount]
      show 0 + 0 + snap.vlans.countP vlanLive = snap.vlans.countP vlanLive
      omega
    · rw [herr]
      rfl

set_option maxHeartbeats 8000000 in
theorem migrate_vlans_run2 (snap : Snapshot) (st : NBState)
    (hs : ∀ v ∈ snap.vlans, SatVlan st
      (buildNameDict (snap.l2domains.map (fun d => (d.id, d.name)))) v) :
    (migrate_vlans false snap st).1 = st ∧
    (migrate_vlans false snap st).2.1.created = 0 ∧
    (migrate_vlans false snap st).2.1.errors = 0 ∧
    (migrate_vlans false snap st).2.1.skipped = snap.vlans.countP vlanLive ∧
    countCreateEvents (migrate_vlans false snap st).2.2.2 = 0 := by
  simp only [migrate_vlans]
  split
  · rename_i he
    have hnil := isEmpty_true_eq_nil he
    refine ⟨rfl, rfl, rfl, ?_, rfl⟩
    rw [hnil]
    rfl
  · obtain ⟨hst, hcr, herr, hsk, hev⟩ := vlanFold_skip
      (buildNameDict (snap.l2domains.map (fun d => (d.id, d.name))))
      snap.vlans (st, Counts.zero, []) hs
    refine ⟨?_, ?_, ?_, ?_, ?_⟩
    · exact hst
    · exact hcr
    · exact herr
    · rw [hsk]
      show 0 + snap.vlans.countP vlanLive = snap.vlans.countP vlanLive
      omega
    · rw [countCreateEvents_append, hev]
      rfl

theorem migrate_prefixes_run1 (snap : Snapshot)
    (sCache vCache mapping : List (String × String))
    (vlanCache : List (String × Nat)) (st : NBState) (hg : GoodState st)
    (hlen : ∀ p ∈ vCache, p.2.toList.length ≤ 100) :
    SExtG st (migrate_prefixes false snap sCache vCache mapping vlanCache st).1 ∧
    GoodState (migrate_prefixes false snap sCache vCache mapping vlanCache st).1 ∧
    (∀ s ∈ snap.subnets, SatPfx
      (migrate_prefixes false snap sCache vCache mapping vlanCache st).1 vCache s) ∧
    (migrate_prefixes false snap sCache vCache mapping vlanCache st).2.1.created
        + (migrate_prefixes false snap sCache vCache mapping vlanCache st).2.1.skipped
      = snap.subnets.countP pfxLive ∧
    (migrate_prefixes false snap sCache vCache mapping vlanCache st).2.1.errors
      = 0 := by
  have hperm : List.Perm (sortSubnets snap.subnets) snap.subnets := by
    unfold sortSubnets
    exact List.perm_insertionSort _ _
  simp only [migrate_prefixes]
  split
  · rename_i he
    have hnil := isEmpty_true_eq_nil he
    refine ⟨SExtG_refl st, hg, ?_, ?_, rfl⟩
    · intro s hv
      rw [hnil] at hv
      exact absurd hv (List.not_mem_nil s)
    · rw [hnil]
      rfl
  · obtain ⟨hsat, hcount, herr⟩ := pfxFold_run1 sCache vCache mapping vlanCache
      (sortSubnets snap.subnets) (st, Counts.zero) hg hlen
    have hgood := runFold_pres (fun (x : NBState × Counts) => GoodState x.1)
      (pfxStep false sCache vCache mapping vlanCache allOk)
      (fun s r hp => goodState_pfxStep hp) (sortSubnets snap.subnets)
      (st, Counts.zero) hg
    have hext := runFold_rel (fun (x : NBState × Counts) => x.1) SExtG SExtG_refl
      (fun h1 h2 => SExtG_trans h1 h2)
      (pfxStep false sCache vCache mapping vlanCache allOk)
      (fun s r => pfxStep_extG false sCache vCache mapping vlanCache allOk s r)
      (sortSubnets snap.subnets) (st, Counts.zero)
    refine ⟨hext, hgood, ?_, ?_, ?_⟩
    · intro s hv
      exact hsat s (hperm.mem_iff.mpr hv)
    · rw [hcount, hperm.countP_eq pfxLive]
      show 0 + 0 + snap.subnets.countP pfxLive = snap.subnets.countP pfxLive
      omega
    · rw [herr]
      rfl

theorem migrate_prefixes_run2 (snap : Snapshot)
    (sCache vCache mapping : List (String × String))
    (vlanCache : List (String × Nat)) (st : NBState)
    (hs : ∀ s ∈ snap.subnets, SatPfx st vCache s) :
    (migrate_prefixes false snap sCache vCache mapping vlanCache st).1 = st ∧
    (migrate_prefixes false snap sCache vCache mapping vlanCache st).2.1.created
      = 0 ∧
    (migrate_prefixes false snap sCache vCache mapping vlanCache st).2.1.errors
      = 0 ∧
    (migrate_prefixes false snap sCache vCache mapping vlanCache st).2.1.skipped
      = snap.subnets.countP pfxLive ∧
    countCreateEvents
      (migrate_prefixes false snap sCache vCache mapping vlanCache st).2.2 = 0 := by
  have hperm : List.Perm (sortSubnets snap.subnets) snap.subnets := by
    unfold sortSubnets
    exact List.perm_insertionSort _ _
  simp only [migrate_prefixes]
  split
  · rename_i he
    have hnil := isEmpty_true_eq_nil he
    refine ⟨rfl, rfl, rfl, ?_, rfl⟩
    rw [hnil]
    rfl
  · obtain ⟨hst, hcr, herr, hsk, hev⟩ := pfxFold_skip sCache vCache mapping
      vlanCache (sortSubnets snap.subnets) (st, Counts.zero)
      (fun s hv => hs s (hperm.mem_iff.mp hv))
    refine ⟨hst, hcr, herr, ?_, ?_⟩
    · rw [hsk, hperm.countP_eq pfxLive]
      show 0 + snap.subnets.countP pfxLive = snap.subnets.countP pfxLive
      omega
    · rw [countCreateEvents_append, hev]
      rfl

theorem migrate_addresses_run1 (snap : Snapshot)
    (vCache : List (String × String)) (st : NBState) (hg : GoodState st)
    (hlen : ∀ p ∈ vCache, p.2.toList.length ≤ 100)
    (hsl : ∀ a ∈ snap.addresses, '/' ∉ (a.ip.getD "").toList) :
    SExtG st (migrate_addresses false snap vCache st).1 ∧
    GoodState (migrate_addresses false snap vCache st).1 ∧
    (∀ a ∈ snap.addresses, SatAddr (migrate_addresses false snap vCache st).1
      vCache a) ∧
    (migrate_addresses false snap vCache st).2.1.created
        + (migrate_addresses false snap vCache st).2.1.skipped
      = snap.addresses.countP addrLive ∧
    (migrate_addresses false snap vCache st).2.1.errors = 0 := by
  simp only [migrate_addresses]
  split
  · rename_i he
    have hnil := isEmpty_true_eq_nil he
    refine ⟨SExtG_refl st, hg, ?_, ?_, rfl⟩
    · intro a hv
      rw [hnil] at hv
      exact absurd hv (List.not_mem_nil a)
    · rw [hnil]
      rfl
  · obtain ⟨hsat, hcount, herr⟩ := addrFold_run1 vCache snap.addresses
      (st, Counts.zero) hg hlen hsl
    have hgood := runFold_pres (fun (x : NBState × Counts) => GoodState x.1)
      (addrStep false vCache) (fun s r hp => goodState_addrStep hp)
      snap.addresses (st, Counts.zero) hg
    have hext := runFold_rel (fun (x : NBState × Counts) => x.1) SExtG SExtG_refl
      (fun h1 h2 => SExtG_trans h1 h2) (addrStep false vCache)
      (fun s r => addrStep_extG false vCache s r) snap.addresses (st, Counts.zero)
    refine ⟨hext, hgood, hsat, ?_, ?_⟩
    · rw [hcount]
      show 0 + 0 + snap.addresses.countP addrLive = snap.addresses.countP addrLive
      omega
    · rw [herr]
      rfl

theorem migrate_addresses_run2 (snap : Snapshot)
    (vCache : List (String × String)) (st : NBState)
    (hs : ∀ a ∈ snap.addresses, SatAddr st vCache a) :
    (migrate_addresses false snap vCache st).1 = st ∧
    (migrate_addresses false snap vCache st).2.1.created = 0 ∧
    (migrate_addresses false snap vCache st).2.1.errors = 0 ∧
    (migrate_addresses false snap vCache st).2.1.skipped
      = snap.addresses.countP addrLive ∧
    countCreateEvents (migrate_addresses false snap vCache st).2.2 = 0 := by
  simp only [migrate_addresses]
  split
  · rename_i he
    have hnil := isEmpty_true_eq_nil he
    refine ⟨rfl, rfl, rfl, ?_, rfl⟩
    rw [hnil]
    rfl
  · obtain ⟨hst, hcr, herr, hsk, hev⟩ := addrFold_skip vCache snap.addresses
      (st, Counts.zero) hs
    refine ⟨hst, hcr, herr, ?_, ?_⟩
    · rw [hsk]
      show 0 + snap.addresses.countP addrLive = snap.addresses.countP addrLive
      omega
    · rw [countCreateEvents_append, hev]
      rfl

theorem buildVrfsCache_val {vrfs : List PVrf} {p : String × String}
    (h : p ∈ buildVrfsCache vrfs) : ∃ v ∈ vrfs, p.2 = pyOrEmpty v.name := by
  unfold buildVrfsCache at h
  by_cases he : vrfs.isEmpty = true
  · rw [if_pos he] at h
    exact absurd h (List.not_mem_nil p)
  · rw [if_neg he] at h
    unfold buildNameDict at h
    by_cases hall : ((vrfs.map (fun v => (v.vrfId, v.name))).all
        (fun q => !pyTruthy q.1 || q.2.isSome)) = true
    · rw [if_pos hall] at h
      obtain ⟨q, hq, hqe⟩ := List.mem_map.mp h
      obtain ⟨v, hv, hve⟩ := List.mem_map.mp (List.mem_filter.mp hq).1
      refine ⟨v, hv, ?_⟩
      have hp2 : p.2 = q.2.getD "" := by rw [← hqe]
      rw [hp2, ← hve]
      rfl
    · rw [if_neg hall] at h
      exact absurd h (List.not_mem_nil p)

-- ───────────────────────── Claim C1 ─────────────────────────

/-- Claim C1, counterexample: with a routing-domain name of 101
characters the migration is not idempotent even against an initially
empty target — migrate_vrfs filters on the full name but creates the
record with the name truncated to 100 characters, so the second run
misses the existence check and issues another create call. -/
theorem C1_counterexample :
    (runMigration false []
        ⟨[], [⟨some "1", some (String.mk (List.replicate 101 'a')), none⟩],
          [], [], [], []⟩
        (runMigration false []
          ⟨[], [⟨some "1", some (String.mk (List.replicate 101 'a')), none⟩],
            [], [], [], []⟩
          ⟨[], [], [], [], [], [], 1⟩).st).vrfCounts.created = 1 ∧
    (runMigration false []
        ⟨[], [⟨some "1", some (String.mk (List.replicate 101 'a')), none⟩],
          [], [], [], []⟩
        (runMigration false []
          ⟨[], [⟨some "1", some (String.mk (List.replicate 101 'a')), none⟩],
            [], [], [], []⟩
          ⟨[], [], [], [], [], [], 1⟩).st).st
      ≠ (runMigration false []
          ⟨[], [⟨some "1", some (String.mk (List.replicate 101 'a')), none⟩],
            [], [], [], []⟩
          ⟨[], [], [], [], [], [], 1⟩).st := by
  refine ⟨by decide, by decide⟩

/-- Claim C1 (corrected): the full migration is idempotent against an
initially empty target provided every routing-domain name fits the
100-character field limit (for both migrate_vrfs and the VRFS_CACHE
names resolved by the prefix/address phases), every l2domain name fits
it after stripping, and no source address literal contains a slash.
The second run then mutates nothing, issues no create call, reports
zero created for every kind, and skips exactly the records the first
run created or skipped. -/
theorem C1_idempotence (mapping : List (String × String)) (snap : Snapshot)
    (sites : List NBSite) (nid : Nat) (hnid : 1 ≤ nid)
    (hvrf : ∀ v ∈ snap.vrfs, (pyOrEmpty v.name).toList.length ≤ 100)
    (hdom : ∀ d ∈ snap.l2domains, (strStrip (pyOrEmpty d.name)).toList.length ≤ 100)
    (haddr : ∀ a ∈ snap.addresses, '/' ∉ (pyOrEmpty a.ip).toList) :
    (runMigration false mapping snap
        (runMigration false mapping snap ⟨[], [], [], [], [], sites, nid⟩).st).st
      = (runMigration false mapping snap ⟨[], [], [], [], [], sites, nid⟩).st ∧
    countCreateEvents (runMigration false mapping snap
        (runMigration false mapping snap ⟨[], [], [], [], [], sites, nid⟩).st).trace
      = 0 ∧
    (runMigration false mapping snap
        (runMigration false mapping snap ⟨[], [], [], [], [], sites, nid⟩).st).vrfCounts.created = 0 ∧
    (runMigration false mapping snap
        (runMigration false mapping snap ⟨[], [], [], [], [], sites, nid⟩).st).groupCounts.created = 0 ∧
    (runMigration false mapping snap
        (runMigration false mapping snap ⟨[], [], [], [], [], sites, nid⟩).st).vlanCounts.created = 0 ∧
    (runMigration false mapping snap
        (runMigration false mapping snap ⟨[], [], [], [], [], sites, nid⟩).st).pfxCounts.created = 0 ∧
    (runMigration false mapping snap
        (runMigration false mapping snap ⟨[], [], [], [], [], sites, nid⟩).st).addrCounts.created = 0 ∧
    (runMigration false mapping snap
        (runMigration false mapping snap ⟨[], [], [], [], [], sites, nid⟩).st).vrfCounts.skipped
      = (runMigration false mapping snap ⟨[], [], [], [], [], sites, nid⟩).vrfCounts.created
        + (runMigration false mapping snap ⟨[], [], [], [], [], sites, nid⟩).vrfCounts.skipped ∧
    (runMigration false mapping snap
        (runMigration false mapping snap ⟨[], [], [], [], [], sites, nid⟩).st).groupCounts.skipped
      = (runMigration false mapping snap ⟨[], [], [], [], [], sites, nid⟩).groupCounts.created
        + (runMigration false mapping snap ⟨[], [], [], [], [], sites, nid⟩).groupCounts.skipped ∧
    (runMigration false mapping snap
        (runMigration false mapping snap ⟨[], [], [], [], [], sites, nid⟩).st).vlanCounts.skipped
      = (runMigration false mapping snap ⟨[], [], [], [], [], sites, nid⟩).vlanCounts.created
        + (runMigration false mapping snap ⟨[], [], [], [], [], sites, nid⟩).vlanCounts.skipped ∧
    (runMigration false mapping snap
        (runMigration false mapping snap ⟨[], [], [], [], [], sites, nid⟩).st).pfxCounts.skipped
      = (runMigration false mapping snap ⟨[], [], [], [], [], sites, nid⟩).pfxCounts.created
        + (runMigration false mapping snap ⟨[], [], [], [], [], sites, nid⟩).pfxCounts.skipped ∧
    (runMigration false mapping snap
        (runMigration false mapping snap ⟨[], [], [], [], [], sites, nid⟩).st).addrCounts.skipped
      = (runMigration false mapping snap ⟨[], [], [], [], [], sites, nid⟩).addrCounts.created
        + (runMigration false mapping snap ⟨[], [], [], [], [], sites, nid⟩).addrCounts.skipped := by
  set st0 : NBState := ⟨[], [], [], [], [], sites, nid⟩ with hst0
  set SC := buildSectionsCache snap.sections with hSC
  set VC := buildVrfsCache snap.vrfs with hVC
  have hg0 : GoodState st0 := ⟨hnid,
    fun r h => absurd h (List.not_mem_nil r),
    fun g h => absurd h (List.not_mem_nil g)⟩
  have hvrf2 : ∀ v ∈ snap.vrfs,
      (strStrip (pyOrEmpty v.name)).toList.length ≤ 100 :=
    fun v hv => le_trans (strStrip_length_le _) (hvrf v hv)
  have hcache : ∀ p ∈ VC, p.2.toList.length ≤ 100 := by
    intro p hp
    obtain ⟨v, hv, he⟩ := buildVrfsCache_val hp
    rw [he]
    exact hvrf v hv
  obtain ⟨e1, g1, s1, c1, er1⟩ := migrate_vrfs_run1 snap st0 hg0 hvrf2
  set S1 := (migrate_vrfs false snap st0).1 with hS1
  obtain ⟨e2, g2, s2, c2, er2⟩ := migrate_vlan_groups_run1 snap S1 g1 hdom
  set S2 := (migrate_vlan_groups false snap S1).1 with hS2
  obtain ⟨e3, g3, s3, c3, er3⟩ := migrate_vlans_run1 snap S2 g2
  set S3 := (migrate_vlans false snap S2).1 with hS3
  obtain ⟨e4, g4, s4, c4, er4⟩ := migrate_prefixes_run1 snap SC VC mapping
    ((migrate_vlans false snap S2).2.2.1) S3 g3 hcache
  set S4 := (migrate_prefixes false snap SC VC mapping
    ((migrate_vlans false snap S2).2.2.1) S3).1 with hS4
  obtain ⟨e5, g5, s5, c5, er5⟩ := migrate_addresses_run1 snap VC S4 g4 hcache haddr
  set S5 := (migrate_addresses false snap VC S4).1 with hS5
  have heq1 : (runMigration false mapping snap st0).st = S5 := rfl
  have ext15 : SExt S1 S5 :=
    SExt_trans e2 (SExt_trans e3.ext (SExt_trans e4.ext e5.ext))
  have ext25 : SExt S2 S5 := SExt_trans e3.ext (SExt_trans e4.ext e5.ext)
  have extg35 : SExtG S3 S5 := SExtG_trans e4 e5
  have sat1 : ∀ v ∈ snap.vrfs, SatVrf S5 v :=
    fun v hv => SatVrf_mono (s1 v hv) ext15
  have sat2 : ∀ d ∈ snap.l2domains, SatGroup S5 d :=
    fun d hd => SatGroup_mono (s2 d hd) ext25
  have sat3 : ∀ v ∈ snap.vlans, SatVlan S5
      (buildNameDict (snap.l2domains.map (fun d => (d.id, d.name)))) v :=
    fun v hv => SatVlan_mono (s3 v hv) extg35
  have sat4 : ∀ s ∈ snap.subnets, SatPfx S5 VC s :=
    fun s hs => SatPfx_mono (s4 s hs) e5.ext
  have sat5 : ∀ a ∈ snap.addresses, SatAddr S5 VC a := s5
  obtain ⟨t1, d1, f1, k1, v1⟩ := migrate_vrfs_run2 snap S5 sat1
  set T1 := (migrate_vrfs false snap S5).1 with hT1
  have u1 : T1 = S5 := t1
  obtain ⟨t2, d2, f2, k2, v2⟩ := migrate_vlan_groups_run2 snap T1
    (fun d hd => by rw [u1]; exact sat2 d hd)
  set T2 := (migrate_vlan_groups false snap T1).1 with hT2
  have u2 : T2 = S5 := by rw [t2, u1]
  obtain ⟨t3, d3, f3, k3, v3⟩ := migrate_vlans_run2 snap T2
    (fun v hv => by rw [u2]; exact sat3 v hv)
  set T3 := (migrate_vlans false snap T2).1 with hT3
  have u3 : T3 = S5 := by rw [t3, u2]
  obtain ⟨t4, d4, f4, k4, v4⟩ := migrate_prefixes_run2 snap SC VC mapping
    ((migrate_vlans false snap T2).2.2.1) T3
    (fun s hs => by rw [u3]; exact sat4 s hs)
  set T4 := (migrate_prefixes false snap SC VC mapping
    ((migrate_vlans false snap T2).2.2.1) T3).1 with hT4
  have u4 : T4 = S5 := by rw [t4, u3]
  obtain ⟨t5, d5, f5, k5, v5⟩ := migrate_addresses_run2 snap VC T4
    (fun a ha => by rw [u4]; exact sat5 a ha)
  have u5 : (migrate_addresses false snap VC T4).1 = S5 := by rw [t5, u4]
  rw [heq1]
  refine ⟨?_, ?_, ?_, ?_, ?_, ?_, ?_, ?_, ?_, ?_, ?_, ?_⟩
  · show (migrate_addresses false snap VC T4).1 = S5
    exact u5
  · show countCreateEvents
      ([Event.srcGet "sections/", Event.srcGet "vrfs/"]
        ++ (migrate_vrfs false snap S5).2.2
        ++ (migrate_vlan_groups false snap T1).2.2
        ++ (migrate_vlans false snap T2).2.2.2
        ++ (migrate_prefixes false snap SC VC mapping
            ((migrate_vlans false snap T2).2.2.1) T3).2.2
        ++ (migrate_addresses false snap VC T4).2.2) = 0
    rw [countCreateEvents_append, countCreateEvents_append,
      countCreateEvents_append, countCreateEvents_append,
      countCreateEvents_append, v1, v2, v3, v4, v5]
    rfl
  · show (migrate_vrfs false snap S5).2.1.created = 0
    exact d1
  · show (migrate_vlan_groups false snap T1).2.1.created = 0
    exact d2
  · show (migrate_vlans false snap T2).2.1.created = 0
    exact d3
  · show (migrate_prefixes false snap SC VC mapping
        ((migrate_vlans false snap T2).2.2.1) T3).2.1.created = 0
    exact d4
  · show (migrate_addresses false snap VC T4).2.1.created = 0
    exact d5
  · show (migrate_vrfs false snap S5).2.1.skipped
      = (migrate_vrfs false snap st0).2.1.created
        + (migrate_vrfs false snap st0).2.1.skipped
    rw [k1]
    omega
  · show (migrate_vlan_groups false snap T1).2.1.skipped
      = (migrate_vlan_groups false snap S1).2.1.created
        + (migrate_vlan_groups false snap S1).2.1.skipped
    rw [k2]
    omega
  · show (migrate_vlans false snap T2).2.1.skipped
      = (migrate_vlans false snap S2).2.1.created
        + (migrate_vlans false snap S2).2.1.skipped
    rw [k3]
    omega
  · show (migrate_prefixes false snap SC VC mapping
        ((migrate_vlans false snap T2).2.2.1) T3).2.1.skipped
      = (migrate_prefixes false snap SC VC mapping
          ((migrate_vlans false snap S2).2.2.1) S3).2.1.created
        + (migrate_prefixes false snap SC VC mapping
            ((migrate_vlans false snap S2).2.2.1) S3).2.1.skipped
    rw [k4]
    omega
  · show (migrate_addresses false snap VC T4).2.1.skipped
      = (migrate_addresses false snap VC S4).2.1.created
        + (migrate_addresses false snap VC S4).2.1.skipped
    rw [k5]
    omega

/-- Concrete snapshot exercising every phase, used by the C1 witness. -/
def snapC1 : Snapshot :=
  ⟨[⟨some "1", some "HQ", none⟩],
   [⟨some "1", some "CORP", none⟩],
   [⟨some "1", some "Campus", none⟩],
   [⟨some "10", some "100", none, some "Users", some "1", none⟩],
   [⟨some "10.0.0.0", some "24", some "1", some "1", none, none, none, none⟩],
   [⟨some "10.0.0.5", some "host1", none, some "1"⟩]⟩

/-- Claim C1, witness: the corrected idempotence theorem applied to a
concrete snapshot with one record of every kind against a target
holding one site. -/
theorem C1_witness :
    (1 ≤ 7 ∧
      (∀ v ∈ snapC1.vrfs, (pyOrEmpty v.name).toList.length ≤ 100) ∧
      (∀ d ∈ snapC1.l2domains,
        (strStrip (pyOrEmpty d.name)).toList.length ≤ 100) ∧
      (∀ a ∈ snapC1.addresses, '/' ∉ (pyOrEmpty a.ip).toList)) ∧
    (runMigration false [] snapC1
        (runMigration false [] snapC1
          ⟨[], [], [], [], [], [⟨1, "HQ"⟩], 7⟩).st).st
      = (runMigration false [] snapC1 ⟨[], [], [], [], [], [⟨1, "HQ"⟩], 7⟩).st :=
  ⟨⟨by decide, by decide, by decide, by decide⟩,
    (C1_idempotence [] snapC1 [⟨1, "HQ"⟩] 7 (by decide) (by decide) (by decide)
      (by decide)).1⟩

-- ───────────────────────── Dry-run lemmas (claim C7) ─────────────────────────

theorem gocv_dry (st : NBState) (n : String) :
    (get_or_create_vrf true st n).2.1 = st ∧
    countCreateEvents (get_or_create_vrf true st n).2.2 = 0 := by
  simp only [get_or_create_vrf, eq_self_iff_true, if_true]
  repeat' split
  all_goals exact ⟨rfl, rfl⟩

theorem vrfStep_dry (sc : NBState × Counts) (v : PVrf) :
    (vrfStep true sc v).1.1 = sc.1 ∧
    countCreateEvents (vrfStep true sc v).2 = 0 := by
  simp only [vrfStep, eq_self_iff_true, if_true]
  repeat' split
  all_goals exact ⟨rfl, rfl⟩

theorem groupStep_dry (sc : NBState × Counts) (d : PDomain) :
    (groupStep true sc d).1.1 = sc.1 ∧
    countCreateEvents (groupStep true sc d).2 = 0 := by
  simp only [groupStep, eq_self_iff_true, if_true]
  repeat' split
  all_goals exact ⟨rfl, rfl⟩

theorem vlanStep_dry (domains : List (String × String)) (scc : VlanFoldState)
    (v : PVlan) :
    (vlanStep true domains scc v).1.1 = scc.1 ∧
    countCreateEvents (vlanStep true domains scc v).2 = 0 := by
  simp only [vlanStep, eq_self_iff_true, if_true]
  repeat' split
  all_goals first
    | exact ⟨rfl, rfl⟩
    | (refine ⟨rfl, ?_⟩
       rw [countCreateEvents_append, vlanGroupPair_ev]
       rfl)
    | (refine ⟨rfl, ?_⟩
       rw [countCreateEvents_append, countCreateEvents_append, vlanGroupPair_ev]
       rfl)

theorem pfxTryLoop_dry (script : Nat → NbResult) (pl : PfxPayload)
    (vrfId : Option Nat) :
    ∀ (atts : List Nat) (st : NBState) (c : Counts),
      (pfxTryLoop true script pl vrfId atts st c).1 = st ∧
      countCreateEvents (pfxTryLoop true script pl vrfId atts st c).2.2.1 = 0 := by
  intro atts
  cases atts with
  | nil => intro st c; exact ⟨rfl, rfl⟩
  | cons attempt rest =>
    intro st c
    simp only [pfxTryLoop, eq_self_iff_true, if_true]
    repeat' split
    all_goals exact ⟨rfl, rfl⟩

theorem pfxStep_dry (sCache vCache mapping : List (String × String))
    (vlanCache : List (String × Nat)) (script : Nat → NbResult)
    (sc : NBState × Counts) (s : PSubnet) :
    (pfxStep true sCache vCache mapping vlanCache script sc s).1.1 = sc.1 ∧
    countCreateEvents (pfxStep true sCache vCache mapping vlanCache script sc s).2
      = 0 := by
  simp only [pfxStep]
  split
  · exact ⟨rfl, rfl⟩
  split
  · obtain ⟨hst, hev⟩ := gocv_dry sc.1 ((get_vrf_name vCache s.vrfId).getD "")
    refine ⟨?_, ?_⟩
    · rw [(pfxTryLoop_dry _ _ _ _ _ _).1]
      exact hst
    · rw [countCreateEvents_append, countCreateEvents_append, hev, scope_ev,
        (pfxTryLoop_dry _ _ _ _ _ _).2]
  · refine ⟨?_, ?_⟩
    · rw [(pfxTryLoop_dry _ _ _ _ _ _).1]
    · rw [countCreateEvents_append, countCreateEvents_append, scope_ev,
        (pfxTryLoop_dry _ _ _ _ _ _).2]
      rfl

theorem addrStep_dry (vCache : List (String × String)) (sc : NBState × Counts)
    (a : PAddr) :
    (addrStep true vCache sc a).1.1 = sc.1 ∧
    countCreateEvents (addrStep true vCache sc a).2 = 0 := by
  simp only [addrStep, eq_self_iff_true, if_true]
  repeat' split
  all_goals first
    | exact ⟨rfl, rfl⟩
    | (obtain ⟨hst, hev⟩ := gocv_dry sc.1 ((get_vrf_name vCache a.vrfId).getD "")
       refine ⟨hst, ?_⟩
       rw [countCreateEvents_append, hev]
       rfl)

theorem runFold_dry {σ α : Type} (proj : σ → NBState)
    (step : σ → α → σ × List Event)
    (h : ∀ s r, proj (step s r).1 = proj s ∧ countCreateEvents (step s r).2 = 0) :
    ∀ (l : List α) (s : σ),
      proj (runFold step l s).1 = proj s ∧
      countCreateEvents (runFold step l s).2 = 0 := by
  intro l
  induction l with
  | nil => intro s; exact ⟨rfl, rfl⟩
  | cons r rs ih =>
    intro s
    rw [runFold_cons]
    refine ⟨((ih (step s r).1).1).trans (h s r).1, ?_⟩
    rw [countCreateEvents_append, (h s r).2, (ih (step s r).1).2]

theorem migrate_vrfs_dry (snap : Snapshot) (st : NBState) :
    (migrate_vrfs true snap st).1 = st ∧
    countCreateEvents (migrate_vrfs true snap st).2.2 = 0 := by
  simp only [migrate_vrfs]
  split
  · exact ⟨rfl, rfl⟩
  · obtain ⟨h1, h2⟩ := runFold_dry (fun (x : NBState × Counts) => x.1)
      (vrfStep true) (fun s r => vrfStep_dry s r) snap.vrfs (st, Counts.zero)
    refine ⟨h1, ?_⟩
    rw [countCreateEvents_append, h2]
    rfl

theorem migrate_vlan_groups_dry (snap : Snapshot) (st : NBState) :
    (migrate_vlan_groups true snap st).1 = st ∧
    countCreateEvents (migrate_vlan_groups true snap st).2.2 = 0 := by
  simp only [migrate_vlan_groups]
  split
  · exact ⟨rfl, rfl⟩
  · obtain ⟨h1, h2⟩ := runFold_dry (fun (x : NBState × Counts) => x.1)
      (groupStep true) (fun s r => groupStep_dry s r) snap.l2domains
      (st, Counts.zero)
    refine ⟨h1, ?_⟩
    rw [countCreateEvents_append, h2]
    rfl

theorem migrate_vlans_dry (snap : Snapshot) (st : NBState) :
    (migrate_vlans true snap st).1 = st ∧
    countCreateEvents (migrate_vlans true snap st).2.2.2 = 0 := by
  simp only [migrate_vlans]
  split
  · exact ⟨rfl, rfl⟩
  · obtain ⟨h1, h2⟩ := runFold_dry (fun (x : VlanFoldState) => x.1)
      (vlanStep true (buildNameDict (snap.l2domains.map (fun d => (d.id, d.name)))))
      (fun s r => vlanStep_dry _ s r) snap.vlans (st, Counts.zero, [])
    refine ⟨h1, ?_⟩
    rw [countCreateEvents_append, h2]
    rfl

theorem migrate_prefixes_dry (snap : Snapshot)
    (sCache vCache mapping : List (String × String))
    (vlanCache : List (String × Nat)) (st : NBState) :
    (migrate_prefixes true snap sCache vCache mapping vlanCache st).1 = st ∧
    countCreateEvents
      (migrate_prefixes true snap sCache vCache mapping vlanCache st).2.2 = 0 := by
  simp only [migrate_prefixes]
  split
  · exact ⟨rfl, rfl⟩
  · obtain ⟨h1, h2⟩ := runFold_dry (fun (x : NBState × Counts) => x.1)
      (pfxStep true sCache vCache mapping vlanCache allOk)
      (fun s r => pfxStep_dry sCache vCache mapping vlanCache allOk s r)
      (sortSubnets snap.subnets) (st, Counts.zero)
    refine ⟨h1, ?_⟩
    rw [countCreateEvents_append, h2]
    rfl

theorem migrate_addresses_dry (snap : Snapshot)
    (vCache : List (String × String)) (st : NBState) :
    (migrate_addresses true snap vCache st).1 = st ∧
    countCreateEvents (migrate_addresses true snap vCache st).2.2 = 0 := by
  simp only [migrate_addresses]
  split
  · exact ⟨rfl, rfl⟩
  · obtain ⟨h1, h2⟩ := runFold_dry (fun (x : NBState × Counts) => x.1)
      (addrStep true vCache) (fun s r => addrStep_dry vCache s r)
      snap.addresses (st, Counts.zero)
    refine ⟨h1, ?_⟩
    rw [countCreateEvents_append, h2]
    rfl

-- ───────────────────────── Claim C7 ─────────────────────────

/-- Claim C7, counterexample: the created counters of a dry run do not
report what a live run would create.  With two source VRF records
carrying the same name, the dry run counts both as would-create (its
existence checks always run against the never-updated initial store),
while a live run creates the first and skips the second. -/
theorem C7_counterexample :
    (runMigration true []
        ⟨[], [⟨some "1", some "CORP", none⟩, ⟨some "2", some "CORP", none⟩],
          [], [], [], []⟩
        ⟨[], [], [], [], [], [], 1⟩).vrfCounts.created = 2 ∧
    (runMigration false []
        ⟨[], [⟨some "1", some "CORP", none⟩, ⟨some "2", some "CORP", none⟩],
          [], [], [], []⟩
        ⟨[], [], [], [], [], [], 1⟩).vrfCounts.created = 1 :=
  ⟨by decide, by decide⟩

/-- Claim C7 (corrected): with the dry-run flag enabled no create call
is ever issued to the target store by any migrator (including the
routing-domain get-or-create helper) and the target state is left
entirely unchanged; the per-kind created counters, however, count
records against the static initial store, which can differ from what a
live run would create. -/
theorem C7_dry_run_purity (mapping : List (String × String)) (snap : Snapshot)
    (st : NBState) :
    (runMigration true mapping snap st).st = st ∧
    countCreateEvents (runMigration true mapping snap st).trace = 0 := by
  obtain ⟨p1, q1⟩ := migrate_vrfs_dry snap st
  set T1 := (migrate_vrfs true snap st).1 with hT1
  obtain ⟨p2, q2⟩ := migrate_vlan_groups_dry snap T1
  set T2 := (migrate_vlan_groups true snap T1).1 with hT2
  obtain ⟨p3, q3⟩ := migrate_vlans_dry snap T2
  set T3 := (migrate_vlans true snap T2).1 with hT3
  obtain ⟨p4, q4⟩ := migrate_prefixes_dry snap (buildSectionsCache snap.sections)
    (buildVrfsCache snap.vrfs) mapping ((migrate_vlans true snap T2).2.2.1) T3
  set T4 := (migrate_prefixes true snap (buildSectionsCache snap.sections)
    (buildVrfsCache snap.vrfs) mapping ((migrate_vlans true snap T2).2.2.1) T3).1
    with hT4
  obtain ⟨p5, q5⟩ := migrate_addresses_dry snap (buildVrfsCache snap.vrfs) T4
  refine ⟨?_, ?_⟩
  · show (migrate_addresses true snap (buildVrfsCache snap.vrfs) T4).1 = st
    rw [p5, p4, p3, p2, p1]
  · show countCreateEvents
      ([Event.srcGet "sections/", Event.srcGet "vrfs/"]
        ++ (migrate_vrfs true snap st).2.2
        ++ (migrate_vlan_groups true snap T1).2.2
        ++ (migrate_vlans true snap T2).2.2.2
        ++ (migrate_prefixes true snap (buildSectionsCache snap.sections)
            (buildVrfsCache snap.vrfs) mapping
            ((migrate_vlans true snap T2).2.2.1) T3).2.2
        ++ (migrate_addresses true snap (buildVrfsCache snap.vrfs) T4).2.2) = 0
    rw [countCreateEvents_append, countCreateEvents_append,
      countCreateEvents_append, countCreateEvents_append,
      countCreateEvents_append, q1, q2, q3, q4, q5]
    rfl
